import Mathlib

/-!
# Raksetu BloodHub: the emergency filtering view-model

A shallow embedding of `src/components/BloodHub/EmergencySection.jsx`:
the request filter `applyFilters` (lines 84-107), the haversine distance
`calculateDistance` (lines 127-136), the notification check (lines 68-82) and
the handlers of the response state machine (lines 121-243). The profile editor
of `ProfileSection.jsx` follows in the namespace `ProfileSection`.

Modelling conventions.

* JavaScript numbers are the elements of a linearly ordered field `Num`; the
  definitions are computable for every such field, and the numerical facts are
  proved at `Num = ℝ` (exact real arithmetic, IEEE-754 rounding of the
  intermediate operations is not modelled).
* The platform functions the code calls (`Math.PI`, `Math.sin`, `Math.cos`,
  `Math.sqrt`, `Math.atan2`, `Math.round`, `String.prototype.toLowerCase`) are
  the fields of a record `Builtins`; `realBuiltins` is their real-number reading.
* An object property that may be `undefined` or `null` is an `Option`.
* Truthiness follows JavaScript: the empty string, `0`, `null` and `undefined`
  are falsy.
-/

namespace EmergencySection

/-! ## Data model -/

/-- The platform functions used by the component. -/
structure Builtins (Num : Type) where
  /-- The constant `Math.PI`. -/
  PI : Num
  /-- The function `Math.sin`. -/
  sin : Num → Num
  /-- The function `Math.cos`. -/
  cos : Num → Num
  /-- The function `Math.sqrt`. -/
  sqrt : Num → Num
  /-- The function `Math.atan2`, first argument `y`, second argument `x`. -/
  atan2 : Num → Num → Num
  /-- The function `Math.round`. -/
  round : Num → Num
  /-- The method `String.prototype.toLowerCase`. -/
  toLowerCase : String → String

/-- The `coordinates` property of a request: `{ latitude, longitude }`. -/
structure Coordinates (Num : Type) where
  latitude : Num
  longitude : Num
deriving DecidableEq

/-- The `userLocation` prop: `{ lat, lng }`. -/
structure UserLocation (Num : Type) where
  lat : Num
  lng : Num
deriving DecidableEq

/-- An element of the `emergencyRequests` prop, with every property the
component reads. `timestamp` holds `timestamp.seconds`. -/
structure EmergencyRequest (Num : Type) where
  id : Option String
  hospital : Option String
  location : Option String
  coordinates : Option (Coordinates Num)
  bloodType : Option String
  urgency : Option String
  units : Option Nat
  donorsResponded : Option Nat
  timestamp : Option Num
  notes : Option String
  contactName : Option String
  contactPhone : Option String
  isRare : Option Bool
deriving DecidableEq

/-- Line 34: the blood types offered by the filter dropdown. -/
def bloodTypes : List String := ["All", "A+", "A-", "B+", "B-", "AB+", "AB-", "O+", "O-"]

/-- Line 35: the rarity set. -/
def rareBloodTypes : List String := ["O h"]

/-! ## Operations -/

section Operations

variable {Num : Type} [LinearOrderedField Num]

/-- Lines 127-136: the haversine distance in kilometres, one decimal place. -/
def calculateDistance (js : Builtins Num) (lat1 lon1 lat2 lon2 : Num) : Num :=
  let R : Num := 6371
  let dLat := (lat2 - lat1) * js.PI / 180
  let dLon := (lon2 - lon1) * js.PI / 180
  let a := js.sin (dLat / 2) * js.sin (dLat / 2) +
           js.cos (lat1 * js.PI / 180) * js.cos (lat2 * js.PI / 180) *
           js.sin (dLon / 2) * js.sin (dLon / 2)
  let c := 2 * js.atan2 (js.sqrt a) (js.sqrt (1 - a))
  js.round (R * c * 10) / 10

/-- The method `String.prototype.includes`: `sub` occurs in `s` as a contiguous
run of characters. -/
def includes (s sub : String) : Bool := decide (sub.data <:+: s.data)

/-- Line 103: `rareBloodTypes.includes(e.bloodType)`. -/
def isRareBloodType : Option String → Bool
  | some b => decide (b ∈ rareBloodTypes)
  | none => false

/-- Line 87, the callback: `e.bloodType === bloodTypeFilter`. -/
def matchesBloodType (bloodTypeFilter : String) (e : EmergencyRequest Num) : Bool :=
  decide (e.bloodType = some bloodTypeFilter)

/-- One disjunct of lines 89-90:
`field && field.toLowerCase().includes(searchQuery.toLowerCase())`. -/
def fieldMatches (js : Builtins Num) (searchQuery : String) : Option String → Bool
  | some s => decide (s ≠ "") && includes (js.toLowerCase s) (js.toLowerCase searchQuery)
  | none => false

/-- Lines 88-91, the callback: the hospital or the location matches the query. -/
def matchesQuery (js : Builtins Num) (searchQuery : String) (e : EmergencyRequest Num) : Bool :=
  fieldMatches js searchQuery e.hospital || fieldMatches js searchQuery e.location

/-- Lines 92-101, the callback: a request without coordinates is rejected,
otherwise its distance from the user is compared with the filter. -/
def withinDistance (js : Builtins Num) (distanceFilter : Num) (userLocation : UserLocation Num)
    (e : EmergencyRequest Num) : Bool :=
  match e.coordinates with
  | none => false
  | some c =>
    decide (calculateDistance js userLocation.lat userLocation.lng c.latitude c.longitude
      ≤ distanceFilter)

/-- Lines 102-105, the callback of the final `map`. -/
def tagRequest (e : EmergencyRequest Num) : EmergencyRequest Num :=
  if isRareBloodType e.bloodType then { e with isRare := some true }
  else { e with donorsResponded := some (e.donorsResponded.getD 0) }

/-- Lines 84-107: `applyFilters`. The closure variables `emergencyRequests`,
`bloodTypeFilter`, `searchQuery`, `distanceFilter` and `userLocation` are the
arguments. -/
def applyFilters (js : Builtins Num) (emergencyRequests : Option (List (EmergencyRequest Num)))
    (bloodTypeFilter searchQuery : String) (distanceFilter : Option Num)
    (userLocation : Option (UserLocation Num)) : List (EmergencyRequest Num) :=
  match emergencyRequests with
  | none => []
  | some requests =>
    let filtered := requests
    let filtered :=
      if bloodTypeFilter ≠ "All" then filtered.filter (matchesBloodType bloodTypeFilter)
      else filtered
    let filtered :=
      if searchQuery ≠ "" then filtered.filter (matchesQuery js searchQuery) else filtered
    let filtered :=
      match distanceFilter, userLocation with
      | some d, some u => if d ≠ 0 then filtered.filter (withinDistance js d u) else filtered
      | _, _ => filtered
    filtered.map tagRequest

/-! ## The three predicates with their activation guards -/

/-- The blood-type predicate with its guard of line 87: inactive under the
filter value All. -/
def bloodTypePredicate (bloodTypeFilter : String) (e : EmergencyRequest Num) : Bool :=
  decide (bloodTypeFilter = "All") || matchesBloodType bloodTypeFilter e

/-- The query predicate with its guard of line 88: inactive under the empty
query. -/
def queryPredicate (js : Builtins Num) (searchQuery : String) (e : EmergencyRequest Num) : Bool :=
  decide (searchQuery = "") || matchesQuery js searchQuery e

/-- The distance predicate with its guard of line 92: inactive unless a
non-zero maximum distance is selected and the user location is present. -/
def distancePredicate (js : Builtins Num) (distanceFilter : Option Num)
    (userLocation : Option (UserLocation Num)) (e : EmergencyRequest Num) : Bool :=
  match distanceFilter, userLocation with
  | some d, some u => decide (d = 0) || withinDistance js d u e
  | _, _ => true

/-- A request with the two properties written by the final `map` erased. -/
def untagged (e : EmergencyRequest Num) : EmergencyRequest Num :=
  { e with isRare := none, donorsResponded := none }

end Operations

/-! ## The real-number reading of the built-ins -/

/-- Lower-casing of the letters A to Z, the ASCII part of `toLowerCase`. -/
def asciiLowerCase (s : String) : String := ⟨s.data.map Char.toLower⟩

/-- The built-ins over exact real arithmetic: `Math.atan2 y x` is the argument
of the complex number `x + y i`, `Math.round` rounds half-way cases up. -/
noncomputable def realBuiltins : Builtins ℝ where
  PI := Real.pi
  sin := Real.sin
  cos := Real.cos
  sqrt := Real.sqrt
  atan2 := fun y x => Complex.arg ⟨x, y⟩
  round := fun x => ((round x : ℤ) : ℝ)
  toLowerCase := asciiLowerCase

/-- The haversine term of the specification, angles converted to radians:
`sin^2(dLat/2) + cos(lat1) * cos(lat2) * sin^2(dLon/2)`. -/
noncomputable def haversineTerm (lat1 lon1 lat2 lon2 : ℝ) : ℝ :=
  Real.sin ((lat2 - lat1) * Real.pi / 180 / 2) ^ 2 +
    Real.cos (lat1 * Real.pi / 180) * Real.cos (lat2 * Real.pi / 180) *
      Real.sin ((lon2 - lon1) * Real.pi / 180 / 2) ^ 2

/-- The great-circle distance of the specification on a sphere of radius
6371 km: `6371 * 2 * asin(sqrt(a))`. -/
noncomputable def haversineReference (lat1 lon1 lat2 lon2 : ℝ) : ℝ :=
  6371 * 2 * Real.arcsin (Real.sqrt (haversineTerm lat1 lon1 lat2 lon2))

/-- Rounding to one decimal place, half-way cases up. -/
noncomputable def roundOneDecimal (x : ℝ) : ℝ := ((round (x * 10) : ℤ) : ℝ) / 10

/-! ## Concrete inputs -/

/-- A request with every property absent. -/
def blankRequest (Num : Type) : EmergencyRequest Num where
  id := none
  hospital := none
  location := none
  coordinates := none
  bloodType := none
  urgency := none
  units := none
  donorsResponded := none
  timestamp := none
  notes := none
  contactName := none
  contactPhone := none
  isRare := none

/-- A request for the rare blood type that carries no `donorsResponded`. -/
def rareRequest : EmergencyRequest ℝ :=
  { blankRequest ℝ with
    id := some "r1", hospital := some "City Hospital", bloodType := some "O h",
    urgency := some "Critical", units := some 2 }

/-- A request that carries no `coordinates`. -/
def noCoordinatesRequest : EmergencyRequest ℝ :=
  { blankRequest ℝ with
    id := some "r2", hospital := some "City Hospital", bloodType := some "A+",
    urgency := some "Urgent", units := some 1 }

/-- The user standing at latitude 0, longitude 0. -/
noncomputable def originLocation : UserLocation ℝ := ⟨0, 0⟩

/-- A Critical request for O- blood on the meridian of the user, at latitude
`360 / (6371 * pi)` degrees: 2 km north of `originLocation`. -/
noncomputable def twoKmRequest : EmergencyRequest ℝ :=
  { blankRequest ℝ with
    id := some "r3", hospital := some "Apollo Hospital", location := some "Bengaluru",
    coordinates := some ⟨360 / (6371 * Real.pi), 0⟩, bloodType := some "O-",
    urgency := some "Critical", units := some 3 }

/-! ## The response state machine

The handlers of lines 121-243. A handler is read as one atomic step on the
component state; the calls it makes to the outside world (document store, SMS
endpoint, parent callback) are recorded in a trace, and whether each call
succeeds is an input of the handler. `Date` values are inputs as well. -/

/-- The values taken by `currentView` (line 45 and every `setCurrentView`). -/
inductive View where
  | emergencyList
  | emergencyDetail
  | donorConfirmation
  | donationConfirmed
deriving DecidableEq

/-- The `nearbyDonors` state: `{ count, estimatedTime, radius }`. -/
structure NearbyDonors where
  count : Int
  estimatedTime : String
  radius : String
deriving DecidableEq

/-- The `userProfile` prop, with the two properties the component reads. -/
structure UserProfile where
  bloodType : Option String
  phoneNumber : Option String
deriving DecidableEq

/-- The state variables of lines 42-53 that the handlers read or write. -/
structure ViewState (Num : Type) where
  currentView : View
  selectedEmergency : Option (EmergencyRequest Num)
  viewingEmergency : Bool
  nearbyDonors : Option NearbyDonors
  isProcessing : Bool
  error : Option String
  isOnline : Bool
  newEmergencyNotification : Option (EmergencyRequest Num)
  animateNotification : Bool
  showChat : Bool

/-- The state after the `useState` initialisers of lines 42-53; `online` is
the value of `navigator.onLine`. -/
def initialState (Num : Type) (online : Bool) : ViewState Num where
  currentView := View.emergencyList
  selectedEmergency := none
  viewingEmergency := false
  nearbyDonors := none
  isProcessing := false
  error := none
  isOnline := online
  newEmergencyNotification := none
  animateNotification := false
  showChat := false

/-- The further platform functions of lines 149-151: `Math.floor`,
`Math.ceil`, and the value returned by the one call of `Math.random`. -/
structure EstimateBuiltins (Num : Type) where
  floor : Num → Int
  ceil : Num → Int
  random : Num

/-- How a `fetch` call ends: the promise is rejected, or it resolves to a
response whose `ok` flag tells a 2xx status. -/
inductive FetchResult where
  | rejected
  | response (ok : Bool)
deriving DecidableEq

/-- The object passed to `onDonationConfirmed` (lines 215-224). -/
structure DonationPayload where
  id : String
  type : String
  hospital : Option String
  location : Option String
  bloodType : Option String
  units : Nat
  date : String
  time : String
deriving DecidableEq

/-- A call made to the outside world. In `sendSms` the first argument is the
property `to` of the posted body. -/
inductive Effect where
  | updateDoc (id : String) (donorsResponded : Nat) (donorResponseTime : String)
  | deleteDoc (id : String)
  | sendSms (recipient : Option String) (message : String)
  | donationConfirmed (payload : DonationPayload)
deriving DecidableEq

/-- The calls that write to the document store. -/
def Effect.isStoreWrite : Effect → Bool
  | Effect.updateDoc _ _ _ => true
  | Effect.deleteDoc _ => true
  | _ => false

/-- A document of the collection `emergencyRequests`: the request and the
`donorResponseTime` written by `confirmDonation`. -/
structure StoredRequest (Num : Type) where
  request : EmergencyRequest Num
  donorResponseTime : Option String

/-- The collection `emergencyRequests`, by document identifier. -/
def Store (Num : Type) : Type := String → Option (StoredRequest Num)

/-- A successful `updateDoc(doc(db, 'emergencyRequests', id), { donorsResponded,
donorResponseTime })`: the two fields are merged into the document. (The store
rejects the update of a missing document; that is a failed call.) -/
def Store.update {Num : Type} (store : Store Num) (id : String) (donorsResponded : Nat)
    (donorResponseTime : String) : Store Num :=
  fun key =>
    if key = id then
      (store key).map fun d =>
        { request := { d.request with donorsResponded := some donorsResponded },
          donorResponseTime := some donorResponseTime }
    else store key

/-- A successful `deleteDoc(doc(db, 'emergencyRequests', id))`. -/
def Store.delete {Num : Type} (store : Store Num) (id : String) : Store Num :=
  fun key => if key = id then none else store key

/-- The outside world as `confirmDonation` meets it: whether each call
succeeds, whether the parent passed `onDonationConfirmed`, and the three values
of `new Date().toISOString()` (lines 193, 222, 223). -/
structure ConfirmEnv where
  updateDocOk : Bool
  deleteDocOk : Bool
  smsResult : FetchResult
  hasCallback : Bool
  callbackOk : Bool
  responseTime : String
  callbackDate : String
  callbackTime : String

/-- What the `try` block of `confirmDonation` leaves behind: the store, the
calls made so far, and whether the block ran to its end without a throw. -/
structure ConfirmRun (Num : Type) where
  store : Store Num
  trace : List Effect
  completed : Bool

section ResponseMachine

variable {Num : Type}

/-- The operator `value || fallback` on a number that may be absent. -/
def orElse (value : Option Nat) (fallback : Nat) : Nat :=
  match value with
  | some n => if n ≠ 0 then n else fallback
  | none => fallback

/-- The operator `value || fallback` on a string that may be absent. -/
def orElseString (value : Option String) (fallback : String) : String :=
  match value with
  | some s => if s ≠ "" then s else fallback
  | none => fallback

/-- Truthiness of a string that may be absent. -/
def truthy (value : Option String) : Bool :=
  match value with
  | some s => decide (s ≠ "")
  | none => false

/-- A property that may be absent, as a template literal prints it. -/
def interpolate (value : Option String) : String := value.getD "undefined"

/-- Lines 121-125: `handleEmergencySelect`. -/
def handleEmergencySelect (emergency : EmergencyRequest Num) (s : ViewState Num) :
    ViewState Num :=
  { s with
    selectedEmergency := some emergency
    viewingEmergency := true
    currentView := View.emergencyDetail }

/-- Line 156: the fixed estimate of the `catch` branch. -/
def fallbackNearbyDonors : NearbyDonors :=
  { count := 8, estimatedTime := "15 minutes", radius := "5 km" }

/-- Lines 141-152: the body of the `try` block of `handleEmergencyResponse` up
to the value passed to `setNearbyDonors`. It throws when the user location is
absent, when `selectedEmergency` is `null` (the property access fails), and
when the request has no coordinates. -/
def estimateNearbyDonors [LinearOrderedField Num] (js : Builtins Num)
    (mx : EstimateBuiltins Num) (userLocation : Option (UserLocation Num))
    (selectedEmergency : Option (EmergencyRequest Num)) : Except String NearbyDonors :=
  match userLocation with
  | none => Except.error "Location data is missing"
  | some u =>
    match selectedEmergency with
    | none => Except.error "TypeError"
    | some e =>
      match e.coordinates with
      | none => Except.error "Location data is missing"
      | some c =>
        let distance := calculateDistance js u.lat u.lng c.latitude c.longitude
        Except.ok
          { count := mx.floor (mx.random * 10) + 3
            estimatedTime := toString (mx.floor (distance * 3)) ++ " minutes"
            radius := toString (mx.ceil distance) ++ " km" }

/-- Lines 138-161: `handleEmergencyResponse`. -/
def handleEmergencyResponse [LinearOrderedField Num] (js : Builtins Num)
    (mx : EstimateBuiltins Num) (userLocation : Option (UserLocation Num))
    (s : ViewState Num) : ViewState Num :=
  let s := { s with isProcessing := true }
  let s :=
    match estimateNearbyDonors js mx userLocation s.selectedEmergency with
    | Except.ok estimate =>
      { s with nearbyDonors := some estimate, currentView := View.donorConfirmation }
    | Except.error _ =>
      { s with nearbyDonors := some fallbackNearbyDonors,
               currentView := View.donorConfirmation }
  { s with isProcessing := false }

/-- Line 171: the SMS body of the offline response. -/
def smsResponseMessage (e : EmergencyRequest Num) : String :=
  "Donor responding to donate " ++ interpolate e.bloodType ++ " blood at " ++
    interpolate e.hospital ++ ", " ++ interpolate e.location

/-- Lines 163-182: `handleSMSEmergencyResponse`; `result` is how the `fetch`
of line 166 ends. With `selectedEmergency` equal to `null` the request body
cannot be built and no call is made. Returns the state and the calls made. -/
def handleSMSEmergencyResponse (result : FetchResult) (s : ViewState Num) :
    ViewState Num × List Effect :=
  let s := { s with isProcessing := true }
  let failure : ViewState Num :=
    { s with error := some "Failed to send SMS. Please try again when online.",
             isProcessing := false }
  match s.selectedEmergency with
  | none => (failure, [])
  | some e =>
    let trace := [Effect.sendSms e.contactPhone (smsResponseMessage e)]
    match result with
    | FetchResult.response true =>
      ({ s with currentView := View.donationConfirmed, isProcessing := false }, trace)
    | FetchResult.response false => (failure, trace)
    | FetchResult.rejected => (failure, trace)

/-- Line 208: the SMS body of the confirmation. -/
def confirmationMessage (e : EmergencyRequest Num) : String :=
  "Thank you for confirming your donation! Details:\nHospital: " ++ interpolate e.hospital ++
    "\nLocation: " ++ interpolate e.location ++
    "\nBlood Type: " ++ interpolate e.bloodType ++
    "\nUnits: " ++ toString (orElse e.units 1) ++
    "\nContact: " ++ orElseString e.contactPhone "Hospital Contact"

/-- The part of an ISO time stamp before the letter T (line 222). -/
def isoDate (iso : String) : String := (iso.splitOn "T").headD ""

/-- The part of an ISO time stamp between the letter T and the first dot
(line 223). -/
def isoTime (iso : String) : String := ((((iso.splitOn "T").drop 1).headD "").splitOn ".").headD ""

/-- Lines 215-224: the object passed to `onDonationConfirmed`. -/
def donationPayload (env : ConfirmEnv) (e : EmergencyRequest Num) (id : String) :
    DonationPayload :=
  { id := id
    type := "emergency"
    hospital := e.hospital
    location := e.location
    bloodType := e.bloodType
    units := orElse e.units 1
    date := isoDate env.callbackDate
    time := isoTime env.callbackTime }

/-- Lines 213-225: the parent callback, the last step of the `try` block. -/
def confirmNotify (env : ConfirmEnv) (e : EmergencyRequest Num) (id : String)
    (store : Store Num) (trace : List Effect) : ConfirmRun Num :=
  if env.hasCallback then
    { store := store
      trace := trace ++ [Effect.donationConfirmed (donationPayload env e id)]
      completed := env.callbackOk }
  else { store := store, trace := trace, completed := true }

/-- Lines 201-211: the SMS to the registered phone number, then the callback.
The awaited `fetch` throws only when it is rejected. -/
def confirmSms (userProfile : Option UserProfile) (env : ConfirmEnv) (e : EmergencyRequest Num)
    (id : String) (store : Store Num) (trace : List Effect) : ConfirmRun Num :=
  match userProfile.bind (fun p => p.phoneNumber) with
  | some phone =>
    if phone ≠ "" then
      let trace := trace ++ [Effect.sendSms (some phone) (confirmationMessage e)]
      if env.smsResult = FetchResult.rejected then
        { store := store, trace := trace, completed := false }
      else confirmNotify env e id store trace
    else confirmNotify env e id store trace
  | none => confirmNotify env e id store trace

/-- Lines 196-199: the conditional delete, then the rest. -/
def confirmDelete (userProfile : Option UserProfile) (env : ConfirmEnv)
    (e : EmergencyRequest Num) (id : String) (newDonorsResponded : Nat) (store : Store Num)
    (trace : List Effect) : ConfirmRun Num :=
  if newDonorsResponded ≥ orElse e.units 1 then
    let trace := trace ++ [Effect.deleteDoc id]
    if env.deleteDocOk then confirmSms userProfile env e id (store.delete id) trace
    else { store := store, trace := trace, completed := false }
  else confirmSms userProfile env e id store trace

/-- Lines 187-226: the body of the `try` block of `confirmDonation` for a
selected request `e` with the truthy identifier `id`. -/
def confirmWrites (userProfile : Option UserProfile) (env : ConfirmEnv)
    (e : EmergencyRequest Num) (id : String) (store : Store Num) : ConfirmRun Num :=
  let newDonorsResponded := orElse e.donorsResponded 0 + 1
  let trace := [Effect.updateDoc id newDonorsResponded env.responseTime]
  if env.updateDocOk then
    confirmDelete userProfile env e id newDonorsResponded
      (store.update id newDonorsResponded env.responseTime) trace
  else { store := store, trace := trace, completed := false }

/-- Lines 186-227: the `try` block of `confirmDonation`; nothing is called
unless a request with a truthy `id` is selected. -/
def confirmRun (userProfile : Option UserProfile) (env : ConfirmEnv) (s : ViewState Num)
    (store : Store Num) : ConfirmRun Num :=
  match s.selectedEmergency with
  | some e =>
    match e.id with
    | some id =>
      if id ≠ "" then confirmWrites userProfile env e id store
      else { store := store, trace := [], completed := true }
    | none => { store := store, trace := [], completed := true }
  | none => { store := store, trace := [], completed := true }

/-- Lines 184-234: `confirmDonation`. The view is set by line 227 when the
`try` block completes and by line 230 when it throws. -/
def confirmDonation (userProfile : Option UserProfile) (env : ConfirmEnv) (s : ViewState Num)
    (store : Store Num) : ViewState Num × ConfirmRun Num :=
  let s := { s with isProcessing := true }
  let run := confirmRun userProfile env s store
  let s :=
    if run.completed then { s with currentView := View.donationConfirmed }
    else { s with currentView := View.donationConfirmed }
  ({ s with isProcessing := false }, run)

/-- Lines 236-243: `backToEmergencies`. -/
def backToEmergencies (s : ViewState Num) : ViewState Num :=
  { s with
    viewingEmergency := false
    selectedEmergency := none
    nearbyDonors := none
    currentView := View.emergencyList
    newEmergencyNotification := none
    showChat := false }

/-- Lines 69-81: the effect run on every new request list or profile. The
result is the request passed to `setNewEmergencyNotification`, if the setter
is called. `now` is the `new Date()` of line 73 and `later` the `new Date()`
of line 74, both in milliseconds; `timestamp` holds whole seconds. -/
def newEmergencyCheck [LinearOrderedField Num] (userProfile : Option UserProfile)
    (emergencyRequests : Option (List (EmergencyRequest Num))) (now later : Num) :
    Option (EmergencyRequest Num) :=
  match userProfile with
  | none => none
  | some profile =>
    if truthy profile.bloodType then
      match emergencyRequests with
      | none => none
      | some requests =>
        let userBloodType := profile.bloodType
        match requests.head? with
        | none => none
        | some latestEmergency =>
          if latestEmergency.bloodType = userBloodType then
            let emergencyTime :=
              match latestEmergency.timestamp with
              | some seconds => seconds * 1000
              | none => later
            let timeDiff := (now - emergencyTime) / 1000 / 60
            if timeDiff < 5 then some latestEmergency else none
          else none
    else none

/-- Lines 68-82: the state after the effect. -/
def notificationEffect [LinearOrderedField Num] (userProfile : Option UserProfile)
    (emergencyRequests : Option (List (EmergencyRequest Num))) (now later : Num)
    (s : ViewState Num) : ViewState Num :=
  match newEmergencyCheck userProfile emergencyRequests now later with
  | some latestEmergency =>
    { s with newEmergencyNotification := some latestEmergency, animateNotification := true }
  | none => s

end ResponseMachine

/-! ## The controls each view renders -/

/-- A user or platform event: the handler bound to a control that some view
renders, with the inputs the handler reads from outside the component. -/
inductive Action (Num : Type) where
  /-- Lines 296 and 368: a card of the list, `handleEmergencySelect(emergency)`. -/
  | selectEmergency (emergency : EmergencyRequest Num)
  /-- Lines 443-446: the button of the notification banner. -/
  | respondToNotification
  /-- Line 605 (detail view) and line 1027 (confirmed view): `backToEmergencies`. -/
  | backToList
  /-- Line 764: `handleEmergencyResponse`, rendered when online. -/
  | respond (userLocation : Option (UserLocation Num)) (mx : EstimateBuiltins Num)
  /-- Line 798: `handleSMSEmergencyResponse`, rendered when offline. -/
  | respondViaSms (result : FetchResult)
  /-- Lines 843 and 926: `setCurrentView('emergency-detail')`. -/
  | backToDetail
  /-- Line 909: `confirmDonation`. -/
  | confirm (userProfile : Option UserProfile) (env : ConfirmEnv) (store : Store Num)
  /-- Lines 58-59: the `online` and `offline` events of the window. -/
  | connectivity (online : Bool)

section Controls

variable {Num : Type}

/-- Whether the control of an action is on screen and enabled in a state:
`renderCurrentView` (lines 1103-1116) picks the view, the detail and the
confirmation views render nothing without a selected request (lines 596, 837),
the confirmed view reads the selected request, and the buttons of lines 765,
799, 910 carry `disabled={isProcessing}`. -/
def enabled (a : Action Num) (s : ViewState Num) : Bool :=
  match a with
  | Action.selectEmergency _ => decide (s.currentView = View.emergencyList)
  | Action.respondToNotification =>
    decide (s.currentView = View.emergencyList) && s.newEmergencyNotification.isSome
  | Action.backToList =>
    (decide (s.currentView = View.emergencyDetail) ||
      decide (s.currentView = View.donationConfirmed)) && s.selectedEmergency.isSome
  | Action.respond _ _ =>
    decide (s.currentView = View.emergencyDetail) && s.selectedEmergency.isSome &&
      s.isOnline && !s.isProcessing
  | Action.respondViaSms _ =>
    decide (s.currentView = View.emergencyDetail) && s.selectedEmergency.isSome &&
      !s.isOnline && !s.isProcessing
  | Action.backToDetail =>
    decide (s.currentView = View.donorConfirmation) && s.selectedEmergency.isSome &&
      s.nearbyDonors.isSome
  | Action.confirm _ _ _ =>
    decide (s.currentView = View.donorConfirmation) && s.selectedEmergency.isSome &&
      s.nearbyDonors.isSome && !s.isProcessing
  | Action.connectivity _ => true

/-- The component state after the handler of an action has run. -/
def perform [LinearOrderedField Num] (js : Builtins Num) (a : Action Num) (s : ViewState Num) :
    ViewState Num :=
  match a with
  | Action.selectEmergency emergency => handleEmergencySelect emergency s
  | Action.respondToNotification =>
    match s.newEmergencyNotification with
    | some emergency =>
      { handleEmergencySelect emergency s with newEmergencyNotification := none }
    | none => s
  | Action.backToList => backToEmergencies s
  | Action.respond userLocation mx => handleEmergencyResponse js mx userLocation s
  | Action.respondViaSms result => (handleSMSEmergencyResponse result s).1
  | Action.backToDetail => { s with currentView := View.emergencyDetail }
  | Action.confirm userProfile env store => (confirmDonation userProfile env s store).1
  | Action.connectivity online => { s with isOnline := online }

/-- One step of the component: an enabled action is performed. -/
def Step [LinearOrderedField Num] (js : Builtins Num) (s t : ViewState Num) : Prop :=
  ∃ a : Action Num, enabled a s = true ∧ perform js a s = t

/-- The states reached from an initial state by steps. -/
inductive Reachable [LinearOrderedField Num] (js : Builtins Num) : ViewState Num → Prop where
  | initial (online : Bool) : Reachable js (initialState Num online)
  | step {s : ViewState Num} (a : Action Num) :
      Reachable js s → enabled a s = true → Reachable js (perform js a s)

/-- The transitions between views as the specification lists them. -/
def claimedTransitions : List (View × View) :=
  [(View.emergencyList, View.emergencyDetail),
   (View.emergencyDetail, View.donorConfirmation),
   (View.donorConfirmation, View.donationConfirmed),
   (View.emergencyDetail, View.emergencyList),
   (View.donorConfirmation, View.emergencyDetail),
   (View.emergencyDetail, View.donationConfirmed)]

/-- The transitions between views of the component: those of the
specification and the return from the confirmed view to the list. -/
def viewTransitions : List (View × View) :=
  claimedTransitions ++ [(View.donationConfirmed, View.emergencyList)]

end Controls

/-! ## Concrete inputs of the response state machine -/

/-- An outside world in which every call succeeds and the parent passes the
callback. -/
def okEnv : ConfirmEnv where
  updateDocOk := true
  deleteDocOk := true
  smsResult := FetchResult.response true
  hasCallback := true
  callbackOk := true
  responseTime := "2025-03-01T10:15:30.000Z"
  callbackDate := "2025-03-01T10:15:31.000Z"
  callbackTime := "2025-03-01T10:15:31.000Z"

/-- Platform functions whose values do not matter: constant estimates. -/
def zeroEstimate (Num : Type) [LinearOrderedField Num] : EstimateBuiltins Num where
  floor := fun _ => 0
  ceil := fun _ => 0
  random := 0

/-- A store that holds `rareRequest` (identifier r1, 2 units, no
`donorsResponded`) and nothing else. -/
def sampleStore : Store ℝ :=
  fun key => if key = "r1" then some { request := rareRequest, donorResponseTime := none }
    else none

/-- The detail view of `rareRequest`, reached from the initial state by
selecting its card. -/
def detailState (online : Bool) : ViewState ℝ :=
  handleEmergencySelect rareRequest (initialState ℝ online)

/-- The donor-confirmation view of `rareRequest`, the user location absent. -/
noncomputable def confirmationState : ViewState ℝ :=
  handleEmergencyResponse realBuiltins (zeroEstimate ℝ) none (detailState true)

/-- The confirmed view of `rareRequest`. -/
noncomputable def confirmedState : ViewState ℝ :=
  (confirmDonation none okEnv confirmationState sampleStore).1

/-- A viewer with blood type O-. -/
def donorProfile : UserProfile where
  bloodType := some "O-"
  phoneNumber := some "+911234567890"

/-- An O- request that carries no `timestamp`. -/
def untimedRequest : EmergencyRequest ℚ :=
  { blankRequest ℚ with
    id := some "r4", hospital := some "City Hospital", bloodType := some "O-",
    units := some 1 }

/-- An O- request created at second 1000. -/
def timedRequest : EmergencyRequest ℚ :=
  { blankRequest ℚ with
    id := some "r5", hospital := some "City Hospital", bloodType := some "O-",
    units := some 1, timestamp := some 1000 }

/-! ## The calls of a confirmation as the specification words them -/

/-- The parent callback, issued when the parent passed `onDonationConfirmed`. -/
def plannedNotify {Num : Type} (env : ConfirmEnv) (e : EmergencyRequest Num) (id : String) :
    List Effect :=
  if env.hasCallback then [Effect.donationConfirmed (donationPayload env e id)] else []

/-- The SMS POST, issued only if the user profile has a phone number, then the
parent callback. -/
def plannedSms {Num : Type} (userProfile : Option UserProfile) (env : ConfirmEnv)
    (e : EmergencyRequest Num) (id : String) : List Effect :=
  (match userProfile.bind (fun p => p.phoneNumber) with
    | some phone =>
      if phone ≠ "" then [Effect.sendSms (some phone) (confirmationMessage e)] else []
    | none => []) ++ plannedNotify env e id

/-- The store delete, issued only if the new count reaches the required units,
then the SMS POST and the parent callback. -/
def plannedDelete {Num : Type} (userProfile : Option UserProfile) (env : ConfirmEnv)
    (e : EmergencyRequest Num) (id : String) (newDonorsResponded : Nat) : List Effect :=
  (if newDonorsResponded ≥ orElse e.units 1 then [Effect.deleteDoc id] else []) ++
    plannedSms userProfile env e id

/-- The sequence of the specification: store update of the donor count, store
delete, SMS POST, parent callback. -/
def plannedEffects {Num : Type} (userProfile : Option UserProfile) (env : ConfirmEnv)
    (e : EmergencyRequest Num) (id : String) : List Effect :=
  Effect.updateDoc id (orElse e.donorsResponded 0 + 1) env.responseTime ::
    plannedDelete userProfile env e id (orElse e.donorsResponded 0 + 1)

/-- Whether a call succeeds in an outside world; the awaited `fetch` fails
only when it is rejected. -/
def effectOk (env : ConfirmEnv) : Effect → Bool
  | Effect.updateDoc _ _ _ => env.updateDocOk
  | Effect.deleteDoc _ => env.deleteDocOk
  | Effect.sendSms _ _ => decide (env.smsResult ≠ FetchResult.rejected)
  | Effect.donationConfirmed _ => env.callbackOk

/-- A run that started with the calls `prior` made the `planned` calls in
order and stopped at the first failing one: either every planned call succeeded
and the run completed, or the calls made end with the first failing call and
the run did not complete. -/
def StopsAtFirstFailure (ok : Effect → Bool) (planned prior trace : List Effect)
    (completed : Bool) : Prop :=
  ((∀ c ∈ planned, ok c = true) ∧ trace = prior ++ planned ∧ completed = true) ∨
  (∃ before failing after, planned = before ++ failing :: after ∧
    (∀ c ∈ before, ok c = true) ∧ ok failing = false ∧
    trace = prior ++ (before ++ [failing]) ∧ completed = false)

/-- The invariant of the render functions: outside the list view a request is
selected, and in the donor-confirmation view an estimate is present. -/
def SelectionPresent {Num : Type} (s : ViewState Num) : Prop :=
  (s.currentView ≠ View.emergencyList → s.selectedEmergency ≠ none) ∧
  (s.currentView = View.donorConfirmation → s.nearbyDonors ≠ none)

/-- An outside world in which the store delete fails. -/
def deleteFailEnv : ConfirmEnv := { okEnv with deleteDocOk := false }

/-- The detail view of a request with 1 unit, so that one donor fulfils it. -/
def oneUnitState : ViewState ℝ :=
  handleEmergencySelect noCoordinatesRequest (initialState ℝ true)

/-- A store that holds `noCoordinatesRequest` (identifier r2, 1 unit, no
`donorsResponded`) and nothing else. -/
def oneUnitStore : Store ℝ :=
  fun key => if key = "r2" then some { request := noCoordinatesRequest, donorResponseTime := none }
    else none

/-! ## Handlers that await a call

`handleSMSEmergencyResponse` awaits the `fetch` of line 166 and
`confirmDonation` awaits the calls of lines 191, 198 and 203. While a call is
awaited the component goes on handling events; the rest of the handler then
runs on the state of that moment. -/

/-- A handler that has started and awaits a call to the outside world. -/
inductive Pending where
  /-- The handler `handleSMSEmergencyResponse`, at the `fetch` of line 166. -/
  | smsResponse
  /-- The handler `confirmDonation`, at the `updateDoc` of line 191. -/
  | confirmation
deriving DecidableEq

section AwaitedCalls

variable {Num : Type}

/-- Lines 164 and 185: `setIsProcessing(true)`, what both handlers do before
their first awaited call. -/
def beginProcessing (s : ViewState Num) : ViewState Num :=
  { s with isProcessing := true }

/-- Lines 174-181: the rest of `handleSMSEmergencyResponse`, run when the
`fetch` has settled with `result`. -/
def smsResponseSettled (result : FetchResult) (s : ViewState Num) : ViewState Num :=
  match result with
  | FetchResult.response true =>
    { s with currentView := View.donationConfirmed, isProcessing := false }
  | _ =>
    { s with error := some "Failed to send SMS. Please try again when online.",
             isProcessing := false }

/-- Lines 227-233: the rest of `confirmDonation`, run when its awaited calls
have settled or one of them has thrown. -/
def confirmDonationSettled (s : ViewState Num) : ViewState Num :=
  { s with currentView := View.donationConfirmed, isProcessing := false }

/-- The call that the handler of an action awaits, if it awaits one: the
offline response awaits its `fetch` when a request is selected (building the
body throws otherwise), the confirmation awaits `updateDoc` when the selected
request has a truthy `id` (line 187). -/
def awaits (a : Action Num) (s : ViewState Num) : Option Pending :=
  match a with
  | Action.respondViaSms _ =>
    if s.selectedEmergency.isSome then some Pending.smsResponse else none
  | Action.confirm _ _ _ =>
    match s.selectedEmergency with
    | some e => if truthy e.id then some Pending.confirmation else none
    | none => none
  | _ => none

/-- The states of the component, each with the handler that awaits a call,
reached from an initial state when events may fall between the start of a
handler and the moment its awaited call settles. -/
inductive Interleaved [LinearOrderedField Num] (js : Builtins Num) :
    ViewState Num → Option Pending → Prop where
  | initial (online : Bool) : Interleaved js (initialState Num online) none
  /-- A handler that awaits nothing runs to its end. -/
  | event {s : ViewState Num} {p : Option Pending} (a : Action Num) :
      Interleaved js s p → enabled a s = true → awaits a s = none →
      Interleaved js (perform js a s) p
  /-- A handler that awaits a call runs up to that call. -/
  | start {s : ViewState Num} (a : Action Num) (call : Pending) :
      Interleaved js s none → enabled a s = true → awaits a s = some call →
      Interleaved js (beginProcessing s) (some call)
  /-- The `fetch` of the offline response settles. -/
  | smsSettled {s : ViewState Num} (result : FetchResult) :
      Interleaved js s (some Pending.smsResponse) →
      Interleaved js (smsResponseSettled result s) none
  /-- The calls of the confirmation settle, or one of them throws. -/
  | confirmationSettled {s : ViewState Num} :
      Interleaved js s (some Pending.confirmation) →
      Interleaved js (confirmDonationSettled s) none

/-- Whether `renderCurrentView` (lines 1103-1116) returns. The list view reads
no selection; `renderEmergencyDetail` and `renderDonorConfirmation` return
`null` without a selection (lines 596, 837); `renderDonationConfirmed` reads
`selectedEmergency.hospital` (line 987) behind no such guard, a TypeError when
the selection is `null`. -/
def renderCurrentViewReturns (s : ViewState Num) : Bool :=
  match s.currentView with
  | View.donationConfirmed => s.selectedEmergency.isSome
  | _ => true

end AwaitedCalls

/-- The confirmation of `rareRequest` has started and awaits its store update;
the user goes back to the detail view (line 843) and on to the list (line
605); then the awaited call settles. -/
noncomputable def strandedState : ViewState ℝ :=
  confirmDonationSettled
    (backToEmergencies
      (perform realBuiltins Action.backToDetail (beginProcessing confirmationState)))

end EmergencySection

/-! # The profile editor

A shallow embedding of `src/components/BloodHub/ProfileSection.jsx`: the merge
of `fetchUserProfile` (lines 32-69), `uploadImage` (lines 118-140),
`handleSaveProfile` (lines 142-213) and `handleChange` (lines 215-218). The
calls to the identity service, the document store and the object storage are
recorded in a trace; whether each call succeeds is an input. The object
literals passed to the two updates are lists of key and value. -/

namespace ProfileSection

/-- Line 8: the blood types offered by the form. -/
def bloodTypes : List String := ["A+", "A-", "B+", "B-", "AB+", "AB-", "O+", "O-"]

/-- The identity record `auth.currentUser`, with the properties read. -/
structure AuthUser where
  uid : String
  displayName : Option String
  email : Option String
  phoneNumber : Option String
  photoURL : Option String
deriving DecidableEq

/-- The data of the document `users/{uid}`, with the properties read. -/
structure UserDocument where
  name : Option String
  phone : Option String
  bloodType : Option String
  dob : Option String
  lastDonated : Option String
  address : Option String
  city : Option String
deriving DecidableEq

/-- The shape of `userData`, of the `user` state and of the `editData` state
(lines 13-23 and 38-48). -/
structure UserData where
  name : String
  email : Option String
  phone : String
  photo : Option String
  bloodType : String
  dob : String
  lastDonated : String
  address : String
  city : String
deriving DecidableEq

/-- A file chosen in the file input; `name` is `imageFile.name`. -/
structure ImageFile where
  name : String
deriving DecidableEq

/-- The state variables of lines 11-29. -/
structure ProfileState where
  user : Option UserData
  showEditModal : Bool
  editData : UserData
  error : String
  success : String
  loading : Bool
  animateIn : Bool
  imageFile : Option ImageFile
  imagePreview : Option String
deriving DecidableEq

/-- The state after the `useState` initialisers of lines 11-29. -/
def initialProfileState : ProfileState where
  user := none
  showEditModal := false
  editData :=
    { name := "", email := some "", phone := "", photo := some "", bloodType := "",
      dob := "", lastDonated := "", address := "", city := "" }
  error := ""
  success := ""
  loading := false
  animateIn := false
  imageFile := none
  imagePreview := none

/-- How `getDoc` ends: rejected, resolved to a missing document, or resolved
to a document with data. -/
inductive GetDocResult where
  | rejected
  | missing
  | found (data : UserDocument)
deriving DecidableEq

/-- The operator `value || null` on a string that may be absent. -/
def orNull (value : Option String) : Option String :=
  match value with
  | some s => if s ≠ "" then some s else none
  | none => none

/-- The operator `value || other` on two strings that may be absent. -/
def orOption (value other : Option String) : Option String :=
  match value with
  | some s => if s ≠ "" then some s else other
  | none => other

/-- Lines 38-48: the record built from the identity record alone. -/
def identityData (currentUser : AuthUser) : UserData where
  name := EmergencySection.orElseString currentUser.displayName "User"
  email := currentUser.email
  phone := EmergencySection.orElseString currentUser.phoneNumber "Not provided"
  photo := orNull currentUser.photoURL
  bloodType := ""
  dob := ""
  lastDonated := ""
  address := ""
  city := ""

/-- Lines 52-61: the record of lines 38-48 overlaid with the document data. -/
def mergeDocument (userData : UserData) (firebaseData : UserDocument) : UserData :=
  { userData with
    name := EmergencySection.orElseString firebaseData.name userData.name
    phone := EmergencySection.orElseString firebaseData.phone userData.phone
    bloodType := EmergencySection.orElseString firebaseData.bloodType userData.bloodType
    dob := EmergencySection.orElseString firebaseData.dob userData.dob
    lastDonated := EmergencySection.orElseString firebaseData.lastDonated userData.lastDonated
    address := EmergencySection.orElseString firebaseData.address userData.address
    city := EmergencySection.orElseString firebaseData.city userData.city }

/-- Lines 32-69: `fetchUserProfile`. Without a current user the function
returns at line 35; a rejected `getDoc` is caught at line 66; in both cases the
state is unchanged. -/
def fetchUserProfile (currentUser : Option AuthUser) (userDoc : GetDocResult)
    (s : ProfileState) : ProfileState :=
  match currentUser with
  | none => s
  | some currentUser =>
    match userDoc with
    | GetDocResult.rejected => s
    | GetDocResult.missing =>
      { s with user := some (identityData currentUser), editData := identityData currentUser }
    | GetDocResult.found firebaseData =>
      { s with
        user := some (mergeDocument (identityData currentUser) firebaseData)
        editData := mergeDocument (identityData currentUser) firebaseData }

/-- The `name` attributes of the inputs of the edit form (lines 455-555). -/
inductive Field where
  | photo
  | name
  | email
  | phone
  | bloodType
  | dob
  | lastDonated
  | city
  | address
deriving DecidableEq

/-- Line 485: the email input is the one input rendered `disabled`. -/
def inputDisabled : Field → Bool
  | Field.email => true
  | _ => false

/-- Line 217: the object `{ ...prev, [name]: value }`; `key` is the `name` of
the input that fired the event. -/
def setField (prev : UserData) (key : Field) (value : String) : UserData :=
  match key with
  | Field.photo => { prev with photo := some value }
  | Field.name => { prev with name := value }
  | Field.email => { prev with email := some value }
  | Field.phone => { prev with phone := value }
  | Field.bloodType => { prev with bloodType := value }
  | Field.dob => { prev with dob := value }
  | Field.lastDonated => { prev with lastDonated := value }
  | Field.city => { prev with city := value }
  | Field.address => { prev with address := value }

/-- Lines 215-218: `handleChange`. -/
def handleChange (key : Field) (value : String) (s : ProfileState) : ProfileState :=
  { s with editData := setField s.editData key value }

/-- Lines 105-116: `handleFileChange` for a chosen file; `preview` is the data
URL produced by the file reader. -/
def handleFileChange (file : ImageFile) (preview : String) (s : ProfileState) : ProfileState :=
  { s with imageFile := some file, imagePreview := some preview }

/-- A call made to the outside world by the save. -/
inductive ProfileEffect where
  | uploadBytes (path : String) (file : ImageFile)
  | getDownloadURL (path : String)
  | updateProfile (fields : List (String × Option String))
  | updateDoc (uid : String) (fields : List (String × Option String))
deriving DecidableEq

/-- The outside world as the save meets it: the current user, whether each
call succeeds, the URL returned by `getDownloadURL`, and the values of
`Date.now()` (line 126) and `new Date().toISOString()` (line 187). -/
structure SaveEnv where
  currentUser : Option AuthUser
  uploadBytesOk : Bool
  getDownloadURLOk : Bool
  downloadURL : String
  updateProfileOk : Bool
  updateDocOk : Bool
  dateNow : Nat
  updatedAt : String

/-- Lines 126-127: the storage path of the uploaded image. -/
def storagePath (env : SaveEnv) (currentUser : AuthUser) (imageFile : ImageFile) : String :=
  "profileImages/" ++ currentUser.uid ++ "/" ++
    ("profile_" ++ toString env.dateNow ++ "_" ++ imageFile.name)

/-- Lines 118-140: `uploadImage` for a selected file. The result is the calls
made and the download URL, or `none` for a throw. -/
def uploadImage (env : SaveEnv) (imageFile : ImageFile) :
    List ProfileEffect × Option String :=
  match env.currentUser with
  | none => ([], none)
  | some currentUser =>
    let path := storagePath env currentUser imageFile
    if env.uploadBytesOk then
      if env.getDownloadURLOk then
        ([ProfileEffect.uploadBytes path imageFile, ProfileEffect.getDownloadURL path],
          some env.downloadURL)
      else ([ProfileEffect.uploadBytes path imageFile, ProfileEffect.getDownloadURL path], none)
    else ([ProfileEffect.uploadBytes path imageFile], none)

/-- Lines 165-168: the object passed to `updateProfile`. -/
def authUpdate (editData : UserData) (photoURL : Option String) :
    List (String × Option String) :=
  [("displayName", some editData.name), ("photoURL", orNull photoURL)]

/-- Lines 178-188: the object passed to `updateDoc`. -/
def documentUpdate (env : SaveEnv) (editData : UserData) (photoURL : Option String) :
    List (String × Option String) :=
  [("name", some editData.name), ("phone", some editData.phone),
   ("photoURL", orNull photoURL), ("bloodType", some editData.bloodType),
   ("dob", some editData.dob), ("lastDonated", some editData.lastDonated),
   ("address", some editData.address), ("city", some editData.city),
   ("updatedAt", some env.updatedAt)]

/-- Lines 196-200: the object passed to `setUser`. The keys of `user` are
those of `editData`, so the spread of `editData` overrides every one of them. -/
def savedUser (editData : UserData) (photoURL : Option String) : UserData :=
  { editData with photo := orOption photoURL editData.photo }

/-- The state after the `catch` and `finally` of lines 207-212. -/
def saveFailed (s : ProfileState) : ProfileState :=
  { s with error := "Failed to update profile. Please try again.", loading := false }

/-- Lines 163-206 of `handleSaveProfile`: the two updates and the local state
replacement, for the photo reference `photoURL`; `trace` holds the calls made
before. -/
def saveStages (env : SaveEnv) (currentUser : AuthUser) (photoURL : Option String)
    (trace : List ProfileEffect) (s : ProfileState) : ProfileState × List ProfileEffect :=
  let trace := trace ++ [ProfileEffect.updateProfile (authUpdate s.editData photoURL)]
  if env.updateProfileOk then
    let trace := trace ++
      [ProfileEffect.updateDoc currentUser.uid (documentUpdate env s.editData photoURL)]
    if env.updateDocOk then
      ({ s with
         user := some (savedUser s.editData photoURL)
         success := "Profile updated successfully!"
         loading := false }, trace)
    else (saveFailed s, trace)
  else (saveFailed s, trace)

/-- Lines 142-213: `handleSaveProfile`. Returns the state and the calls made.
(The timer of lines 203-206, which closes the modal later, is not part of the
step.) -/
def handleSaveProfile (env : SaveEnv) (s : ProfileState) : ProfileState × List ProfileEffect :=
  let s := { s with loading := true, error := "", success := "" }
  match env.currentUser with
  | none => (saveFailed s, [])
  | some currentUser =>
    match s.imageFile with
    | some imageFile =>
      match uploadImage env imageFile with
      | (trace, some downloadURL) => saveStages env currentUser (some downloadURL) trace s
      | (trace, none) => (saveFailed s, trace)
    | none => saveStages env currentUser s.editData.photo [] s

/-- An event of the edit form: a change of an input, the choice of a file, or
the save button. -/
inductive FormAction where
  | change (key : Field) (value : String)
  | chooseFile (file : ImageFile) (preview : String)
  | save (env : SaveEnv)

/-- Whether the form lets an action happen: a disabled input fires no change
event, and the save button carries `disabled={loading}` (line 574). -/
def formEnabled (a : FormAction) (s : ProfileState) : Bool :=
  match a with
  | FormAction.change key _ => !inputDisabled key
  | FormAction.chooseFile _ _ => true
  | FormAction.save _ => !s.loading

/-- The state and the calls made after the handler of a form action has run;
an action that the form does not let happen changes nothing. -/
def formStep (a : FormAction) (s : ProfileState) : ProfileState × List ProfileEffect :=
  if formEnabled a s then
    match a with
    | FormAction.change key value => (handleChange key value s, [])
    | FormAction.chooseFile file preview => (handleFileChange file preview s, [])
    | FormAction.save env => handleSaveProfile env s
  else (s, [])

/-- The state and the calls made after a sequence of form actions. -/
def formRun : List FormAction → ProfileState → ProfileState × List ProfileEffect
  | [], s => (s, [])
  | a :: rest, s =>
    let (s1, trace1) := formStep a s
    let (s2, trace2) := formRun rest s1
    (s2, trace1 ++ trace2)

/-- The keys of the objects passed to `updateProfile` and `updateDoc`. -/
def updateKeys : ProfileEffect → List String
  | ProfileEffect.updateProfile fields => fields.map Prod.fst
  | ProfileEffect.updateDoc _ fields => fields.map Prod.fst
  | _ => []

/-! ## The stages of a save as the specification words them -/

/-- The photo reference a save works with: the fresh download URL when an
image file is selected, the staged `editData.photo` otherwise (lines 152-161). -/
def stagedPhoto (env : SaveEnv) (s : ProfileState) : Option String :=
  match s.imageFile with
  | some _ => some env.downloadURL
  | none => s.editData.photo

/-- The calls of a save in which every stage succeeds, in order: the image
upload (only with a selected file), the identity-profile update, the
document-store update. -/
def plannedCalls (env : SaveEnv) (currentUser : AuthUser) (s : ProfileState) :
    List ProfileEffect :=
  (match s.imageFile with
    | some imageFile =>
      [ProfileEffect.uploadBytes (storagePath env currentUser imageFile) imageFile,
       ProfileEffect.getDownloadURL (storagePath env currentUser imageFile)]
    | none => []) ++
  [ProfileEffect.updateProfile (authUpdate s.editData (stagedPhoto env s)),
   ProfileEffect.updateDoc currentUser.uid (documentUpdate env s.editData (stagedPhoto env s))]

/-- Whether a call succeeds in an outside world. -/
def callOk (env : SaveEnv) : ProfileEffect → Bool
  | ProfileEffect.uploadBytes _ _ => env.uploadBytesOk
  | ProfileEffect.getDownloadURL _ => env.getDownloadURLOk
  | ProfileEffect.updateProfile _ => env.updateProfileOk
  | ProfileEffect.updateDoc _ _ => env.updateDocOk

/-- The value of the key `photoURL` in the object passed to an update. -/
def writtenPhoto : ProfileEffect → Option (Option String)
  | ProfileEffect.updateProfile fields => fields.lookup "photoURL"
  | ProfileEffect.updateDoc _ fields => fields.lookup "photoURL"
  | _ => none

/-! ## Concrete inputs of the profile editor -/

/-- An identity record with a photo. -/
def sampleUser : AuthUser where
  uid := "u1"
  displayName := some "Asha"
  email := some "asha@example.org"
  phoneNumber := none
  photoURL := some "old.png"

/-- An outside world in which the user is signed in and every call succeeds. -/
def okSaveEnv : SaveEnv where
  currentUser := some sampleUser
  uploadBytesOk := true
  getDownloadURLOk := true
  downloadURL := "https://storage.example.org/profile_1.png"
  updateProfileOk := true
  updateDocOk := true
  dateNow := 1740823200000
  updatedAt := "2025-03-01T10:00:00.000Z"

/-- The state after the profile of `sampleUser` is loaded, the document
missing. -/
def loadedState : ProfileState :=
  fetchUserProfile (some sampleUser) GetDocResult.missing initialProfileState

/-- An outside world in which only the document-store update fails. -/
def docFailEnv : SaveEnv := { okSaveEnv with updateDocOk := false }

/-- A document of the collection `users` with a name and a blood type. -/
def sampleDocument : UserDocument where
  name := some "Asha Rao"
  phone := none
  bloodType := some "B+"
  dob := none
  lastDonated := none
  address := none
  city := some "Pune"

/-! ## Opening and closing the edit modal -/

/-- Lines 101-103: `handleEditProfile`. -/
def handleEditProfile (s : ProfileState) : ProfileState :=
  { s with showEditModal := true }

/-- Line 221 of `handleClose`: the part that runs at once. -/
def handleClose (s : ProfileState) : ProfileState :=
  { s with animateIn := false }

/-- Lines 222-226 of `handleClose`: the callback of the timer, 300 ms later. -/
def handleCloseTimer (s : ProfileState) : ProfileState :=
  { s with showEditModal := false, imagePreview := none, imageFile := none }

/-- A sequence of `handleChange` calls, each with the name of the input and
the value typed. -/
def applyChanges (changes : List (Field × String)) (s : ProfileState) : ProfileState :=
  changes.foldl (fun state change => handleChange change.1 change.2 state) s

/-- The staged form data after a sequence of edits. -/
def editedData (changes : List (Field × String)) (editData : UserData) : UserData :=
  changes.foldl (fun data change => setField data change.1 change.2) editData

end ProfileSection

namespace EmergencySection

/-! ## Lemmas on the filter -/

section FilterLemmas

variable {Num : Type}

theorem tagRequest_bloodType (e : EmergencyRequest Num) :
    (tagRequest e).bloodType = e.bloodType := by
  unfold tagRequest; split <;> rfl

theorem tagRequest_hospital (e : EmergencyRequest Num) :
    (tagRequest e).hospital = e.hospital := by
  unfold tagRequest; split <;> rfl

theorem tagRequest_location (e : EmergencyRequest Num) :
    (tagRequest e).location = e.location := by
  unfold tagRequest; split <;> rfl

theorem tagRequest_coordinates (e : EmergencyRequest Num) :
    (tagRequest e).coordinates = e.coordinates := by
  unfold tagRequest; split <;> rfl

theorem untagged_tagRequest (e : EmergencyRequest Num) :
    untagged (tagRequest e) = untagged e := by
  unfold tagRequest untagged; split <;> rfl

theorem tagRequest_of_rare (e : EmergencyRequest Num) (h : isRareBloodType e.bloodType = true) :
    tagRequest e = { e with isRare := some true } := by
  unfold tagRequest; rw [if_pos h]

theorem tagRequest_of_not_rare (e : EmergencyRequest Num)
    (h : isRareBloodType e.bloodType = false) :
    tagRequest e = { e with donorsResponded := some (e.donorsResponded.getD 0) } := by
  unfold tagRequest; rw [if_neg (by simp [h])]

theorem isRareBloodType_iff (b : Option String) :
    isRareBloodType b = true ↔ b = some "O h" := by
  cases b with
  | none => simp [isRareBloodType]
  | some s => simp [isRareBloodType, rareBloodTypes]

/-- The three successive `filter` steps are one `filter` by the conjunction of
the guarded predicates, followed by the `map`. -/
theorem applyFilters_some [LinearOrderedField Num] (js : Builtins Num) (requests : List (EmergencyRequest Num))
    (bloodTypeFilter searchQuery : String) (distanceFilter : Option Num)
    (userLocation : Option (UserLocation Num)) :
    applyFilters js (some requests) bloodTypeFilter searchQuery distanceFilter userLocation =
      (requests.filter (fun e => bloodTypePredicate bloodTypeFilter e &&
        queryPredicate js searchQuery e &&
        distancePredicate js distanceFilter userLocation e)).map tagRequest := by
  unfold applyFilters
  by_cases hb : bloodTypeFilter = "All" <;> by_cases hq : searchQuery = "" <;>
    rcases distanceFilter with _ | d <;> rcases userLocation with _ | u <;>
    simp [hb, hq, bloodTypePredicate, queryPredicate, distancePredicate, List.filter_filter,
      Bool.and_comm, Bool.and_assoc] <;>
    (by_cases hd : d = 0 <;> simp [hd, List.filter_filter, Bool.and_comm, Bool.and_assoc])

end FilterLemmas

/-! ## Lemmas on the distance over the reals -/

section DistanceLemmas

/-- The term `a` of line 131 is the haversine term of the specification. -/
theorem calculateDistance_real (lat1 lon1 lat2 lon2 : ℝ) :
    calculateDistance realBuiltins lat1 lon1 lat2 lon2 =
      ((round (6371 * (2 * Complex.arg
        ⟨Real.sqrt (1 - haversineTerm lat1 lon1 lat2 lon2),
         Real.sqrt (haversineTerm lat1 lon1 lat2 lon2)⟩) * 10) : ℤ) : ℝ) / 10 := by
  have ha : Real.sin ((lat2 - lat1) * Real.pi / 180 / 2) *
        Real.sin ((lat2 - lat1) * Real.pi / 180 / 2) +
      Real.cos (lat1 * Real.pi / 180) * Real.cos (lat2 * Real.pi / 180) *
        Real.sin ((lon2 - lon1) * Real.pi / 180 / 2) *
        Real.sin ((lon2 - lon1) * Real.pi / 180 / 2) =
      haversineTerm lat1 lon1 lat2 lon2 := by
    unfold haversineTerm; ring
  simp only [calculateDistance, realBuiltins, ha]

/-- Twice the haversine term, written with the cosine of the central angle. -/
theorem two_mul_haversineTerm (lat1 lon1 lat2 lon2 : ℝ) :
    2 * haversineTerm lat1 lon1 lat2 lon2 =
      1 - Real.sin (lat1 * Real.pi / 180) * Real.sin (lat2 * Real.pi / 180) -
        Real.cos (lat1 * Real.pi / 180) * Real.cos (lat2 * Real.pi / 180) *
          (1 - 2 * Real.sin ((lon2 - lon1) * Real.pi / 180 / 2) ^ 2) := by
  have h2 := Real.cos_two_mul ((lat2 - lat1) * Real.pi / 180 / 2)
  have h3 := Real.sin_sq_add_cos_sq ((lat2 - lat1) * Real.pi / 180 / 2)
  have h4 : 2 * ((lat2 - lat1) * Real.pi / 180 / 2) =
      lat2 * Real.pi / 180 - lat1 * Real.pi / 180 := by ring
  rw [h4, Real.cos_sub] at h2
  unfold haversineTerm
  linarith

theorem haversineTerm_nonneg (lat1 lon1 lat2 lon2 : ℝ) :
    0 ≤ haversineTerm lat1 lon1 lat2 lon2 := by
  have h := two_mul_haversineTerm lat1 lon1 lat2 lon2
  have hs1 := Real.sin_sq_add_cos_sq (lat1 * Real.pi / 180)
  have hs2 := Real.sin_sq_add_cos_sq (lat2 * Real.pi / 180)
  have ht0 := sq_nonneg (Real.sin ((lon2 - lon1) * Real.pi / 180 / 2))
  have ht1 := Real.sin_sq_le_one ((lon2 - lon1) * Real.pi / 180 / 2)
  set s1 := Real.sin (lat1 * Real.pi / 180)
  set c1 := Real.cos (lat1 * Real.pi / 180)
  set s2 := Real.sin (lat2 * Real.pi / 180)
  set c2 := Real.cos (lat2 * Real.pi / 180)
  set t := Real.sin ((lon2 - lon1) * Real.pi / 180 / 2) ^ 2
  have hk : 0 ≤ c2 ^ 2 * (4 * t * (1 - t)) :=
    mul_nonneg (sq_nonneg c2) (mul_nonneg (by linarith) (by linarith))
  nlinarith [sq_nonneg (s1 - s2), sq_nonneg (c1 - c2 * (1 - 2 * t))]

theorem haversineTerm_le_one (lat1 lon1 lat2 lon2 : ℝ) :
    haversineTerm lat1 lon1 lat2 lon2 ≤ 1 := by
  have h := two_mul_haversineTerm lat1 lon1 lat2 lon2
  have hs1 := Real.sin_sq_add_cos_sq (lat1 * Real.pi / 180)
  have hs2 := Real.sin_sq_add_cos_sq (lat2 * Real.pi / 180)
  have ht0 := sq_nonneg (Real.sin ((lon2 - lon1) * Real.pi / 180 / 2))
  have ht1 := Real.sin_sq_le_one ((lon2 - lon1) * Real.pi / 180 / 2)
  set s1 := Real.sin (lat1 * Real.pi / 180)
  set c1 := Real.cos (lat1 * Real.pi / 180)
  set s2 := Real.sin (lat2 * Real.pi / 180)
  set c2 := Real.cos (lat2 * Real.pi / 180)
  set t := Real.sin ((lon2 - lon1) * Real.pi / 180 / 2) ^ 2
  have hk : 0 ≤ c2 ^ 2 * (4 * t * (1 - t)) :=
    mul_nonneg (sq_nonneg c2) (mul_nonneg (by linarith) (by linarith))
  nlinarith [sq_nonneg (s1 + s2), sq_nonneg (c1 + c2 * (1 - 2 * t))]

/-- On the unit quarter circle the two-argument arctangent is the arcsine. -/
theorem arg_sqrt_eq_arcsin (a : ℝ) (h0 : 0 ≤ a) (h1 : a ≤ 1) :
    Complex.arg ⟨Real.sqrt (1 - a), Real.sqrt a⟩ = Real.arcsin (Real.sqrt a) := by
  have habs : Complex.abs ⟨Real.sqrt (1 - a), Real.sqrt a⟩ = 1 := by
    rw [Complex.abs_apply, Complex.normSq_mk, Real.mul_self_sqrt (by linarith),
      Real.mul_self_sqrt h0]
    simp
  rw [Complex.arg_of_re_nonneg (Real.sqrt_nonneg _), habs]
  simp

theorem calculateDistance_eq_reference (lat1 lon1 lat2 lon2 : ℝ) :
    calculateDistance realBuiltins lat1 lon1 lat2 lon2 =
      roundOneDecimal (haversineReference lat1 lon1 lat2 lon2) := by
  rw [calculateDistance_real,
    arg_sqrt_eq_arcsin _ (haversineTerm_nonneg _ _ _ _) (haversineTerm_le_one _ _ _ _)]
  unfold roundOneDecimal haversineReference
  congr 3
  ring

theorem haversineTerm_symm (lat1 lon1 lat2 lon2 : ℝ) :
    haversineTerm lat1 lon1 lat2 lon2 = haversineTerm lat2 lon2 lat1 lon1 := by
  unfold haversineTerm
  have e1 : (lat1 - lat2) * Real.pi / 180 / 2 = -((lat2 - lat1) * Real.pi / 180 / 2) := by ring
  have e2 : (lon1 - lon2) * Real.pi / 180 / 2 = -((lon2 - lon1) * Real.pi / 180 / 2) := by ring
  rw [e1, e2, Real.sin_neg, Real.sin_neg]
  ring

theorem haversineTerm_self (lat lon : ℝ) : haversineTerm lat lon lat lon = 0 := by
  unfold haversineTerm
  simp

theorem calculateDistance_symm (lat1 lon1 lat2 lon2 : ℝ) :
    calculateDistance realBuiltins lat1 lon1 lat2 lon2 =
      calculateDistance realBuiltins lat2 lon2 lat1 lon1 := by
  rw [calculateDistance_real, calculateDistance_real, haversineTerm_symm]

theorem calculateDistance_self (lat lon : ℝ) :
    calculateDistance realBuiltins lat lon lat lon = 0 := by
  rw [calculateDistance_eq_reference]
  unfold roundOneDecimal haversineReference
  rw [haversineTerm_self]
  simp

end DistanceLemmas

/-! ## More lemmas on the predicates -/

section PredicateLemmas

variable {Num : Type}

theorem fieldMatches_iff (js : Builtins Num) (q : String) (f : Option String) :
    fieldMatches js q f = true ↔
      ∃ s, f = some s ∧ s ≠ "" ∧ (js.toLowerCase q).data <:+: (js.toLowerCase s).data := by
  cases f with
  | none => simp [fieldMatches]
  | some s => simp [fieldMatches, includes]

theorem withinDistance_iff [LinearOrderedField Num] (js : Builtins Num) (d : Num) (u : UserLocation Num)
    (e : EmergencyRequest Num) :
    withinDistance js d u e = true ↔
      ∃ c, e.coordinates = some c ∧
        calculateDistance js u.lat u.lng c.latitude c.longitude ≤ d := by
  unfold withinDistance
  cases h : e.coordinates with
  | none => simp
  | some c => simp

theorem bloodTypePredicate_tagRequest (bt : String) (e : EmergencyRequest Num) :
    bloodTypePredicate bt (tagRequest e) = bloodTypePredicate bt e := by
  simp [bloodTypePredicate, matchesBloodType, tagRequest_bloodType]

theorem queryPredicate_tagRequest (js : Builtins Num) (q : String) (e : EmergencyRequest Num) :
    queryPredicate js q (tagRequest e) = queryPredicate js q e := by
  simp [queryPredicate, matchesQuery, tagRequest_hospital, tagRequest_location]

theorem distancePredicate_tagRequest [LinearOrderedField Num] (js : Builtins Num) (d : Option Num)
    (u : Option (UserLocation Num)) (e : EmergencyRequest Num) :
    distancePredicate js d u (tagRequest e) = distancePredicate js d u e := by
  rcases d with _ | d <;> rcases u with _ | u <;>
    simp [distancePredicate, withinDistance, tagRequest_coordinates]

/-- Membership in the result: the element is the tagged form of a request of
the list that passes the three guarded predicates. -/
theorem mem_applyFilters_some [LinearOrderedField Num] (js : Builtins Num) (requests : List (EmergencyRequest Num))
    (bt q : String) (d : Option Num) (u : Option (UserLocation Num))
    (x : EmergencyRequest Num) :
    x ∈ applyFilters js (some requests) bt q d u ↔
      ∃ e ∈ requests, (bloodTypePredicate bt e = true ∧ queryPredicate js q e = true ∧
        distancePredicate js d u e = true) ∧ tagRequest e = x := by
  rw [applyFilters_some]
  simp [List.mem_map, List.mem_filter, and_assoc]

end PredicateLemmas

/-! ## Further helper lemmas -/

section Helpers

variable {Num : Type}

theorem filter_sublist_filter_of_imp {α : Type} (p q : α → Bool) (l : List α)
    (h : ∀ a, p a = true → q a = true) : (l.filter p).Sublist (l.filter q) := by
  induction l with
  | nil => simp
  | cons a t ih =>
    by_cases hp : p a = true
    · have hq := h a hp
      rw [List.filter_cons_of_pos hp, List.filter_cons_of_pos hq]
      exact ih.cons₂ a
    · rw [List.filter_cons_of_neg hp]
      by_cases hq : q a = true
      · rw [List.filter_cons_of_pos hq]
        exact ih.cons a
      · rw [List.filter_cons_of_neg hq]
        exact ih

/-- The filter on an optional list, in one `filter` and one `map`. -/
theorem applyFilters_eq [LinearOrderedField Num] (js : Builtins Num)
    (emergencyRequests : Option (List (EmergencyRequest Num)))
    (bt q : String) (d : Option Num) (u : Option (UserLocation Num)) :
    applyFilters js emergencyRequests bt q d u =
      ((emergencyRequests.getD []).filter (fun e => bloodTypePredicate bt e &&
        queryPredicate js q e && distancePredicate js d u e)).map tagRequest := by
  cases emergencyRequests with
  | none => simp [applyFilters]
  | some requests => simpa using applyFilters_some js requests bt q d u

theorem asciiLowerCase_eq_empty_iff (s : String) : asciiLowerCase s = "" ↔ s = "" := by
  unfold asciiLowerCase
  constructor
  · intro h
    have h2 : s.data.map Char.toLower = [] := congrArg String.data h
    have h3 : s.data = [] := List.map_eq_nil_iff.1 h2
    exact String.ext h3
  · rintro rfl
    rfl

theorem calculateDistance_twoKm :
    calculateDistance realBuiltins 0 0 (360 / (6371 * Real.pi)) 0 = 2 := by
  have hpi := Real.pi_pos
  have hpi3 := Real.pi_gt_three
  have hang : (360 / (6371 * Real.pi) - 0) * Real.pi / 180 / 2 = 1 / 6371 := by
    field_simp
    ring
  have hterm : haversineTerm 0 0 (360 / (6371 * Real.pi)) 0 = Real.sin (1 / 6371) ^ 2 := by
    unfold haversineTerm
    rw [hang]
    simp
  have hsin : 0 ≤ Real.sin (1 / 6371) :=
    Real.sin_nonneg_of_nonneg_of_le_pi (by norm_num) (by linarith)
  rw [calculateDistance_eq_reference]
  unfold roundOneDecimal haversineReference
  rw [hterm, Real.sqrt_sq hsin, Real.arcsin_sin (by linarith) (by linarith)]
  have h20 : (6371 : ℝ) * 2 * (1 / 6371) * 10 = 20 := by norm_num
  rw [h20]
  have hr : round (20 : ℝ) = 20 := by
    exact_mod_cast round_natCast 20
  rw [hr]
  norm_num

/-- The filter evaluated on the one-element list `[twoKmRequest]` under blood
type O-, a query in another letter case and a maximum distance of 5 km. -/
theorem applyFilters_twoKm :
    applyFilters realBuiltins (some [twoKmRequest]) "O-" "APOLLO" (some 5)
        (some originLocation) =
      [{ twoKmRequest with donorsResponded := some 0 }] := by
  have h1 : bloodTypePredicate "O-" twoKmRequest = true := by
    simp [bloodTypePredicate, matchesBloodType, twoKmRequest]
  have hinc : includes (asciiLowerCase "Apollo Hospital") (asciiLowerCase "APOLLO") = true := by
    decide
  have h2 : queryPredicate realBuiltins "APOLLO" twoKmRequest = true := by
    have hf : fieldMatches realBuiltins "APOLLO" twoKmRequest.hospital = true := by
      show (decide (("Apollo Hospital" : String) ≠ "") &&
        includes (asciiLowerCase "Apollo Hospital") (asciiLowerCase "APOLLO")) = true
      rw [hinc]; decide
    simp [queryPredicate, matchesQuery, hf]
  have h3 : distancePredicate realBuiltins (some 5) (some originLocation) twoKmRequest = true := by
    have hw : withinDistance realBuiltins 5 originLocation twoKmRequest = true := by
      rw [withinDistance_iff]
      refine ⟨⟨360 / (6371 * Real.pi), 0⟩, rfl, ?_⟩
      show calculateDistance realBuiltins 0 0 (360 / (6371 * Real.pi)) 0 ≤ 5
      rw [calculateDistance_twoKm]
      norm_num
    simp [distancePredicate, hw]
  have hkeep : (bloodTypePredicate "O-" twoKmRequest &&
      queryPredicate realBuiltins "APOLLO" twoKmRequest &&
      distancePredicate realBuiltins (some 5) (some originLocation) twoKmRequest) = true := by
    rw [h1, h2, h3]; rfl
  have hnr : isRareBloodType twoKmRequest.bloodType = false := by
    show isRareBloodType (some "O-") = false
    decide
  rw [applyFilters_some]
  simp only [List.filter_cons, List.filter_nil, hkeep, if_true, List.map_cons, List.map_nil]
  rw [tagRequest_of_not_rare _ hnr]
  rfl

/-- The filter evaluated on the one-element list `[noCoordinatesRequest]` with
a maximum distance of 5 km selected and the user location absent. -/
theorem applyFilters_noCoordinatesRequest :
    applyFilters realBuiltins (some [noCoordinatesRequest]) "All" "" (some 5) none =
      [{ noCoordinatesRequest with donorsResponded := some 0 }] := by
  have hnr : isRareBloodType noCoordinatesRequest.bloodType = false := by
    show isRareBloodType (some "A+") = false
    decide
  rw [applyFilters_some]
  simp only [bloodTypePredicate, queryPredicate, distancePredicate, decide_True, Bool.true_or,
    Bool.and_self, List.filter_cons, List.filter_nil, if_true, List.map_cons, List.map_nil]
  rw [tagRequest_of_not_rare _ hnr]
  rfl

end Helpers

/-! ## The claims on `applyFilters` -/

section FilterClaims

variable {Num : Type} [LinearOrderedField Num]

/-- Claim C1. For every request list and every combination of blood-type
filter, search query, distance filter and user location, the result of
`applyFilters`, with the rare tag and the `donorsResponded` field erased, is a
sublist of the input list (same relative order), and every returned element
satisfies every active predicate: its blood type equals the filter when the
filter is not All, its lower-cased hospital or location contains the
lower-cased query when the query is non-empty, and it has coordinates at a
distance of at most the maximum when a (non-zero) maximum distance and a user
location are present. -/
theorem applyFilters_sublist_and_sound (js : Builtins Num)
    (emergencyRequests : Option (List (EmergencyRequest Num)))
    (bloodTypeFilter searchQuery : String) (distanceFilter : Option Num)
    (userLocation : Option (UserLocation Num)) :
    ((applyFilters js emergencyRequests bloodTypeFilter searchQuery distanceFilter
        userLocation).map untagged).Sublist ((emergencyRequests.getD []).map untagged) ∧
    ∀ x ∈ applyFilters js emergencyRequests bloodTypeFilter searchQuery distanceFilter
        userLocation,
      (bloodTypeFilter ≠ "All" → x.bloodType = some bloodTypeFilter) ∧
      (searchQuery ≠ "" →
        (∃ h, x.hospital = some h ∧
          (js.toLowerCase searchQuery).data <:+: (js.toLowerCase h).data) ∨
        (∃ l, x.location = some l ∧
          (js.toLowerCase searchQuery).data <:+: (js.toLowerCase l).data)) ∧
      (∀ d u, distanceFilter = some d → d ≠ 0 → userLocation = some u →
        ∃ c, x.coordinates = some c ∧
          calculateDistance js u.lat u.lng c.latitude c.longitude ≤ d) := by
  cases emergencyRequests with
  | none => simp [applyFilters]
  | some requests =>
    refine ⟨?_, ?_⟩
    · rw [applyFilters_some, List.map_map]
      have hfun : (untagged ∘ tagRequest : EmergencyRequest Num → EmergencyRequest Num) =
          untagged := funext untagged_tagRequest
      rw [hfun]
      exact (List.filter_sublist _).map untagged
    · intro x hx
      obtain ⟨e, -, ⟨hb, hq, hd⟩, rfl⟩ := (mem_applyFilters_some js requests _ _ _ _ x).1 hx
      refine ⟨?_, ?_, ?_⟩
      · intro hne
        simpa [bloodTypePredicate, matchesBloodType, hne, tagRequest_bloodType] using hb
      · intro hne
        rw [tagRequest_hospital, tagRequest_location]
        have hm : matchesQuery js searchQuery e = true := by
          simpa [queryPredicate, hne] using hq
        unfold matchesQuery at hm
        rw [Bool.or_eq_true] at hm
        rcases hm with h | h
        · obtain ⟨s, hs, -, hin⟩ := (fieldMatches_iff js _ _).1 h
          exact Or.inl ⟨s, hs, hin⟩
        · obtain ⟨s, hs, -, hin⟩ := (fieldMatches_iff js _ _).1 h
          exact Or.inr ⟨s, hs, hin⟩
      · intro d u hd1 hd0 hu
        subst hd1 hu
        rw [tagRequest_coordinates]
        have hw : withinDistance js d u e = true := by
          simpa [distancePredicate, hd0] using hd
        exact (withinDistance_iff js d u e).1 hw

/-- Claim C2. Filters combine conjunctively and completely: the result of
`applyFilters` is the list of the requests that pass the blood-type predicate
and the query predicate and the distance predicate, in input order, each
tagged by the final `map`; an element belongs to the result under all filters
exactly when it belongs to the result of each filter applied alone, and the
result under all filters is a sublist of each of those; a list holding exactly
one O- request 2 km away, filtered by blood type O- and distance 5 km, yields
exactly that request. -/
theorem applyFilters_conjunctive (js : Builtins Num)
    (emergencyRequests : Option (List (EmergencyRequest Num)))
    (bloodTypeFilter searchQuery : String) (distanceFilter : Option Num)
    (userLocation : Option (UserLocation Num)) :
    applyFilters js emergencyRequests bloodTypeFilter searchQuery distanceFilter userLocation =
      ((emergencyRequests.getD []).filter (fun e => bloodTypePredicate bloodTypeFilter e &&
        queryPredicate js searchQuery e &&
        distancePredicate js distanceFilter userLocation e)).map tagRequest ∧
    (∀ x, x ∈ applyFilters js emergencyRequests bloodTypeFilter searchQuery distanceFilter
          userLocation ↔
        x ∈ applyFilters js emergencyRequests bloodTypeFilter "" none userLocation ∧
        x ∈ applyFilters js emergencyRequests "All" searchQuery none userLocation ∧
        x ∈ applyFilters js emergencyRequests "All" "" distanceFilter userLocation) ∧
    ((applyFilters js emergencyRequests bloodTypeFilter searchQuery distanceFilter
          userLocation).Sublist
        (applyFilters js emergencyRequests bloodTypeFilter "" none userLocation) ∧
      (applyFilters js emergencyRequests bloodTypeFilter searchQuery distanceFilter
          userLocation).Sublist
        (applyFilters js emergencyRequests "All" searchQuery none userLocation) ∧
      (applyFilters js emergencyRequests bloodTypeFilter searchQuery distanceFilter
          userLocation).Sublist
        (applyFilters js emergencyRequests "All" "" distanceFilter userLocation)) ∧
    (∀ (r : EmergencyRequest Num) (c : Coordinates Num) (usr : UserLocation Num),
      r.bloodType = some "O-" → r.coordinates = some c →
      calculateDistance js usr.lat usr.lng c.latitude c.longitude = 2 →
      applyFilters js (some [r]) "O-" "" (some 5) (some usr) =
        [{ r with donorsResponded := some (r.donorsResponded.getD 0) }]) := by
  have hbt : ∀ e : EmergencyRequest Num, bloodTypePredicate "All" e = true := by
    intro e; simp [bloodTypePredicate]
  have hq : ∀ e : EmergencyRequest Num, queryPredicate js "" e = true := by
    intro e; simp [queryPredicate]
  have hd : ∀ e : EmergencyRequest Num, distancePredicate js none userLocation e = true := by
    intro e; simp [distancePredicate]
  refine ⟨applyFilters_eq js _ _ _ _ _, ?_, ⟨?_, ?_, ?_⟩, ?_⟩
  · intro x
    simp only [applyFilters_eq, List.mem_map, List.mem_filter, hbt, hq, hd, Bool.and_true,
      Bool.true_and, Bool.and_eq_true]
    constructor
    · rintro ⟨e, ⟨he, ⟨h1, h2⟩, h3⟩, rfl⟩
      exact ⟨⟨e, ⟨he, h1⟩, rfl⟩, ⟨e, ⟨he, h2⟩, rfl⟩, ⟨e, ⟨he, h3⟩, rfl⟩⟩
    · rintro ⟨⟨e1, ⟨he1, h1⟩, rfl⟩, ⟨e2, ⟨-, h2⟩, h2e⟩, ⟨e3, ⟨-, h3⟩, h3e⟩⟩
      refine ⟨e1, ⟨he1, ⟨h1, ?_⟩, ?_⟩, rfl⟩
      · rw [← queryPredicate_tagRequest, ← h2e, queryPredicate_tagRequest]
        exact h2
      · rw [← distancePredicate_tagRequest, ← h3e, distancePredicate_tagRequest]
        exact h3
  · simp only [applyFilters_eq]
    refine (filter_sublist_filter_of_imp _ _ _ ?_).map tagRequest
    intro e he
    simp only [Bool.and_eq_true] at he
    simp [he.1.1, hq, hd]
  · simp only [applyFilters_eq]
    refine (filter_sublist_filter_of_imp _ _ _ ?_).map tagRequest
    intro e he
    simp only [Bool.and_eq_true] at he
    simp [he.1.2, hbt, hd]
  · simp only [applyFilters_eq]
    refine (filter_sublist_filter_of_imp _ _ _ ?_).map tagRequest
    intro e he
    simp only [Bool.and_eq_true] at he
    simp [he.2, hbt, hq]
  · intro r c usr hb hc hdist
    have h5 : (5 : Num) ≠ 0 := by norm_num
    have h25 : (2 : Num) ≤ 5 := by norm_num
    have hnr : isRareBloodType r.bloodType = false := by
      rw [hb]; simp [isRareBloodType, rareBloodTypes]
    rw [applyFilters_some]
    simp [bloodTypePredicate, matchesBloodType, hb, queryPredicate, distancePredicate,
      withinDistance, hc, hdist, h5, h25, tagRequest_of_not_rare r hnr]

/-- Claim C3. The rarity set contains only the type O h; every element of the
`applyFilters` result whose blood type is in the rarity set carries
`isRare = true`; the result is the image, element by element, of a sublist of
the input, and for an input request with another blood type (O- for one) the
output element keeps the `isRare` of its input (the filter gives it no rare
flag) and has `donorsResponded` equal to the input value, or 0 when the input
value is absent. -/
theorem applyFilters_rare_tag (js : Builtins Num)
    (emergencyRequests : Option (List (EmergencyRequest Num)))
    (bloodTypeFilter searchQuery : String) (distanceFilter : Option Num)
    (userLocation : Option (UserLocation Num)) :
    rareBloodTypes = ["O h"] ∧ "O-" ∉ rareBloodTypes ∧
    (∀ x ∈ applyFilters js emergencyRequests bloodTypeFilter searchQuery distanceFilter
        userLocation,
      (∃ b ∈ rareBloodTypes, x.bloodType = some b) → x.isRare = some true) ∧
    ∃ kept : List (EmergencyRequest Num), kept.Sublist (emergencyRequests.getD []) ∧
      List.Forall₂
        (fun e x => x.bloodType = e.bloodType ∧
          ((¬ ∃ b ∈ rareBloodTypes, e.bloodType = some b) →
            x.isRare = e.isRare ∧ x.donorsResponded = some (e.donorsResponded.getD 0)))
        kept
        (applyFilters js emergencyRequests bloodTypeFilter searchQuery distanceFilter
          userLocation) := by
  refine ⟨rfl, by decide, ?_, ?_⟩
  · intro x hx hrare
    rw [applyFilters_eq] at hx
    obtain ⟨e, -, rfl⟩ := List.mem_map.1 hx
    rw [tagRequest_bloodType] at hrare
    have hr : isRareBloodType e.bloodType = true := by
      obtain ⟨b, hb, hbe⟩ := hrare
      rw [hbe]; simpa [isRareBloodType] using hb
    rw [tagRequest_of_rare e hr]
  · rw [applyFilters_eq]
    refine ⟨(emergencyRequests.getD []).filter (fun e => bloodTypePredicate bloodTypeFilter e &&
        queryPredicate js searchQuery e &&
        distancePredicate js distanceFilter userLocation e), List.filter_sublist _, ?_⟩
    rw [List.forall₂_map_right_iff, List.forall₂_same]
    intro e _
    refine ⟨tagRequest_bloodType e, ?_⟩
    intro hnot
    have hr : isRareBloodType e.bloodType = false := by
      cases hb : e.bloodType with
      | none => rfl
      | some b =>
        have : b ∉ rareBloodTypes := fun hmem => hnot ⟨b, hmem, hb⟩
        simpa [isRareBloodType] using this
    rw [tagRequest_of_not_rare e hr]
    exact ⟨rfl, rfl⟩

/-- Claim C4, the counterexample. The request `rareRequest` has the rare blood
type and no `donorsResponded`; the element returned for it still has no
`donorsResponded`. -/
theorem rare_request_count_not_defaulted :
    rareRequest.donorsResponded = none ∧
    (applyFilters realBuiltins (some [rareRequest]) "All" "" none none).map
      (fun x => x.donorsResponded) = [none] := by
  refine ⟨rfl, ?_⟩
  have hr : isRareBloodType rareRequest.bloodType = true := by
    show isRareBloodType (some "O h") = true
    decide
  rw [applyFilters_some]
  simp only [bloodTypePredicate, queryPredicate, distancePredicate, decide_True, Bool.true_or,
    Bool.and_self, List.filter_cons, List.filter_nil, if_true, List.map_cons, List.map_nil]
  rw [tagRequest_of_rare _ hr]
  rfl

/-- Claim C4, amended. Every element of the `applyFilters` result whose blood
type is not in the rarity set carries a defaulted donor-response count: its
`donorsResponded` is defined, it is the input value, and it is 0 whenever the
input request had no `donorsResponded`; an element whose blood type is in the
rarity set keeps the `donorsResponded` of its input unchanged. -/
theorem applyFilters_count_defaulted_unless_rare (js : Builtins Num)
    (emergencyRequests : Option (List (EmergencyRequest Num)))
    (bloodTypeFilter searchQuery : String) (distanceFilter : Option Num)
    (userLocation : Option (UserLocation Num)) :
    (∀ x ∈ applyFilters js emergencyRequests bloodTypeFilter searchQuery distanceFilter
        userLocation,
      (¬ ∃ b ∈ rareBloodTypes, x.bloodType = some b) → ∃ n, x.donorsResponded = some n) ∧
    ∃ kept : List (EmergencyRequest Num), kept.Sublist (emergencyRequests.getD []) ∧
      List.Forall₂
        (fun e x =>
          ((¬ ∃ b ∈ rareBloodTypes, e.bloodType = some b) →
            x.donorsResponded = some (e.donorsResponded.getD 0) ∧
            (e.donorsResponded = none → x.donorsResponded = some 0)) ∧
          ((∃ b ∈ rareBloodTypes, e.bloodType = some b) →
            x.donorsResponded = e.donorsResponded))
        kept
        (applyFilters js emergencyRequests bloodTypeFilter searchQuery distanceFilter
          userLocation) := by
  have hnotrare : ∀ e : EmergencyRequest Num,
      (¬ ∃ b ∈ rareBloodTypes, e.bloodType = some b) → isRareBloodType e.bloodType = false := by
    intro e hnot
    cases hb : e.bloodType with
    | none => rfl
    | some b =>
      have : b ∉ rareBloodTypes := fun hmem => hnot ⟨b, hmem, hb⟩
      simpa [isRareBloodType] using this
  have hrare : ∀ e : EmergencyRequest Num,
      (∃ b ∈ rareBloodTypes, e.bloodType = some b) → isRareBloodType e.bloodType = true := by
    rintro e ⟨b, hb, hbe⟩
    rw [hbe]; simpa [isRareBloodType] using hb
  rw [applyFilters_eq]
  refine ⟨?_, (emergencyRequests.getD []).filter (fun e =>
      bloodTypePredicate bloodTypeFilter e && queryPredicate js searchQuery e &&
      distancePredicate js distanceFilter userLocation e), List.filter_sublist _, ?_⟩
  · intro x hx hnot
    obtain ⟨e, -, rfl⟩ := List.mem_map.1 hx
    rw [tagRequest_bloodType] at hnot
    rw [tagRequest_of_not_rare e (hnotrare e hnot)]
    exact ⟨_, rfl⟩
  · rw [List.forall₂_map_right_iff, List.forall₂_same]
    intro e _
    refine ⟨fun hnot => ?_, fun hr => ?_⟩
    · rw [tagRequest_of_not_rare e (hnotrare e hnot)]
      refine ⟨rfl, fun hnone => ?_⟩
      show some (e.donorsResponded.getD 0) = some 0
      rw [hnone]; rfl
    · rw [tagRequest_of_rare e (hrare e hr)]

/-- Claim C5. The search predicate of `applyFilters` is a case-insensitive
substring match over hospital and location. For a lower-casing that sends
exactly the empty string to the empty string: under a non-empty query the
filter keeps exactly the requests accepted by the callback `matchesQuery`,
whatever the other filters; a request is accepted iff its lower-cased hospital
or its lower-cased location contains the lower-cased query; two queries with
the same lower-cased form give the same result; two requests whose hospitals
and locations have the same lower-cased forms are accepted alike; and a
request with neither a hospital nor a location is never accepted and never
returned under a non-empty query. -/
theorem matchesQuery_case_insensitive (js : Builtins Num)
    (hlow : ∀ s, js.toLowerCase s = "" ↔ s = "") :
    (∀ (requests : List (EmergencyRequest Num)) (bt q : String) (d : Option Num)
        (u : Option (UserLocation Num)), q ≠ "" →
      applyFilters js (some requests) bt q d u =
        applyFilters js (some (requests.filter (matchesQuery js q))) bt "" d u) ∧
    (∀ (q : String) (e : EmergencyRequest Num), q ≠ "" →
      (matchesQuery js q e = true ↔
        (∃ h, e.hospital = some h ∧
          (js.toLowerCase q).data <:+: (js.toLowerCase h).data) ∨
        (∃ l, e.location = some l ∧
          (js.toLowerCase q).data <:+: (js.toLowerCase l).data))) ∧
    (∀ (q q2 : String), js.toLowerCase q = js.toLowerCase q2 →
      ∀ (emergencyRequests : Option (List (EmergencyRequest Num))) (bt : String)
        (d : Option Num) (u : Option (UserLocation Num)),
        applyFilters js emergencyRequests bt q d u =
          applyFilters js emergencyRequests bt q2 d u) ∧
    (∀ (q : String) (e e2 : EmergencyRequest Num),
      e.hospital.map js.toLowerCase = e2.hospital.map js.toLowerCase →
      e.location.map js.toLowerCase = e2.location.map js.toLowerCase →
      matchesQuery js q e = matchesQuery js q e2) ∧
    (∀ (q : String), q ≠ "" →
      (∀ e : EmergencyRequest Num, e.hospital = none → e.location = none →
        matchesQuery js q e = false) ∧
      ∀ (emergencyRequests : Option (List (EmergencyRequest Num))) (bt : String)
        (d : Option Num) (u : Option (UserLocation Num)),
        ∀ x ∈ applyFilters js emergencyRequests bt q d u,
          ¬ (x.hospital = none ∧ x.location = none)) := by
  -- the truthiness test on a field is read off its lower-cased form
  have hfield : ∀ (q : String) (f : Option String), q ≠ "" →
      (fieldMatches js q f = true ↔
        ∃ s, f = some s ∧ (js.toLowerCase q).data <:+: (js.toLowerCase s).data) := by
    intro q f hq
    rw [fieldMatches_iff]
    constructor
    · rintro ⟨s, hs, -, hin⟩
      exact ⟨s, hs, hin⟩
    · rintro ⟨s, hs, hin⟩
      refine ⟨s, hs, ?_, hin⟩
      rintro rfl
      have h0 : js.toLowerCase "" = "" := (hlow "").2 rfl
      rw [h0] at hin
      have h1 : (js.toLowerCase q).data = [] := List.eq_nil_of_infix_nil hin
      exact hq ((hlow q).1 (String.ext h1))
  have hfieldmap : ∀ (q : String) (f g : Option String),
      f.map js.toLowerCase = g.map js.toLowerCase →
      fieldMatches js q f = fieldMatches js q g := by
    intro q f g hfg
    cases f with
    | none =>
      cases g with
      | none => rfl
      | some t => simp at hfg
    | some s =>
      cases g with
      | none => simp at hfg
      | some t =>
        have hst : js.toLowerCase s = js.toLowerCase t := by simpa using hfg
        have hne : (s = "") ↔ (t = "") := by
          rw [← hlow s, ← hlow t, hst]
        simp only [fieldMatches, hst]
        by_cases h : s = ""
        · simp [h, hne.1 h]
        · have ht : ¬ t = "" := fun ht => h (hne.2 ht)
          simp [h, ht]
  have hsame : ∀ (q q2 : String), js.toLowerCase q = js.toLowerCase q2 →
      ∀ e : EmergencyRequest Num, queryPredicate js q e = queryPredicate js q2 e := by
    intro q q2 hqq e
    have hne : (q = "") ↔ (q2 = "") := by
      rw [← hlow q, ← hlow q2, hqq]
    have hf : ∀ f, fieldMatches js q f = fieldMatches js q2 f := by
      intro f
      cases f with
      | none => rfl
      | some s => simp only [fieldMatches, hqq]
    by_cases h : q = ""
    · simp [queryPredicate, h, hne.1 h]
    · have h2 : ¬ q2 = "" := fun ht => h (hne.2 ht)
      simp [queryPredicate, matchesQuery, h, h2, hf]
  refine ⟨?_, ?_, ?_, ?_, ?_⟩
  · intro requests bt q d u hq
    rw [applyFilters_some, applyFilters_some, List.filter_filter]
    congr 1
    apply List.filter_congr
    intro e _
    have h1 : queryPredicate js q e = matchesQuery js q e := by simp [queryPredicate, hq]
    have h0 : queryPredicate js "" e = true := by simp [queryPredicate]
    simp only [h1, h0]
    cases bloodTypePredicate bt e <;> cases matchesQuery js q e <;>
      cases distancePredicate js d u e <;> rfl
  · intro q e hq
    unfold matchesQuery
    rw [Bool.or_eq_true, hfield q _ hq, hfield q _ hq]
  · intro q q2 hqq emergencyRequests bt d u
    rw [applyFilters_eq, applyFilters_eq]
    congr 1
    apply List.filter_congr
    intro e _
    rw [hsame q q2 hqq e]
  · intro q e e2 hh hl
    unfold matchesQuery
    rw [hfieldmap q _ _ hh, hfieldmap q _ _ hl]
  · intro q hq
    refine ⟨?_, ?_⟩
    · intro e hh hl
      simp [matchesQuery, fieldMatches, hh, hl]
    · intro emergencyRequests bt d u x hx hnone
      rw [applyFilters_eq] at hx
      obtain ⟨e, he, rfl⟩ := List.mem_map.1 hx
      rw [tagRequest_hospital, tagRequest_location] at hnone
      have hkeep := (List.mem_filter.1 he).2
      simp only [Bool.and_eq_true] at hkeep
      have hm : matchesQuery js q e = true := by
        simpa [queryPredicate, hq] using hkeep.1.2
      simp [matchesQuery, fieldMatches, hnone.1, hnone.2] at hm

/-- Claim C6, the counterexample. With a maximum distance of 5 km selected and
the user location absent, the request `noCoordinatesRequest`, which has no
coordinates, is returned. -/
theorem no_coordinates_kept_without_location :
    noCoordinatesRequest.coordinates = none ∧
    applyFilters realBuiltins (some [noCoordinatesRequest]) "All" "" (some 5) none =
      [{ noCoordinatesRequest with donorsResponded := some 0 }] :=
  ⟨rfl, applyFilters_noCoordinatesRequest⟩

/-- Claim C6, amended. Whenever a (non-zero) maximum distance is selected and
the user location is present, a request lacking coordinates is excluded from
the `applyFilters` result, for every request list, blood-type filter and
query: every returned element has coordinates, and neither a request without
coordinates nor its tagged form is in the result. -/
theorem applyFilters_excludes_no_coordinates (js : Builtins Num)
    (emergencyRequests : Option (List (EmergencyRequest Num)))
    (bloodTypeFilter searchQuery : String) (d : Num) (u : UserLocation Num) (hd : d ≠ 0) :
    (∀ x ∈ applyFilters js emergencyRequests bloodTypeFilter searchQuery (some d) (some u),
      x.coordinates ≠ none) ∧
    ∀ e : EmergencyRequest Num, e.coordinates = none →
      e ∉ applyFilters js emergencyRequests bloodTypeFilter searchQuery (some d) (some u) ∧
      tagRequest e ∉
        applyFilters js emergencyRequests bloodTypeFilter searchQuery (some d) (some u) := by
  have hall : ∀ x ∈ applyFilters js emergencyRequests bloodTypeFilter searchQuery (some d)
      (some u), x.coordinates ≠ none := by
    intro x hx hnone
    rw [applyFilters_eq] at hx
    obtain ⟨e, he, rfl⟩ := List.mem_map.1 hx
    rw [tagRequest_coordinates] at hnone
    have hkeep := (List.mem_filter.1 he).2
    simp only [Bool.and_eq_true] at hkeep
    have hw : withinDistance js d u e = true := by
      simpa [distancePredicate, hd] using hkeep.2
    obtain ⟨c, hc, -⟩ := (withinDistance_iff js d u e).1 hw
    rw [hnone] at hc
    exact Option.noConfusion hc
  refine ⟨hall, fun e he => ⟨fun hmem => hall e hmem he, fun hmem => ?_⟩⟩
  exact hall _ hmem (by rw [tagRequest_coordinates]; exact he)

/-- Claim C7. When the user location is absent, `applyFilters` (a total
function: no error is raised) returns, for every request list, blood-type
filter, query and distance-filter value, exactly the result it returns with
no distance filter selected. -/
theorem applyFilters_without_location (js : Builtins Num)
    (emergencyRequests : Option (List (EmergencyRequest Num)))
    (bloodTypeFilter searchQuery : String) (distanceFilter : Option Num) :
    applyFilters js emergencyRequests bloodTypeFilter searchQuery distanceFilter none =
      applyFilters js emergencyRequests bloodTypeFilter searchQuery none none := by
  rw [applyFilters_eq, applyFilters_eq]
  cases distanceFilter <;> rfl

/-- Claim C8. When the request list is absent, `applyFilters` (a total
function: no error is raised) returns the empty list for every setting of the
blood-type filter, the query, the distance filter and the user location. -/
theorem applyFilters_absent_list (js : Builtins Num)
    (bloodTypeFilter searchQuery : String) (distanceFilter : Option Num)
    (userLocation : Option (UserLocation Num)) :
    applyFilters js none bloodTypeFilter searchQuery distanceFilter userLocation = [] := rfl

end FilterClaims

/-! ## The claims on `calculateDistance` -/

section DistanceClaims

/-- Claim C9. Over exact real arithmetic, for all coordinate pairs A and B,
`calculateDistance(A, B)` equals `calculateDistance(B, A)`,
`calculateDistance(A, A)` equals 0, and every result is rounded to one decimal
place: ten times the result is an integer. -/
theorem calculateDistance_symm_self_rounded (lat1 lon1 lat2 lon2 : ℝ) :
    calculateDistance realBuiltins lat1 lon1 lat2 lon2 =
      calculateDistance realBuiltins lat2 lon2 lat1 lon1 ∧
    calculateDistance realBuiltins lat1 lon1 lat1 lon1 = 0 ∧
    ∃ k : ℤ, 10 * calculateDistance realBuiltins lat1 lon1 lat2 lon2 = (k : ℝ) := by
  refine ⟨calculateDistance_symm _ _ _ _, calculateDistance_self _ _, ?_⟩
  rw [calculateDistance_real]
  exact ⟨_, mul_div_cancel₀ _ (by norm_num)⟩

/-- Claim C10. Over exact real arithmetic, for all latitudes and longitudes in
degrees, `calculateDistance` returns the haversine distance on a sphere of
radius 6371 km, `6371 * 2 * asin(sqrt(sin^2(dLat/2) + cos(lat1) * cos(lat2) *
sin^2(dLon/2)))` with the angles converted to radians, rounded to one decimal
place; and the form `atan2(sqrt(a), sqrt(1 - a))` used in the code equals
`asin(sqrt(a))` for every `a` in the interval from 0 to 1. -/
theorem calculateDistance_is_haversine :
    (∀ lat1 lon1 lat2 lon2 : ℝ,
      calculateDistance realBuiltins lat1 lon1 lat2 lon2 =
        roundOneDecimal (haversineReference lat1 lon1 lat2 lon2)) ∧
    (∀ a : ℝ, 0 ≤ a → a ≤ 1 →
      realBuiltins.atan2 (realBuiltins.sqrt a) (realBuiltins.sqrt (1 - a)) =
        Real.arcsin (Real.sqrt a)) :=
  ⟨calculateDistance_eq_reference, fun a h0 h1 => arg_sqrt_eq_arcsin a h0 h1⟩

end DistanceClaims

/-! ## The claims applied to concrete inputs -/

section Witnesses

/-- The statement of claim C1 at the list `[twoKmRequest]` with all three
filters active: the request is returned and satisfies the three predicates. -/
theorem applyFilters_sublist_and_sound_witness :
    ({ twoKmRequest with donorsResponded := some 0 } : EmergencyRequest ℝ) ∈
      applyFilters realBuiltins (some [twoKmRequest]) "O-" "APOLLO" (some 5)
        (some originLocation) ∧
    ({ twoKmRequest with donorsResponded := some 0 } : EmergencyRequest ℝ).bloodType =
      some "O-" ∧
    ((∃ h, ({ twoKmRequest with donorsResponded := some 0 } : EmergencyRequest ℝ).hospital =
        some h ∧
        (realBuiltins.toLowerCase "APOLLO").data <:+: (realBuiltins.toLowerCase h).data) ∨
      (∃ l, ({ twoKmRequest with donorsResponded := some 0 } : EmergencyRequest ℝ).location =
        some l ∧
        (realBuiltins.toLowerCase "APOLLO").data <:+: (realBuiltins.toLowerCase l).data)) ∧
    (∃ c, ({ twoKmRequest with donorsResponded := some 0 } : EmergencyRequest ℝ).coordinates =
        some c ∧
      calculateDistance realBuiltins originLocation.lat originLocation.lng
        c.latitude c.longitude ≤ 5) := by
  have hmem : ({ twoKmRequest with donorsResponded := some 0 } : EmergencyRequest ℝ) ∈
      applyFilters realBuiltins (some [twoKmRequest]) "O-" "APOLLO" (some 5)
        (some originLocation) := by
    rw [applyFilters_twoKm]
    exact List.mem_singleton.2 rfl
  have h := (applyFilters_sublist_and_sound realBuiltins (some [twoKmRequest]) "O-" "APOLLO"
    (some 5) (some originLocation)).2 _ hmem
  exact ⟨hmem, h.1 (by decide), h.2.1 (by decide),
    h.2.2 5 originLocation rfl (by norm_num) rfl⟩

/-- The scenario of claim C2 at `twoKmRequest`, an O- request 2 km from the
user: blood type O- and a maximum of 5 km return exactly that request. -/
theorem applyFilters_conjunctive_witness :
    twoKmRequest.bloodType = some "O-" ∧
    calculateDistance realBuiltins originLocation.lat originLocation.lng
      (360 / (6371 * Real.pi)) 0 = 2 ∧
    applyFilters realBuiltins (some [twoKmRequest]) "O-" "" (some 5) (some originLocation) =
      [{ twoKmRequest with donorsResponded := some (twoKmRequest.donorsResponded.getD 0) }] :=
  ⟨rfl, calculateDistance_twoKm,
    (applyFilters_conjunctive realBuiltins none "All" "" none none).2.2.2 twoKmRequest
      ⟨360 / (6371 * Real.pi), 0⟩ originLocation rfl rfl calculateDistance_twoKm⟩

/-- The amended claim C4 at `noCoordinatesRequest`, a request for A+ blood
without `donorsResponded`: the returned element has a defined count. -/
theorem applyFilters_count_defaulted_unless_rare_witness :
    ({ noCoordinatesRequest with donorsResponded := some 0 } : EmergencyRequest ℝ) ∈
      applyFilters realBuiltins (some [noCoordinatesRequest]) "All" "" (some 5) none ∧
    ∃ n, ({ noCoordinatesRequest with donorsResponded := some 0 } :
      EmergencyRequest ℝ).donorsResponded = some n := by
  have hmem : ({ noCoordinatesRequest with donorsResponded := some 0 } : EmergencyRequest ℝ) ∈
      applyFilters realBuiltins (some [noCoordinatesRequest]) "All" "" (some 5) none := by
    rw [applyFilters_noCoordinatesRequest]
    exact List.mem_singleton.2 rfl
  refine ⟨hmem, (applyFilters_count_defaulted_unless_rare realBuiltins
    (some [noCoordinatesRequest]) "All" "" (some 5) none).1 _ hmem ?_⟩
  rintro ⟨b, hb, hbe⟩
  have h1 : b = "O h" := by simpa [rareBloodTypes] using hb
  have h2 : (some "A+" : Option String) = some b := hbe
  rw [h1] at h2
  exact absurd h2 (by decide)

/-- Claim C5 at the ASCII lower-casing: the queries APOLLO and apollo return
the same list. -/
theorem matchesQuery_case_insensitive_witness :
    (∀ s, realBuiltins.toLowerCase s = "" ↔ s = "") ∧
    realBuiltins.toLowerCase "APOLLO" = realBuiltins.toLowerCase "apollo" ∧
    applyFilters realBuiltins (some [twoKmRequest]) "O-" "APOLLO" (some 5)
        (some originLocation) =
      applyFilters realBuiltins (some [twoKmRequest]) "O-" "apollo" (some 5)
        (some originLocation) :=
  ⟨asciiLowerCase_eq_empty_iff, by decide,
    (matchesQuery_case_insensitive realBuiltins asciiLowerCase_eq_empty_iff).2.2.1
      "APOLLO" "apollo" (by decide) (some [twoKmRequest]) "O-" (some 5) (some originLocation)⟩

/-- The amended claim C6 at a maximum of 5 km with the user at the origin: the
request without coordinates is not returned. -/
theorem applyFilters_excludes_no_coordinates_witness :
    (5 : ℝ) ≠ 0 ∧ noCoordinatesRequest.coordinates = none ∧
    tagRequest noCoordinatesRequest ∉
      applyFilters realBuiltins (some [noCoordinatesRequest]) "All" "" (some 5)
        (some originLocation) :=
  ⟨by norm_num, rfl,
    ((applyFilters_excludes_no_coordinates realBuiltins (some [noCoordinatesRequest]) "All" ""
      5 originLocation (by norm_num)).2 noCoordinatesRequest rfl).2⟩

/-- The identity of claim C10 at `a = 1 / 2`. -/
theorem calculateDistance_is_haversine_witness :
    (0 : ℝ) ≤ 1 / 2 ∧ (1 / 2 : ℝ) ≤ 1 ∧
    realBuiltins.atan2 (realBuiltins.sqrt (1 / 2)) (realBuiltins.sqrt (1 - 1 / 2)) =
      Real.arcsin (Real.sqrt (1 / 2)) :=
  ⟨by norm_num, by norm_num,
    calculateDistance_is_haversine.2 (1 / 2) (by norm_num) (by norm_num)⟩

end Witnesses

end EmergencySection

/-! # The response state machine: lemmas and claims -/

namespace EmergencySection

section ConfirmLemmas

variable {Num : Type}

theorem orElse_zero (value : Option Nat) : orElse value 0 = value.getD 0 := by
  cases value with
  | none => rfl
  | some n =>
    by_cases h : n = 0
    · simp [orElse, h]
    · simp [orElse, h]

theorem le_orElse_one_iff (value : Option Nat) (n : Nat) :
    orElse value 1 ≤ n + 1 ↔ value.getD 1 ≤ n + 1 := by
  cases value with
  | none => rfl
  | some m =>
    by_cases h : m = 0
    · simp [orElse, h]
    · simp [orElse, h]

theorem confirmNotify_store (env : ConfirmEnv) (e : EmergencyRequest Num) (id : String)
    (store : Store Num) (trace : List Effect) :
    (confirmNotify env e id store trace).store = store := by
  unfold confirmNotify
  split <;> rfl

theorem confirmNotify_trace (env : ConfirmEnv) (e : EmergencyRequest Num) (id : String)
    (store : Store Num) (trace : List Effect) :
    ∃ rest, (confirmNotify env e id store trace).trace = trace ++ rest ∧
      ∀ x ∈ rest, x.isStoreWrite = false := by
  unfold confirmNotify
  split
  · exact ⟨_, rfl, by simp [Effect.isStoreWrite]⟩
  · exact ⟨[], by simp, by simp⟩

theorem confirmSms_store (userProfile : Option UserProfile) (env : ConfirmEnv)
    (e : EmergencyRequest Num) (id : String) (store : Store Num) (trace : List Effect) :
    (confirmSms userProfile env e id store trace).store = store := by
  unfold confirmSms
  split
  · split
    · split
      · rfl
      · exact confirmNotify_store _ _ _ _ _
    · exact confirmNotify_store _ _ _ _ _
  · exact confirmNotify_store _ _ _ _ _

theorem confirmSms_trace (userProfile : Option UserProfile) (env : ConfirmEnv)
    (e : EmergencyRequest Num) (id : String) (store : Store Num) (trace : List Effect) :
    ∃ rest, (confirmSms userProfile env e id store trace).trace = trace ++ rest ∧
      ∀ x ∈ rest, x.isStoreWrite = false := by
  unfold confirmSms
  split
  · split
    · split
      · exact ⟨_, rfl, by simp [Effect.isStoreWrite]⟩
      · obtain ⟨rest, h1, h2⟩ := confirmNotify_trace env e id store
          (trace ++ [Effect.sendSms (some _) (confirmationMessage e)])
        refine ⟨_, h1.trans (List.append_assoc _ _ _), ?_⟩
        intro x hx
        rcases List.mem_append.1 hx with hx | hx
        · rw [List.mem_singleton.1 hx]
          rfl
        · exact h2 x hx
    · exact confirmNotify_trace _ _ _ _ _
  · exact confirmNotify_trace _ _ _ _ _

/-- The `try` block when both store writes succeed: one update with the
incremented count, then the delete exactly when the count reaches the units,
then calls that do not write to the store. -/
theorem confirmWrites_of_writes_ok (userProfile : Option UserProfile) (env : ConfirmEnv)
    (e : EmergencyRequest Num) (id : String) (store : Store Num)
    (hupd : env.updateDocOk = true) (hdel : env.deleteDocOk = true) :
    ∃ rest, (∀ x ∈ rest, x.isStoreWrite = false) ∧
      ((e.units.getD 1 ≤ e.donorsResponded.getD 0 + 1 ∧
          (confirmWrites userProfile env e id store).trace =
            [Effect.updateDoc id (e.donorsResponded.getD 0 + 1) env.responseTime,
             Effect.deleteDoc id] ++ rest ∧
          (confirmWrites userProfile env e id store).store =
            (store.update id (e.donorsResponded.getD 0 + 1) env.responseTime).delete id) ∨
       (e.donorsResponded.getD 0 + 1 < e.units.getD 1 ∧
          (confirmWrites userProfile env e id store).trace =
            [Effect.updateDoc id (e.donorsResponded.getD 0 + 1) env.responseTime] ++ rest ∧
          (confirmWrites userProfile env e id store).store =
            store.update id (e.donorsResponded.getD 0 + 1) env.responseTime)) := by
  unfold confirmWrites
  simp only [hupd, if_true, orElse_zero]
  unfold confirmDelete
  by_cases hful : e.units.getD 1 ≤ e.donorsResponded.getD 0 + 1
  · have hge : e.donorsResponded.getD 0 + 1 ≥ orElse e.units 1 :=
      (le_orElse_one_iff e.units _).2 hful
    simp only [hge, if_true, hdel]
    obtain ⟨rest, h1, h2⟩ := confirmSms_trace userProfile env e id
      ((store.update id (e.donorsResponded.getD 0 + 1) env.responseTime).delete id)
      ([Effect.updateDoc id (e.donorsResponded.getD 0 + 1) env.responseTime] ++
        [Effect.deleteDoc id])
    exact ⟨rest, h2, Or.inl ⟨hful, h1, confirmSms_store _ _ _ _ _ _⟩⟩
  · have hge : ¬ e.donorsResponded.getD 0 + 1 ≥ orElse e.units 1 :=
      fun h => hful ((le_orElse_one_iff e.units _).1 h)
    simp only [hge, if_false]
    obtain ⟨rest, h1, h2⟩ := confirmSms_trace userProfile env e id
      (store.update id (e.donorsResponded.getD 0 + 1) env.responseTime)
      [Effect.updateDoc id (e.donorsResponded.getD 0 + 1) env.responseTime]
    exact ⟨rest, h2, Or.inr ⟨Nat.lt_of_not_le hful, h1, confirmSms_store _ _ _ _ _ _⟩⟩

theorem confirmRun_of_selected (userProfile : Option UserProfile) (env : ConfirmEnv)
    (s : ViewState Num) (store : Store Num) (e : EmergencyRequest Num) (id : String)
    (hsel : s.selectedEmergency = some e) (hid : e.id = some id) (hne : id ≠ "") :
    (confirmDonation userProfile env s store).2 = confirmWrites userProfile env e id store := by
  simp [confirmDonation, confirmRun, hsel, hid, hne]

theorem confirmDonation_state (userProfile : Option UserProfile) (env : ConfirmEnv)
    (s : ViewState Num) (store : Store Num) :
    (confirmDonation userProfile env s store).1 =
      { s with currentView := View.donationConfirmed, isProcessing := false } := by
  unfold confirmDonation
  simp only
  split <;> rfl

theorem store_update_same (store : Store Num) (id : String) (n : Nat) (t : String)
    (d : StoredRequest Num) (h : store id = some d) :
    store.update id n t id =
      some { request := { d.request with donorsResponded := some n },
             donorResponseTime := some t } := by
  simp [Store.update, h]

theorem store_delete_same (store : Store Num) (id : String) : store.delete id id = none := by
  simp [Store.delete]

end ConfirmLemmas

end EmergencySection

namespace EmergencySection

section ResponseLemmas

variable {Num : Type}

theorem handleEmergencyResponse_eq [LinearOrderedField Num] (js : Builtins Num)
    (mx : EstimateBuiltins Num) (userLocation : Option (UserLocation Num))
    (s : ViewState Num) :
    handleEmergencyResponse js mx userLocation s =
      { s with
        nearbyDonors :=
          some (match estimateNearbyDonors js mx userLocation s.selectedEmergency with
            | Except.ok estimate => estimate
            | Except.error _ => fallbackNearbyDonors)
        currentView := View.donorConfirmation
        isProcessing := false } := by
  unfold handleEmergencyResponse
  simp only
  split <;> simp_all

theorem estimateNearbyDonors_failure [LinearOrderedField Num] (js : Builtins Num)
    (mx : EstimateBuiltins Num) (userLocation : Option (UserLocation Num))
    (selectedEmergency : Option (EmergencyRequest Num))
    (h : userLocation = none ∨ selectedEmergency = none ∨
      ∃ e, selectedEmergency = some e ∧ e.coordinates = none) :
    ∃ msg, estimateNearbyDonors js mx userLocation selectedEmergency = Except.error msg := by
  unfold estimateNearbyDonors
  rcases userLocation with _ | u
  · exact ⟨_, rfl⟩
  · rcases selectedEmergency with _ | e
    · exact ⟨_, rfl⟩
    · rcases h with h | h | ⟨e2, he, hc⟩
      · cases h
      · cases h
      · cases he
        simp only [hc]
        exact ⟨_, rfl⟩

theorem handleSMSEmergencyResponse_success (s : ViewState Num) (e : EmergencyRequest Num)
    (hsel : s.selectedEmergency = some e) :
    handleSMSEmergencyResponse (FetchResult.response true) s =
      ({ s with currentView := View.donationConfirmed, isProcessing := false },
        [Effect.sendSms e.contactPhone (smsResponseMessage e)]) := by
  simp [handleSMSEmergencyResponse, hsel]

theorem handleSMSEmergencyResponse_failure (result : FetchResult) (s : ViewState Num)
    (e : EmergencyRequest Num) (hsel : s.selectedEmergency = some e)
    (hres : result ≠ FetchResult.response true) :
    handleSMSEmergencyResponse result s =
      ({ s with error := some "Failed to send SMS. Please try again when online.",
                isProcessing := false },
        [Effect.sendSms e.contactPhone (smsResponseMessage e)]) := by
  cases result with
  | rejected => simp [handleSMSEmergencyResponse, hsel]
  | response ok =>
    cases ok with
    | true => exact absurd rfl hres
    | false => simp [handleSMSEmergencyResponse, hsel]

end ResponseLemmas

section ResponseClaims

variable {Num : Type}

/-- Claim C11. For every selected request with a (truthy) identifier, when the
two store writes succeed, `confirmDonation` first writes a donor-response count
equal to the count of the selected request (0 when absent) plus one, and no
other count; it deletes the request from the store if and only if that new
count is at least the required units (1 when absent), and then the document is
gone; when the new count is below the required units a request held by the
store remains there with the incremented count. -/
theorem confirmDonation_count_and_delete (userProfile : Option UserProfile)
    (env : ConfirmEnv) (s : ViewState Num) (store : Store Num) (e : EmergencyRequest Num)
    (id : String) (hsel : s.selectedEmergency = some e) (hid : e.id = some id)
    (hne : id ≠ "") (hupd : env.updateDocOk = true) (hdel : env.deleteDocOk = true) :
    (confirmDonation userProfile env s store).2.trace.head? =
      some (Effect.updateDoc id (e.donorsResponded.getD 0 + 1) env.responseTime) ∧
    (∀ i c t, Effect.updateDoc i c t ∈ (confirmDonation userProfile env s store).2.trace →
      i = id ∧ c = e.donorsResponded.getD 0 + 1) ∧
    (Effect.deleteDoc id ∈ (confirmDonation userProfile env s store).2.trace ↔
      e.units.getD 1 ≤ e.donorsResponded.getD 0 + 1) ∧
    (e.units.getD 1 ≤ e.donorsResponded.getD 0 + 1 →
      (confirmDonation userProfile env s store).2.store id = none) ∧
    (e.donorsResponded.getD 0 + 1 < e.units.getD 1 →
      ∀ d, store id = some d →
        (confirmDonation userProfile env s store).2.store id =
          some { request := { d.request with
                   donorsResponded := some (e.donorsResponded.getD 0 + 1) },
                 donorResponseTime := some env.responseTime }) := by
  rw [confirmRun_of_selected userProfile env s store e id hsel hid hne]
  obtain ⟨rest, hrest, h | h⟩ := confirmWrites_of_writes_ok userProfile env e id store hupd hdel
  · obtain ⟨hful, htrace, hstore⟩ := h
    rw [htrace, hstore]
    refine ⟨rfl, ?_, ?_, ?_, ?_⟩
    · intro i c t hmem
      simp only [List.cons_append, List.nil_append, List.mem_cons] at hmem
      rcases hmem with hmem | hmem | hmem
      · cases hmem; exact ⟨rfl, rfl⟩
      · cases hmem
      · have := hrest _ hmem
        simp [Effect.isStoreWrite] at this
    · exact ⟨fun _ => hful, fun _ => by simp⟩
    · intro _
      exact store_delete_same _ _
    · intro hlt
      omega
  · obtain ⟨hlt, htrace, hstore⟩ := h
    rw [htrace, hstore]
    refine ⟨rfl, ?_, ?_, ?_, ?_⟩
    · intro i c t hmem
      simp only [List.cons_append, List.nil_append, List.mem_cons] at hmem
      rcases hmem with hmem | hmem
      · cases hmem; exact ⟨rfl, rfl⟩
      · have := hrest _ hmem
        simp [Effect.isStoreWrite] at this
    · constructor
      · intro hmem
        simp only [List.cons_append, List.nil_append, List.mem_cons] at hmem
        rcases hmem with hmem | hmem
        · cases hmem
        · have := hrest _ hmem
          simp [Effect.isStoreWrite] at this
      · intro hful
        omega
    · intro hful
      omega
    · intro _ d hd
      exact store_update_same store id _ _ d hd

/-- Claim C12. For every state and every outcome of the store update, the
store delete, the SMS call and the parent callback, and also when no request
with an identifier is selected, `confirmDonation` ends with the view set to
donation-confirmed and the processing flag cleared, and the error state is
left as it was. -/
theorem confirmDonation_always_confirms (userProfile : Option UserProfile) (env : ConfirmEnv)
    (s : ViewState Num) (store : Store Num) :
    (confirmDonation userProfile env s store).1.currentView = View.donationConfirmed ∧
    (confirmDonation userProfile env s store).1.isProcessing = false ∧
    (confirmDonation userProfile env s store).1.error = s.error ∧
    (confirmDonation userProfile env s store).1.selectedEmergency = s.selectedEmergency := by
  rw [confirmDonation_state]
  exact ⟨rfl, rfl, rfl, rfl⟩

/-- Claim C13. For every state, `handleEmergencyResponse` ends with the view
set to donor-confirmation, a non-null nearby-donor estimate and the processing
flag cleared, the error state left as it was; whenever the estimate
computation fails (user location absent, no selected request, or a selected
request without coordinates) the estimate is exactly the fallback with count 8,
time 15 minutes and radius 5 km. -/
theorem handleEmergencyResponse_always_confirmation [LinearOrderedField Num]
    (js : Builtins Num) (mx : EstimateBuiltins Num)
    (userLocation : Option (UserLocation Num)) (s : ViewState Num) :
    (handleEmergencyResponse js mx userLocation s).currentView = View.donorConfirmation ∧
    (handleEmergencyResponse js mx userLocation s).nearbyDonors ≠ none ∧
    (handleEmergencyResponse js mx userLocation s).isProcessing = false ∧
    (handleEmergencyResponse js mx userLocation s).error = s.error ∧
    ((userLocation = none ∨ s.selectedEmergency = none ∨
        ∃ e, s.selectedEmergency = some e ∧ e.coordinates = none) →
      (handleEmergencyResponse js mx userLocation s).nearbyDonors =
        some { count := 8, estimatedTime := "15 minutes", radius := "5 km" }) := by
  rw [handleEmergencyResponse_eq]
  refine ⟨rfl, by simp, rfl, rfl, ?_⟩
  intro h
  obtain ⟨msg, hmsg⟩ := estimateNearbyDonors_failure js mx userLocation s.selectedEmergency h
  simp only [hmsg]
  rfl

/-- Claim C14. For every selected request, `handleSMSEmergencyResponse` posts
one SMS; when the POST returns a 2xx response the view is set to
donation-confirmed; when the POST is rejected or returns another status the
view and the selected request are left unchanged and the error message
`Failed to send SMS. Please try again when online.` is set; so from any other
view the view becomes donation-confirmed if and only if the response is 2xx;
in both cases the processing flag is cleared. -/
theorem handleSMSEmergencyResponse_outcome (result : FetchResult) (s : ViewState Num)
    (e : EmergencyRequest Num) (hsel : s.selectedEmergency = some e) :
    (handleSMSEmergencyResponse result s).2 =
      [Effect.sendSms e.contactPhone (smsResponseMessage e)] ∧
    (result = FetchResult.response true →
      (handleSMSEmergencyResponse result s).1.currentView = View.donationConfirmed) ∧
    (result ≠ FetchResult.response true →
      (handleSMSEmergencyResponse result s).1.currentView = s.currentView ∧
      (handleSMSEmergencyResponse result s).1.selectedEmergency = s.selectedEmergency ∧
      (handleSMSEmergencyResponse result s).1.error =
        some "Failed to send SMS. Please try again when online.") ∧
    (s.currentView ≠ View.donationConfirmed →
      ((handleSMSEmergencyResponse result s).1.currentView = View.donationConfirmed ↔
        result = FetchResult.response true)) ∧
    (handleSMSEmergencyResponse result s).1.isProcessing = false := by
  by_cases hres : result = FetchResult.response true
  · subst hres
    rw [handleSMSEmergencyResponse_success s e hsel]
    exact ⟨rfl, fun _ => rfl, fun h => absurd rfl h, fun _ => ⟨fun _ => rfl, fun _ => rfl⟩, rfl⟩
  · rw [handleSMSEmergencyResponse_failure result s e hsel hres]
    exact ⟨rfl, fun h => absurd h hres, fun _ => ⟨rfl, rfl, rfl⟩,
      fun hv => ⟨fun h => absurd h hv, fun h => absurd h hres⟩, rfl⟩

theorem minutes_lt_five_iff [LinearOrderedField Num] (x : Num) :
    x / 1000 / 60 < 5 ↔ x < 5 * 60 * 1000 := by
  rw [div_div, div_lt_iff₀ (by norm_num)]
  constructor <;> intro h <;> linarith

/-- The check of lines 69-81 for a present profile with a truthy blood type
and a list whose first entry is `r`. -/
theorem newEmergencyCheck_head [LinearOrderedField Num] (profile : UserProfile) (b : String)
    (requests : List (EmergencyRequest Num)) (r : EmergencyRequest Num) (now later : Num)
    (hb : profile.bloodType = some b) (hne : b ≠ "") (hhead : requests.head? = some r) :
    newEmergencyCheck (some profile) (some requests) now later =
      if r.bloodType = some b then
        if (now - (match r.timestamp with
              | some seconds => seconds * 1000
              | none => later)) / 1000 / 60 < 5 then some r
        else none
      else none := by
  simp [newEmergencyCheck, truthy, hb, hne, hhead]

/-- Claim C15, the counterexample. The first entry of the list matches the
blood type of the viewer and carries no timestamp; the notification is raised,
although no timestamp lies within the five minutes before the evaluation. -/
theorem untimed_request_raises_notification :
    untimedRequest.timestamp = none ∧
    newEmergencyCheck (some donorProfile) (some [untimedRequest]) 1600000 1600000 =
      some untimedRequest := by
  refine ⟨rfl, ?_⟩
  rw [newEmergencyCheck_head donorProfile "O-" [untimedRequest] untimedRequest 1600000 1600000
    rfl (by decide) rfl]
  have h1 : untimedRequest.bloodType = some "O-" := rfl
  have h2 : untimedRequest.timestamp = none := rfl
  simp only [h1, h2, if_true]
  norm_num

/-- Claim C15, amended. For every request list, viewer profile and evaluation
time (the second clock reading not before the first), the notification is
raised for a request if and only if the profile and its blood type are
present, the request is the first entry of the list, its blood type equals the
blood type of the viewer, and either it carries no timestamp or its timestamp
is less than 5 minutes (300000 ms) before the evaluation time; a matching
first entry whose timestamp is 10 minutes old does not raise it, and nothing is
raised when the profile, its blood type or the list is absent. -/
theorem newEmergencyCheck_iff [LinearOrderedField Num] (userProfile : Option UserProfile)
    (emergencyRequests : Option (List (EmergencyRequest Num))) (now later : Num)
    (hlater : now ≤ later) :
    (∀ r : EmergencyRequest Num,
      newEmergencyCheck userProfile emergencyRequests now later = some r ↔
        ∃ profile b requests, userProfile = some profile ∧ profile.bloodType = some b ∧
          b ≠ "" ∧ emergencyRequests = some requests ∧ requests.head? = some r ∧
          r.bloodType = some b ∧
          (r.timestamp = none ∨
            ∃ seconds, r.timestamp = some seconds ∧ now - seconds * 1000 < 5 * 60 * 1000)) ∧
    (∀ (requests : List (EmergencyRequest Num)) (r : EmergencyRequest Num) (seconds : Num),
      requests.head? = some r → r.timestamp = some seconds →
      now - seconds * 1000 = 10 * 60 * 1000 →
      newEmergencyCheck userProfile (some requests) now later = none) ∧
    newEmergencyCheck none emergencyRequests now later = none ∧
    (∀ profile : UserProfile, profile.bloodType = none ∨ profile.bloodType = some "" →
      newEmergencyCheck (some profile) emergencyRequests now later = none) ∧
    newEmergencyCheck userProfile none now later = none := by
  have habsent : ∀ profile : UserProfile,
      profile.bloodType = none ∨ profile.bloodType = some "" →
      newEmergencyCheck (some profile) emergencyRequests now later = none := by
    intro profile h
    rcases h with h | h <;> simp [newEmergencyCheck, truthy, h]
  have hnolist : newEmergencyCheck userProfile none now later = none := by
    rcases userProfile with _ | profile
    · rfl
    · simp only [newEmergencyCheck]
      split <;> rfl
  refine ⟨?_, ?_, rfl, habsent, hnolist⟩
  · intro r
    constructor
    · intro h
      rcases userProfile with _ | profile
      · simp [newEmergencyCheck] at h
      · rcases hb : profile.bloodType with _ | b
        · rw [habsent profile (Or.inl hb)] at h
          cases h
        · by_cases hne : b = ""
          · rw [habsent profile (Or.inr (by rw [hb, hne]))] at h
            cases h
          · rcases emergencyRequests with _ | requests
            · rw [hnolist] at h
              cases h
            · rcases hhead : requests.head? with _ | r0
              · simp [newEmergencyCheck, truthy, hb, hne, hhead] at h
              · rw [newEmergencyCheck_head profile b requests r0 now later hb hne hhead] at h
                split at h
                · rename_i hbt
                  split at h
                  · rename_i htime
                    have hr : r0 = r := Option.some.inj h
                    subst hr
                    refine ⟨profile, b, requests, rfl, hb, hne, rfl, hhead, hbt, ?_⟩
                    rcases hts : r0.timestamp with _ | seconds
                    · exact Or.inl rfl
                    · right
                      rw [hts] at htime
                      exact ⟨seconds, rfl, (minutes_lt_five_iff _).1 htime⟩
                  · cases h
                · cases h
    · rintro ⟨profile, b, requests, rfl, hb, hne, rfl, hhead, hbt, htime⟩
      rw [newEmergencyCheck_head profile b requests r now later hb hne hhead, if_pos hbt]
      rcases htime with hts | ⟨seconds, hts, hlt⟩
      · rw [hts]
        have : (now - later) / 1000 / 60 < 5 := by
          rw [minutes_lt_five_iff]
          linarith
        simp only [this, if_true]
      · rw [hts]
        have : (now - seconds * 1000) / 1000 / 60 < 5 := (minutes_lt_five_iff _).2 hlt
        simp only [this, if_true]
  · intro requests r seconds hhead hts hold
    rcases userProfile with _ | profile
    · rfl
    · rcases hb : profile.bloodType with _ | b
      · simp [newEmergencyCheck, truthy, hb]
      · by_cases hne : b = ""
        · simp [newEmergencyCheck, truthy, hb, hne]
        · rw [newEmergencyCheck_head profile b requests r now later hb hne hhead]
          split
          · rw [hts]
            have : ¬ (now - seconds * 1000) / 1000 / 60 < 5 := by
              rw [minutes_lt_five_iff, hold]
              norm_num
            simp only [this, if_false]
          · rfl

/-- The view after an enabled action: unchanged, or one of `viewTransitions`
away. -/
theorem perform_view [LinearOrderedField Num] (js : Builtins Num) (a : Action Num)
    (s : ViewState Num) (h : enabled a s = true) :
    (perform js a s).currentView = s.currentView ∨
      (s.currentView, (perform js a s).currentView) ∈ viewTransitions := by
  cases a with
  | selectEmergency emergency =>
    have hv : s.currentView = View.emergencyList := by simpa [enabled] using h
    right
    rw [hv]
    show (View.emergencyList, View.emergencyDetail) ∈ viewTransitions
    decide
  | respondToNotification =>
    simp only [enabled, Bool.and_eq_true, decide_eq_true_eq] at h
    obtain ⟨hv, hn⟩ := h
    obtain ⟨emergency, hn⟩ := Option.isSome_iff_exists.1 hn
    right
    simp only [perform, hn, hv]
    show (View.emergencyList, View.emergencyDetail) ∈ viewTransitions
    decide
  | backToList =>
    simp only [enabled, Bool.and_eq_true, Bool.or_eq_true, decide_eq_true_eq] at h
    right
    rcases h.1 with hv | hv <;> rw [hv]
    · show (View.emergencyDetail, View.emergencyList) ∈ viewTransitions
      decide
    · show (View.donationConfirmed, View.emergencyList) ∈ viewTransitions
      decide
  | respond userLocation mx =>
    simp only [enabled, Bool.and_eq_true, decide_eq_true_eq] at h
    right
    rw [h.1.1.1]
    simp only [perform, handleEmergencyResponse_eq]
    decide
  | respondViaSms result =>
    simp only [enabled, Bool.and_eq_true, decide_eq_true_eq] at h
    obtain ⟨e, he⟩ := Option.isSome_iff_exists.1 h.1.1.2
    by_cases hres : result = FetchResult.response true
    · right
      subst hres
      simp only [perform, handleSMSEmergencyResponse_success s e he]
      rw [h.1.1.1]
      decide
    · left
      simp only [perform, handleSMSEmergencyResponse_failure result s e he hres]
  | backToDetail =>
    simp only [enabled, Bool.and_eq_true, decide_eq_true_eq] at h
    right
    rw [h.1.1]
    show (View.donorConfirmation, View.emergencyDetail) ∈ viewTransitions
    decide
  | confirm userProfile env store =>
    simp only [enabled, Bool.and_eq_true, decide_eq_true_eq] at h
    right
    rw [h.1.1.1]
    simp only [perform, confirmDonation_state]
    decide
  | connectivity online =>
    left
    rfl

/-- Every pair of `viewTransitions` is taken by an enabled action in a
reachable state. -/
theorem viewTransitions_realised [LinearOrderedField Num] (js : Builtins Num)
    (t : View × View) (ht : t ∈ viewTransitions) :
    ∃ (a : Action Num) (s : ViewState Num), Reachable js s ∧ enabled a s = true ∧
      s.currentView = t.1 ∧ (perform js a s).currentView = t.2 := by
  have r0 : ∀ online, Reachable js (initialState Num online) := Reachable.initial
  have r1 : ∀ online, Reachable js
      (perform js (Action.selectEmergency (blankRequest Num)) (initialState Num online)) :=
    fun online => Reachable.step _ (r0 online) rfl
  have r2 : Reachable js
      (perform js (Action.respond none (zeroEstimate Num))
        (perform js (Action.selectEmergency (blankRequest Num)) (initialState Num true))) :=
    Reachable.step _ (r1 true) rfl
  have r3 : Reachable js
      (perform js (Action.confirm none okEnv (fun _ => none))
        (perform js (Action.respond none (zeroEstimate Num))
          (perform js (Action.selectEmergency (blankRequest Num))
            (initialState Num true)))) :=
    Reachable.step _ r2 rfl
  simp only [viewTransitions, claimedTransitions, List.cons_append, List.nil_append,
    List.mem_cons, List.mem_singleton] at ht
  rcases ht with rfl | rfl | rfl | rfl | rfl | rfl | ht
  · exact ⟨Action.selectEmergency (blankRequest Num), _, r0 true, rfl, rfl, rfl⟩
  · exact ⟨Action.respond none (zeroEstimate Num), _, r1 true, rfl, rfl, rfl⟩
  · exact ⟨Action.confirm none okEnv (fun _ => none), _, r2, rfl, rfl, rfl⟩
  · exact ⟨Action.backToList, _, r1 true, rfl, rfl, rfl⟩
  · exact ⟨Action.backToDetail, _, r2, rfl, rfl, rfl⟩
  · exact ⟨Action.respondViaSms (FetchResult.response true), _, r1 false, rfl, rfl, rfl⟩
  · rcases ht with rfl | ht
    · exact ⟨Action.backToList, _, r3, rfl, rfl, rfl⟩
    · cases ht

theorem reachable_confirmedState : Reachable realBuiltins confirmedState := by
  have r1 : Reachable realBuiltins (detailState true) :=
    Reachable.step (Action.selectEmergency rareRequest) (Reachable.initial true) rfl
  have r2 : Reachable realBuiltins confirmationState :=
    Reachable.step (Action.respond none (zeroEstimate ℝ)) r1 rfl
  exact Reachable.step (Action.confirm none okEnv sampleStore) r2 rfl

/-- Claim C20, the counterexample. The state `confirmedState` is reachable and
shows the confirmed view; its button View Other Emergencies is enabled and
leads to the list view, a transition that the claim does not list. -/
theorem confirmed_view_returns_to_list :
    Reachable realBuiltins confirmedState ∧
    confirmedState.currentView = View.donationConfirmed ∧
    enabled Action.backToList confirmedState = true ∧
    (perform realBuiltins Action.backToList confirmedState).currentView = View.emergencyList ∧
    (View.donationConfirmed, View.emergencyList) ∉ claimedTransitions :=
  ⟨reachable_confirmedState, rfl, rfl, rfl, by decide⟩

/-- Claim C20, amended. In the step relation where each view offers only the
actions it renders, the transitions between views are exactly: list to detail
(selecting a request), detail to donor-confirmation (respond),
donor-confirmation to donation-confirmed (confirm), the back-transitions
detail to list and donor-confirmation to detail, detail to donation-confirmed
on a successful SMS-only response (and only then), and donation-confirmed to
list (View Other Emergencies). Every step changes the view along one of these
or leaves it unchanged, and each of them is taken from a reachable state. -/
theorem view_transitions_exact [LinearOrderedField Num] (js : Builtins Num) :
    (∀ s t : ViewState Num, Step js s t →
      t.currentView = s.currentView ∨ (s.currentView, t.currentView) ∈ viewTransitions) ∧
    (∀ p ∈ viewTransitions, ∃ s t : ViewState Num, Reachable js s ∧ Step js s t ∧
      s.currentView = p.1 ∧ t.currentView = p.2) ∧
    (∀ (result : FetchResult) (s : ViewState Num),
      enabled (Action.respondViaSms result) s = true →
      ((perform js (Action.respondViaSms result) s).currentView = View.donationConfirmed ↔
        result = FetchResult.response true)) ∧
    viewTransitions =
      [(View.emergencyList, View.emergencyDetail),
       (View.emergencyDetail, View.donorConfirmation),
       (View.donorConfirmation, View.donationConfirmed),
       (View.emergencyDetail, View.emergencyList),
       (View.donorConfirmation, View.emergencyDetail),
       (View.emergencyDetail, View.donationConfirmed),
       (View.donationConfirmed, View.emergencyList)] := by
  refine ⟨?_, ?_, ?_, rfl⟩
  · rintro s t ⟨a, ha, rfl⟩
    exact perform_view js a s ha
  · intro p hp
    obtain ⟨a, s, hr, ha, h1, h2⟩ := viewTransitions_realised js p hp
    exact ⟨s, perform js a s, hr, ⟨a, ha, rfl⟩, h1, h2⟩
  · intro result s h
    simp only [enabled, Bool.and_eq_true, decide_eq_true_eq] at h
    obtain ⟨e, he⟩ := Option.isSome_iff_exists.1 h.1.1.2
    have hv : s.currentView ≠ View.donationConfirmed := by
      rw [h.1.1.1]; decide
    by_cases hres : result = FetchResult.response true
    · subst hres
      simp only [perform, handleSMSEmergencyResponse_success s e he]
    · simp only [perform, handleSMSEmergencyResponse_failure result s e he hres]
      exact ⟨fun hc => absurd hc hv, fun hc => absurd hc hres⟩

end ResponseClaims

end EmergencySection

/-! # The profile editor: lemmas and claims -/

namespace ProfileSection

open EmergencySection (orElseString)

section MergeLemmas

theorem orElseString_of_truthy (value : Option String) (fallback v : String)
    (h : value = some v) (hne : v ≠ "") : orElseString value fallback = v := by
  simp [orElseString, h, hne]

theorem orElseString_of_falsy (value : Option String) (fallback : String)
    (h : value = none ∨ value = some "") : orElseString value fallback = fallback := by
  rcases h with h | h <;> simp [orElseString, h]

theorem orElseString_empty (value : Option String) : orElseString value "" = value.getD "" := by
  cases value with
  | none => rfl
  | some v =>
    by_cases h : v = ""
    · simp [orElseString, h]
    · simp [orElseString, h]

theorem orOption_self (value : Option String) : orOption value value = value := by
  cases value with
  | none => rfl
  | some v =>
    by_cases h : v = ""
    · simp [orOption, h]
    · simp [orOption, h]

end MergeLemmas

section MergeClaims

/-- Claim C16. The profile merge of `fetchUserProfile`: for name and phone the
document-store value is taken whenever it is present (a non-empty string),
otherwise the identity value, and the texts User and Not provided when both
are absent; email and photo always come from the identity record; blood type,
date of birth, last-donation date, address and city come from the document
store and default to the empty string; when the document does not exist the
result is the identity record with empty document fields. The merged record
becomes both the displayed profile and the staged form data. -/
theorem fetchUserProfile_merge (currentUser : AuthUser) (s : ProfileState) :
    (∀ d : UserDocument,
      (fetchUserProfile (some currentUser) (GetDocResult.found d) s).user =
        some (mergeDocument (identityData currentUser) d) ∧
      (fetchUserProfile (some currentUser) (GetDocResult.found d) s).editData =
        mergeDocument (identityData currentUser) d ∧
      (∀ v, d.name = some v → v ≠ "" →
        (mergeDocument (identityData currentUser) d).name = v) ∧
      (∀ v, d.phone = some v → v ≠ "" →
        (mergeDocument (identityData currentUser) d).phone = v) ∧
      ((d.name = none ∨ d.name = some "") →
        (∀ v, currentUser.displayName = some v → v ≠ "" →
          (mergeDocument (identityData currentUser) d).name = v) ∧
        ((currentUser.displayName = none ∨ currentUser.displayName = some "") →
          (mergeDocument (identityData currentUser) d).name = "User")) ∧
      ((d.phone = none ∨ d.phone = some "") →
        (∀ v, currentUser.phoneNumber = some v → v ≠ "" →
          (mergeDocument (identityData currentUser) d).phone = v) ∧
        ((currentUser.phoneNumber = none ∨ currentUser.phoneNumber = some "") →
          (mergeDocument (identityData currentUser) d).phone = "Not provided")) ∧
      (mergeDocument (identityData currentUser) d).email = currentUser.email ∧
      (mergeDocument (identityData currentUser) d).photo = orNull currentUser.photoURL ∧
      (mergeDocument (identityData currentUser) d).bloodType = d.bloodType.getD "" ∧
      (mergeDocument (identityData currentUser) d).dob = d.dob.getD "" ∧
      (mergeDocument (identityData currentUser) d).lastDonated = d.lastDonated.getD "" ∧
      (mergeDocument (identityData currentUser) d).address = d.address.getD "" ∧
      (mergeDocument (identityData currentUser) d).city = d.city.getD "") ∧
    (fetchUserProfile (some currentUser) GetDocResult.missing s).user =
      some { name := orElseString currentUser.displayName "User"
             email := currentUser.email
             phone := orElseString currentUser.phoneNumber "Not provided"
             photo := orNull currentUser.photoURL
             bloodType := "", dob := "", lastDonated := "", address := "", city := "" } ∧
    (fetchUserProfile (some currentUser) GetDocResult.missing s).editData =
      identityData currentUser := by
  refine ⟨fun d => ⟨rfl, rfl, ?_, ?_, ?_, ?_, rfl, rfl, ?_, ?_, ?_, ?_, ?_⟩, rfl, rfl⟩
  · intro v hv hne
    exact orElseString_of_truthy _ _ v hv hne
  · intro v hv hne
    exact orElseString_of_truthy _ _ v hv hne
  · intro hd
    have h1 : (mergeDocument (identityData currentUser) d).name =
        orElseString currentUser.displayName "User" := orElseString_of_falsy _ _ hd
    rw [h1]
    exact ⟨fun v hv hne => orElseString_of_truthy _ _ v hv hne,
      fun h => orElseString_of_falsy _ _ h⟩
  · intro hd
    have h1 : (mergeDocument (identityData currentUser) d).phone =
        orElseString currentUser.phoneNumber "Not provided" := orElseString_of_falsy _ _ hd
    rw [h1]
    exact ⟨fun v hv hne => orElseString_of_truthy _ _ v hv hne,
      fun h => orElseString_of_falsy _ _ h⟩
  · exact orElseString_empty _
  · exact orElseString_empty _
  · exact orElseString_empty _
  · exact orElseString_empty _
  · exact orElseString_empty _

end MergeClaims

end ProfileSection

namespace ProfileSection

section SaveLemmas

/-- The state in which the stages of a save run (lines 143-145). -/
theorem saveStages_eq (env : SaveEnv) (currentUser : AuthUser) (photoURL : Option String)
    (trace : List ProfileEffect) (s : ProfileState) :
    saveStages env currentUser photoURL trace s =
      if env.updateProfileOk = true then
        if env.updateDocOk = true then
          ({ s with
             user := some (savedUser s.editData photoURL)
             success := "Profile updated successfully!"
             loading := false },
            trace ++ [ProfileEffect.updateProfile (authUpdate s.editData photoURL),
              ProfileEffect.updateDoc currentUser.uid (documentUpdate env s.editData photoURL)])
        else
          (saveFailed s,
            trace ++ [ProfileEffect.updateProfile (authUpdate s.editData photoURL),
              ProfileEffect.updateDoc currentUser.uid (documentUpdate env s.editData photoURL)])
      else (saveFailed s, trace ++ [ProfileEffect.updateProfile (authUpdate s.editData photoURL)]) := by
  unfold saveStages
  by_cases h1 : env.updateProfileOk = true <;> by_cases h2 : env.updateDocOk = true <;>
    simp [h1, h2]

theorem handleSaveProfile_no_user (env : SaveEnv) (s : ProfileState)
    (hcu : env.currentUser = none) :
    handleSaveProfile env s =
      (saveFailed { s with loading := true, error := "", success := "" }, []) := by
  simp [handleSaveProfile, hcu]

theorem handleSaveProfile_no_image (env : SaveEnv) (s : ProfileState) (currentUser : AuthUser)
    (hcu : env.currentUser = some currentUser) (himg : s.imageFile = none) :
    handleSaveProfile env s =
      saveStages env currentUser s.editData.photo []
        { s with loading := true, error := "", success := "" } := by
  simp [handleSaveProfile, hcu, himg]

theorem handleSaveProfile_image (env : SaveEnv) (s : ProfileState) (currentUser : AuthUser)
    (imageFile : ImageFile) (hcu : env.currentUser = some currentUser)
    (himg : s.imageFile = some imageFile) :
    handleSaveProfile env s =
      if env.uploadBytesOk = true then
        if env.getDownloadURLOk = true then
          saveStages env currentUser (some env.downloadURL)
            [ProfileEffect.uploadBytes (storagePath env currentUser imageFile) imageFile,
             ProfileEffect.getDownloadURL (storagePath env currentUser imageFile)]
            { s with loading := true, error := "", success := "" }
        else
          (saveFailed { s with loading := true, error := "", success := "" },
            [ProfileEffect.uploadBytes (storagePath env currentUser imageFile) imageFile,
             ProfileEffect.getDownloadURL (storagePath env currentUser imageFile)])
      else
        (saveFailed { s with loading := true, error := "", success := "" },
          [ProfileEffect.uploadBytes (storagePath env currentUser imageFile) imageFile]) := by
  by_cases h1 : env.uploadBytesOk = true <;> by_cases h2 : env.getDownloadURLOk = true <;>
    simp [handleSaveProfile, hcu, himg, uploadImage, h1, h2]

theorem first_failure_unique {α : Type} (ok : α → Bool) :
    ∀ (b b2 : List α) (f f2 : α) (a a2 : List α), b ++ f :: a = b2 ++ f2 :: a2 →
      (∀ c ∈ b, ok c = true) → ok f = false → (∀ c ∈ b2, ok c = true) → ok f2 = false →
      b = b2 ∧ f = f2 := by
  intro b
  induction b with
  | nil =>
    intro b2 f f2 a a2 h _ hf hb2 _
    cases b2 with
    | nil =>
      simp only [List.nil_append, List.cons.injEq] at h
      exact ⟨rfl, h.1⟩
    | cons x t =>
      simp only [List.nil_append, List.cons_append, List.cons.injEq] at h
      have hx := hb2 x (List.mem_cons_self x t)
      rw [← h.1, hf] at hx
      cases hx
  | cons x t ih =>
    intro b2 f f2 a a2 h hb hf hb2 hf2
    cases b2 with
    | nil =>
      simp only [List.nil_append, List.cons_append, List.cons.injEq] at h
      have hx := hb x (List.mem_cons_self x t)
      rw [h.1, hf2] at hx
      cases hx
    | cons y t2 =>
      simp only [List.cons_append, List.cons.injEq] at h
      obtain ⟨hxy, hrest⟩ := h
      obtain ⟨h1, h2⟩ := ih t2 f f2 a a2 hrest
        (fun c hc => hb c (List.mem_cons_of_mem x hc)) hf
        (fun c hc => hb2 c (List.mem_cons_of_mem y hc)) hf2
      exact ⟨by rw [hxy, h1], h2⟩

/-- A save with a signed-in user either makes every planned call and replaces
the displayed profile, or stops at the first failing call and fails. -/
theorem handleSaveProfile_result (env : SaveEnv) (s : ProfileState) (currentUser : AuthUser)
    (hcu : env.currentUser = some currentUser) :
    ((∀ c ∈ plannedCalls env currentUser s, callOk env c = true) ∧
      handleSaveProfile env s =
        ({ s with
           user := some (savedUser s.editData (stagedPhoto env s))
           error := ""
           success := "Profile updated successfully!"
           loading := false }, plannedCalls env currentUser s)) ∨
    (∃ before failing after, plannedCalls env currentUser s = before ++ failing :: after ∧
      (∀ c ∈ before, callOk env c = true) ∧ callOk env failing = false ∧
      handleSaveProfile env s =
        (saveFailed { s with loading := true, error := "", success := "" },
          before ++ [failing])) := by
  rcases Option.eq_none_or_eq_some s.imageFile with himg | ⟨imageFile, himg⟩
  · rw [handleSaveProfile_no_image env s currentUser hcu himg, saveStages_eq]
    have hP : plannedCalls env currentUser s =
        [ProfileEffect.updateProfile (authUpdate s.editData s.editData.photo),
         ProfileEffect.updateDoc currentUser.uid
           (documentUpdate env s.editData s.editData.photo)] := by
      simp [plannedCalls, stagedPhoto, himg]
    have hS : stagedPhoto env s = s.editData.photo := by simp [stagedPhoto, himg]
    rw [hP, hS]
    by_cases h1 : env.updateProfileOk = true
    · by_cases h2 : env.updateDocOk = true
      · left
        simp [h1, h2, callOk]
      · right
        refine ⟨[_], _, [], rfl, ?_, ?_, ?_⟩
        · simp [callOk, h1]
        · simpa [callOk] using h2
        · simp [h1, h2]
    · right
      refine ⟨[], _, [_], rfl, ?_, ?_, ?_⟩
      · simp
      · simpa [callOk] using h1
      · simp [h1]
  · rw [handleSaveProfile_image env s currentUser imageFile hcu himg]
    have hP : plannedCalls env currentUser s =
        [ProfileEffect.uploadBytes (storagePath env currentUser imageFile) imageFile,
         ProfileEffect.getDownloadURL (storagePath env currentUser imageFile),
         ProfileEffect.updateProfile (authUpdate s.editData (some env.downloadURL)),
         ProfileEffect.updateDoc currentUser.uid
           (documentUpdate env s.editData (some env.downloadURL))] := by
      simp [plannedCalls, stagedPhoto, himg]
    have hS : stagedPhoto env s = some env.downloadURL := by simp [stagedPhoto, himg]
    rw [hP, hS]
    by_cases h0 : env.uploadBytesOk = true
    · by_cases h00 : env.getDownloadURLOk = true
      · simp only [h0, h00, if_true, saveStages_eq]
        by_cases h1 : env.updateProfileOk = true
        · by_cases h2 : env.updateDocOk = true
          · left
            simp [h0, h00, h1, h2, callOk]
          · right
            refine ⟨[_, _, _], _, [], rfl, ?_, ?_, ?_⟩
            · simp [callOk, h0, h00, h1]
            · simpa [callOk] using h2
            · simp [h1, h2]
        · right
          refine ⟨[_, _], _, [_], rfl, ?_, ?_, ?_⟩
          · simp [callOk, h0, h00]
          · simpa [callOk] using h1
          · simp [h1]
      · right
        refine ⟨[_], _, [_, _], rfl, ?_, ?_, ?_⟩
        · simp [callOk, h0]
        · simpa [callOk] using h00
        · simp [h0, h00]
    · right
      refine ⟨[], _, [_, _, _], rfl, ?_, ?_, ?_⟩
      · simp
      · simpa [callOk] using h0
      · simp [h0]

/-- The calls of a save are planned calls, the state keeps its staged form
data, and the displayed profile is the old one or the staged data with the
photo of the save. -/
theorem handleSaveProfile_frame (env : SaveEnv) (s : ProfileState) :
    (handleSaveProfile env s).1.editData = s.editData ∧
    (handleSaveProfile env s).1.imageFile = s.imageFile ∧
    (handleSaveProfile env s).1.loading = false ∧
    ((handleSaveProfile env s).1.user = s.user ∨
      (handleSaveProfile env s).1.user = some (savedUser s.editData (stagedPhoto env s))) ∧
    (∀ c ∈ (handleSaveProfile env s).2, ∃ currentUser, env.currentUser = some currentUser ∧
      c ∈ plannedCalls env currentUser s) := by
  rcases Option.eq_none_or_eq_some env.currentUser with hcu | ⟨currentUser, hcu⟩
  · rw [handleSaveProfile_no_user env s hcu]
    exact ⟨rfl, rfl, rfl, Or.inl rfl, by simp⟩
  · rcases handleSaveProfile_result env s currentUser hcu with ⟨-, h⟩ | ⟨b, f, a, hP, -, -, h⟩
    · rw [h]
      exact ⟨rfl, rfl, rfl, Or.inr rfl, fun c hc => ⟨currentUser, hcu, hc⟩⟩
    · rw [h]
      refine ⟨rfl, rfl, rfl, Or.inl rfl, fun c hc => ⟨currentUser, hcu, ?_⟩⟩
      rw [hP]
      rcases List.mem_append.1 hc with hc | hc
      · exact List.mem_append_left _ hc
      · rw [List.mem_singleton.1 hc]
        exact List.mem_append_right _ (List.mem_cons_self _ _)

theorem plannedCalls_keys (env : SaveEnv) (currentUser : AuthUser) (s : ProfileState)
    (c : ProfileEffect) (hc : c ∈ plannedCalls env currentUser s) :
    updateKeys c = [] ∨ updateKeys c = ["displayName", "photoURL"] ∨
      updateKeys c = ["name", "phone", "photoURL", "bloodType", "dob", "lastDonated",
        "address", "city", "updatedAt"] := by
  unfold plannedCalls at hc
  rcases List.mem_append.1 hc with hc | hc
  · left
    rcases Option.eq_none_or_eq_some s.imageFile with himg | ⟨imageFile, himg⟩
    · simp [himg] at hc
    · simp only [himg, List.mem_cons, List.mem_singleton, List.not_mem_nil, or_false] at hc
      rcases hc with rfl | rfl <;> rfl
  · simp only [List.mem_cons, List.mem_singleton, List.not_mem_nil, or_false] at hc
    rcases hc with rfl | rfl
    · right; left; rfl
    · right; right; rfl

theorem plannedCalls_photo (env : SaveEnv) (currentUser : AuthUser) (s : ProfileState)
    (c : ProfileEffect) (hc : c ∈ plannedCalls env currentUser s) :
    writtenPhoto c = none ∨ writtenPhoto c = some (orNull (stagedPhoto env s)) := by
  unfold plannedCalls at hc
  rcases List.mem_append.1 hc with hc | hc
  · left
    rcases Option.eq_none_or_eq_some s.imageFile with himg | ⟨imageFile, himg⟩
    · simp [himg] at hc
    · simp only [himg, List.mem_cons, List.mem_singleton, List.not_mem_nil, or_false] at hc
      rcases hc with rfl | rfl <;> rfl
  · simp only [List.mem_cons, List.mem_singleton, List.not_mem_nil, or_false] at hc
    right
    rcases hc with rfl | rfl
    · simp [writtenPhoto, authUpdate, List.lookup]
    · simp [writtenPhoto, documentUpdate, List.lookup]

theorem setField_email (prev : UserData) (key : Field) (value : String)
    (h : inputDisabled key = false) : (setField prev key value).email = prev.email := by
  cases key <;> first | rfl | (simp [inputDisabled] at h)

/-- One form action keeps the email of the displayed profile and of the staged
form data, and puts no key `email` into an update. -/
theorem formStep_email (a : FormAction) (s : ProfileState) (email : Option String)
    (hu : ∃ u, s.user = some u ∧ u.email = email) (he : s.editData.email = email) :
    (∃ u, (formStep a s).1.user = some u ∧ u.email = email) ∧
    (formStep a s).1.editData.email = email ∧
    ∀ c ∈ (formStep a s).2, "email" ∉ updateKeys c := by
  unfold formStep
  by_cases hen : formEnabled a s = true
  · rw [if_pos hen]
    cases a with
    | change key value =>
      have hk : inputDisabled key = false := by simpa [formEnabled] using hen
      refine ⟨hu, ?_, by simp⟩
      show (setField s.editData key value).email = email
      rw [setField_email _ _ _ hk, he]
    | chooseFile file preview => exact ⟨hu, he, by simp⟩
    | save env =>
      obtain ⟨h1, -, -, h4, h5⟩ := handleSaveProfile_frame env s
      refine ⟨?_, by show (handleSaveProfile env s).1.editData.email = email; rw [h1, he], ?_⟩
      · show ∃ u, (handleSaveProfile env s).1.user = some u ∧ u.email = email
        rcases h4 with h4 | h4
        · rw [h4]; exact hu
        · rw [h4]; exact ⟨_, rfl, he⟩
      · intro c hc
        obtain ⟨currentUser, -, hmem⟩ := h5 c hc
        rcases plannedCalls_keys env currentUser s c hmem with h | h | h <;> rw [h] <;> decide
  · rw [if_neg hen]
    exact ⟨hu, he, by simp⟩

theorem formRun_email (actions : List FormAction) :
    ∀ (s : ProfileState) (email : Option String),
      (∃ u, s.user = some u ∧ u.email = email) → s.editData.email = email →
      (∃ u, (formRun actions s).1.user = some u ∧ u.email = email) ∧
      (formRun actions s).1.editData.email = email ∧
      ∀ c ∈ (formRun actions s).2, "email" ∉ updateKeys c := by
  induction actions with
  | nil =>
    intro s email hu he
    exact ⟨hu, he, by simp [formRun]⟩
  | cons a rest ih =>
    intro s email hu he
    obtain ⟨h1, h2, h3⟩ := formStep_email a s email hu he
    obtain ⟨k1, k2, k3⟩ := ih (formStep a s).1 email h1 h2
    have hrun : formRun (a :: rest) s =
        ((formRun rest (formStep a s).1).1,
          (formStep a s).2 ++ (formRun rest (formStep a s).1).2) := rfl
    rw [hrun]
    refine ⟨k1, k2, ?_⟩
    intro c hc
    rcases List.mem_append.1 hc with hc | hc
    · exact h3 c hc
    · exact k3 c hc

end SaveLemmas

end ProfileSection

namespace ProfileSection

section SaveClaims

/-- Claim C17. `handleSaveProfile` runs its stages in the order of
`plannedCalls`: image upload (only when an image file is selected), identity
profile update (display name and photo URL only), document-store update, then
the local state replacement. When every call succeeds all of them are made and
the displayed profile is replaced; when a call fails it is the last call made
(no later stage runs), the displayed profile is left unchanged, and the error
is `Failed to update profile. Please try again.` whichever stage failed, as it
is when no user is signed in. -/
theorem handleSaveProfile_stage_order (env : SaveEnv) (s : ProfileState) :
    (env.currentUser = none →
      (handleSaveProfile env s).2 = [] ∧ (handleSaveProfile env s).1.user = s.user ∧
      (handleSaveProfile env s).1.error = "Failed to update profile. Please try again.") ∧
    (∀ currentUser, env.currentUser = some currentUser →
      ((∀ c ∈ plannedCalls env currentUser s, callOk env c = true) →
        (handleSaveProfile env s).2 = plannedCalls env currentUser s ∧
        (handleSaveProfile env s).1.user =
          some (savedUser s.editData (stagedPhoto env s)) ∧
        (handleSaveProfile env s).1.error = "" ∧
        (handleSaveProfile env s).1.success = "Profile updated successfully!") ∧
      (∀ before failing after,
        plannedCalls env currentUser s = before ++ failing :: after →
        (∀ c ∈ before, callOk env c = true) → callOk env failing = false →
        (handleSaveProfile env s).2 = before ++ [failing] ∧
        (handleSaveProfile env s).1.user = s.user ∧
        (handleSaveProfile env s).1.error =
          "Failed to update profile. Please try again.")) ∧
    (∀ fields, ProfileEffect.updateProfile fields ∈ (handleSaveProfile env s).2 →
      fields.map Prod.fst = ["displayName", "photoURL"]) ∧
    (handleSaveProfile env s).1.loading = false := by
  refine ⟨?_, ?_, ?_, (handleSaveProfile_frame env s).2.2.1⟩
  · intro hcu
    rw [handleSaveProfile_no_user env s hcu]
    exact ⟨rfl, rfl, rfl⟩
  · intro currentUser hcu
    rcases handleSaveProfile_result env s currentUser hcu with
      ⟨hall, h⟩ | ⟨b, f, a, hP, hb, hf, h⟩
    · refine ⟨fun _ => ?_, ?_⟩
      · rw [h]
        exact ⟨rfl, rfl, rfl, rfl⟩
      · intro before failing after hP _ hfail
        have hmem : failing ∈ plannedCalls env currentUser s := by
          rw [hP]
          exact List.mem_append_right _ (List.mem_cons_self _ _)
        rw [hall failing hmem] at hfail
        cases hfail
    · refine ⟨fun hall => ?_, ?_⟩
      · have hmem : f ∈ plannedCalls env currentUser s := by
          rw [hP]
          exact List.mem_append_right _ (List.mem_cons_self _ _)
        rw [hall f hmem] at hf
        cases hf
      · intro before failing after hP2 hb2 hf2
        obtain ⟨e1, e2⟩ := first_failure_unique (callOk env) b before f failing a after
          (hP.symm.trans hP2) hb hf hb2 hf2
        rw [h, e1, e2]
        exact ⟨rfl, rfl, rfl⟩
  · intro fields hmem
    obtain ⟨currentUser, -, hc⟩ := (handleSaveProfile_frame env s).2.2.2.2 _ hmem
    rcases plannedCalls_keys env currentUser s _ hc with h | h | h
    · simp only [plannedCalls, List.mem_append, List.mem_cons, List.mem_singleton,
        List.not_mem_nil, or_false] at hc
      rcases hc with hc | hc | hc
      · rcases Option.eq_none_or_eq_some s.imageFile with himg | ⟨imageFile, himg⟩
        · simp [himg] at hc
        · simp [himg] at hc
      · cases hc
        rfl
      · cases hc
    · exact h
    · simp only [plannedCalls, List.mem_append, List.mem_cons, List.mem_singleton,
        List.not_mem_nil, or_false] at hc
      rcases hc with hc | hc | hc
      · rcases Option.eq_none_or_eq_some s.imageFile with himg | ⟨imageFile, himg⟩
        · simp [himg] at hc
        · simp [himg] at hc
      · cases hc
        rfl
      · cases hc

/-- Claim C18, the counterexample. The loaded profile shows the photo
`old.png` and no image file is selected; the user types `new.png` into the
Image URL input and saves: both updates carry `new.png` and the displayed
photo becomes `new.png`, not the existing reference. -/
theorem typed_photo_url_replaces_photo :
    loadedState.imageFile = none ∧
    loadedState.user.map (fun u => u.photo) = some (some "old.png") ∧
    formEnabled (FormAction.change Field.photo "new.png") loadedState = true ∧
    (handleSaveProfile okSaveEnv (handleChange Field.photo "new.png" loadedState)).2.map
      writtenPhoto = [some (some "new.png"), some (some "new.png")] ∧
    (handleSaveProfile okSaveEnv (handleChange Field.photo "new.png" loadedState)).1.user.map
      (fun u => u.photo) = some (some "new.png") := by
  decide

/-- Claim C18, amended. For every profile save with no new image file
selected, the photo reference written to both stores is the staged reference
`editData.photo` (`null` when it is empty), after a successful save the photo
shown is that staged reference, and it is the existing photo whenever the
staged reference equals the displayed one; after a failed save the displayed
profile is unchanged. For every save with a new image file and a non-empty
download URL, the displayed photo becomes the download URL when the upload,
the identity update and the document-store update all succeed, and otherwise
the displayed profile is unchanged. -/
theorem handleSaveProfile_photo (env : SaveEnv) (s : ProfileState) (currentUser : AuthUser)
    (hcu : env.currentUser = some currentUser) :
    (s.imageFile = none →
      (∀ c ∈ (handleSaveProfile env s).2,
        writtenPhoto c = some (orNull s.editData.photo)) ∧
      (env.updateProfileOk = true → env.updateDocOk = true →
        (handleSaveProfile env s).1.user.map (fun u => u.photo) = some s.editData.photo ∧
        ∀ u, s.user = some u → s.editData.photo = u.photo →
          (handleSaveProfile env s).1.user.map (fun u => u.photo) = some u.photo) ∧
      (¬ (env.updateProfileOk = true ∧ env.updateDocOk = true) →
        (handleSaveProfile env s).1.user = s.user)) ∧
    (∀ imageFile, s.imageFile = some imageFile → env.downloadURL ≠ "" →
      ((env.uploadBytesOk = true ∧ env.getDownloadURLOk = true ∧
          env.updateProfileOk = true ∧ env.updateDocOk = true) →
        (handleSaveProfile env s).1.user.map (fun u => u.photo) =
          some (some env.downloadURL)) ∧
      (¬ (env.uploadBytesOk = true ∧ env.getDownloadURLOk = true ∧
          env.updateProfileOk = true ∧ env.updateDocOk = true) →
        (handleSaveProfile env s).1.user = s.user)) := by
  refine ⟨fun himg => ?_, fun imageFile himg hurl => ?_⟩
  · have hcalls : ∀ c ∈ (handleSaveProfile env s).2,
        writtenPhoto c = some (orNull s.editData.photo) := by
      intro c hc
      obtain ⟨cu, -, hmem⟩ := (handleSaveProfile_frame env s).2.2.2.2 c hc
      simp only [plannedCalls, stagedPhoto, himg, List.nil_append, List.mem_cons,
        List.mem_singleton, List.not_mem_nil, or_false] at hmem
      rcases hmem with rfl | rfl
      · simp [writtenPhoto, authUpdate, List.lookup]
      · simp [writtenPhoto, documentUpdate, List.lookup]
    refine ⟨hcalls, ?_, ?_⟩ <;>
      rw [handleSaveProfile_no_image env s currentUser hcu himg, saveStages_eq]
    · intro h1 h2
      simp only [h1, h2, if_true]
      have hp : (savedUser s.editData s.editData.photo).photo = s.editData.photo :=
        orOption_self _
      refine ⟨?_, fun u _ hsame => ?_⟩
      · show some (savedUser s.editData s.editData.photo).photo = some s.editData.photo
        rw [hp]
      · show some (savedUser s.editData s.editData.photo).photo = some u.photo
        rw [hp, hsame]
    · intro hnot
      by_cases h1 : env.updateProfileOk = true
      · have h2 : ¬ env.updateDocOk = true := fun h2 => hnot ⟨h1, h2⟩
        simp only [h1, h2, if_true, if_false]
        rfl
      · simp only [h1, if_false]
        rfl
  · rw [handleSaveProfile_image env s currentUser imageFile hcu himg]
    refine ⟨?_, ?_⟩
    · rintro ⟨h0, h00, h1, h2⟩
      simp only [h0, h00, if_true, saveStages_eq, h1, h2]
      show some (orOption (some env.downloadURL) s.editData.photo) = some (some env.downloadURL)
      simp [orOption, hurl]
    · intro hnot
      by_cases h0 : env.uploadBytesOk = true
      · by_cases h00 : env.getDownloadURLOk = true
        · simp only [h0, h00, if_true, saveStages_eq]
          by_cases h1 : env.updateProfileOk = true
          · have h2 : ¬ env.updateDocOk = true := fun h2 => hnot ⟨h0, h00, h1, h2⟩
            simp only [h1, h2, if_true, if_false]
            rfl
          · simp only [h1, if_false]
            rfl
        · simp only [h0, h00, if_true, if_false]
          rfl
      · simp only [h0, if_false]
        rfl

/-- Claim C19. Email is never editable: from a loaded profile, for every
sequence of form changes (the disabled email input fires none), file choices
and saves, neither the identity-profile update nor the document-store update
contains a key `email`, and the email of the displayed profile, like the email
of the staged form data, stays equal to the email loaded from the identity
record. -/
theorem email_never_edited (currentUser : AuthUser) (userDoc : GetDocResult)
    (hdoc : userDoc ≠ GetDocResult.rejected) (previous : ProfileState)
    (actions : List FormAction) :
    (∃ u, (formRun actions (fetchUserProfile (some currentUser) userDoc previous)).1.user =
        some u ∧ u.email = currentUser.email) ∧
    (formRun actions (fetchUserProfile (some currentUser) userDoc previous)).1.editData.email =
      currentUser.email ∧
    (∀ c ∈ (formRun actions (fetchUserProfile (some currentUser) userDoc previous)).2,
      "email" ∉ updateKeys c) ∧
    inputDisabled Field.email = true := by
  have hstart : (∃ u, (fetchUserProfile (some currentUser) userDoc previous).user = some u ∧
      u.email = currentUser.email) ∧
      (fetchUserProfile (some currentUser) userDoc previous).editData.email =
        currentUser.email := by
    cases userDoc with
    | rejected => exact absurd rfl hdoc
    | missing => exact ⟨⟨_, rfl, rfl⟩, rfl⟩
    | found d => exact ⟨⟨_, rfl, rfl⟩, rfl⟩
  obtain ⟨h1, h2, h3⟩ := formRun_email actions _ currentUser.email hstart.1 hstart.2
  exact ⟨h1, h2, h3, rfl⟩

end SaveClaims

end ProfileSection

/-! # The claims applied to concrete inputs, continued -/

namespace EmergencySection

section ResponseWitnesses

/-- Claim C11 at `rareRequest` (2 units, no count yet): the count written is
1, no delete is issued, and the stored request keeps its place with count 1. -/
theorem confirmDonation_count_and_delete_witness :
    (detailState true).selectedEmergency = some rareRequest ∧
    rareRequest.id = some "r1" ∧
    Effect.deleteDoc "r1" ∉
      (confirmDonation (some donorProfile) okEnv (detailState true) sampleStore).2.trace ∧
    (confirmDonation (some donorProfile) okEnv (detailState true) sampleStore).2.store "r1" =
      some { request := { rareRequest with donorsResponded := some 1 },
             donorResponseTime := some "2025-03-01T10:15:30.000Z" } :=
  ⟨rfl, rfl,
    fun hmem => absurd
      ((confirmDonation_count_and_delete (some donorProfile) okEnv (detailState true)
        sampleStore rareRequest "r1" rfl rfl (by decide) rfl rfl).2.2.1.1 hmem) (by decide),
    (confirmDonation_count_and_delete (some donorProfile) okEnv (detailState true)
      sampleStore rareRequest "r1" rfl rfl (by decide) rfl rfl).2.2.2.2 (by decide)
      { request := rareRequest, donorResponseTime := none } rfl⟩

/-- Claim C13 with the user location absent: the estimate is the fallback. -/
theorem handleEmergencyResponse_always_confirmation_witness :
    (handleEmergencyResponse realBuiltins (zeroEstimate ℝ) none (detailState true)).nearbyDonors =
      some { count := 8, estimatedTime := "15 minutes", radius := "5 km" } :=
  (handleEmergencyResponse_always_confirmation realBuiltins (zeroEstimate ℝ) none
    (detailState true)).2.2.2.2 (Or.inl rfl)

/-- Claim C14 at the detail view of `rareRequest`, offline: a 2xx response
leads to the confirmed view, a rejected call leaves the view and sets the
error. -/
theorem handleSMSEmergencyResponse_outcome_witness :
    (detailState false).selectedEmergency = some rareRequest ∧
    (handleSMSEmergencyResponse (FetchResult.response true) (detailState false)).1.currentView =
      View.donationConfirmed ∧
    (handleSMSEmergencyResponse FetchResult.rejected (detailState false)).1.currentView =
      View.emergencyDetail ∧
    (handleSMSEmergencyResponse FetchResult.rejected (detailState false)).1.error =
      some "Failed to send SMS. Please try again when online." :=
  ⟨rfl,
    (handleSMSEmergencyResponse_outcome (FetchResult.response true) (detailState false)
      rareRequest rfl).2.1 rfl,
    ((handleSMSEmergencyResponse_outcome FetchResult.rejected (detailState false)
      rareRequest rfl).2.2.1 (by decide)).1,
    ((handleSMSEmergencyResponse_outcome FetchResult.rejected (detailState false)
      rareRequest rfl).2.2.1 (by decide)).2.2⟩

/-- The amended claim C15 at `timedRequest`, two minutes old: the notification
is raised. -/
theorem newEmergencyCheck_iff_witness :
    (1120000 : ℚ) ≤ 1120001 ∧
    newEmergencyCheck (some donorProfile) (some [timedRequest]) 1120000 1120001 =
      some timedRequest :=
  ⟨by norm_num,
    ((newEmergencyCheck_iff (some donorProfile) (some [timedRequest]) (1120000 : ℚ) 1120001
      (by norm_num)).1 timedRequest).2
      ⟨donorProfile, "O-", [timedRequest], rfl, rfl, by decide, rfl, rfl, rfl,
        Or.inr ⟨1000, rfl, by norm_num⟩⟩⟩

end ResponseWitnesses

end EmergencySection

namespace ProfileSection

section SaveWitnesses

/-- Claim C16 at `sampleUser` and `sampleDocument`: the name of the document
wins, the phone falls back to the text Not provided. -/
theorem fetchUserProfile_merge_witness :
    (fetchUserProfile (some sampleUser) (GetDocResult.found sampleDocument)
      initialProfileState).user =
      some { name := "Asha Rao", email := some "asha@example.org", phone := "Not provided",
             photo := some "old.png", bloodType := "B+", dob := "", lastDonated := "",
             address := "", city := "Pune" } :=
  ((fetchUserProfile_merge sampleUser initialProfileState).1 sampleDocument).1.trans
    (by decide)

/-- Claim C17 when the document-store update fails: both updates are made,
the displayed profile is unchanged and the generic error is shown. -/
theorem handleSaveProfile_stage_order_witness :
    docFailEnv.currentUser = some sampleUser ∧
    (handleSaveProfile docFailEnv loadedState).2 =
      [ProfileEffect.updateProfile (authUpdate loadedState.editData (some "old.png")),
       ProfileEffect.updateDoc "u1"
         (documentUpdate docFailEnv loadedState.editData (some "old.png"))] ∧
    (handleSaveProfile docFailEnv loadedState).1.user = loadedState.user ∧
    (handleSaveProfile docFailEnv loadedState).1.error =
      "Failed to update profile. Please try again." :=
  ⟨rfl,
    ((handleSaveProfile_stage_order docFailEnv loadedState).2.1 sampleUser rfl).2
      [ProfileEffect.updateProfile (authUpdate loadedState.editData (some "old.png"))]
      (ProfileEffect.updateDoc "u1"
        (documentUpdate docFailEnv loadedState.editData (some "old.png")))
      [] rfl (by decide) rfl⟩

/-- The amended claim C18 with a chosen image file and every call succeeding:
the displayed photo becomes the download URL. -/
theorem handleSaveProfile_photo_witness :
    okSaveEnv.currentUser = some sampleUser ∧
    (handleSaveProfile okSaveEnv
      (handleFileChange { name := "face.png" } "data:image/png" loadedState)).1.user.map
        (fun u => u.photo) = some (some "https://storage.example.org/profile_1.png") :=
  ⟨rfl,
    ((handleSaveProfile_photo okSaveEnv
      (handleFileChange { name := "face.png" } "data:image/png" loadedState) sampleUser rfl).2
      { name := "face.png" } rfl (by decide)).1 ⟨rfl, rfl, rfl, rfl⟩⟩

/-- Claim C19 on a sequence with a name change, an attempted email change and
a save: the displayed email is the one of the identity record. -/
theorem email_never_edited_witness :
    GetDocResult.missing ≠ GetDocResult.rejected ∧
    ∃ u, (formRun
        [FormAction.change Field.name "Asha K", FormAction.change Field.email "x@example.org",
         FormAction.save okSaveEnv]
        (fetchUserProfile (some sampleUser) GetDocResult.missing initialProfileState)).1.user =
      some u ∧ u.email = some "asha@example.org" :=
  ⟨by decide,
    (email_never_edited sampleUser GetDocResult.missing (by decide) initialProfileState
      [FormAction.change Field.name "Asha K", FormAction.change Field.email "x@example.org",
       FormAction.save okSaveEnv]).1⟩

end SaveWitnesses

end ProfileSection

/-! # The order of the calls of a confirmation -/

namespace EmergencySection

section PlannedLemmas

variable {Num : Type}

theorem stops_nil (ok : Effect → Bool) (prior : List Effect) :
    StopsAtFirstFailure ok [] prior prior true :=
  Or.inl ⟨by simp, by simp, rfl⟩

theorem stops_cons_ok (ok : Effect → Bool) (c : Effect) (planned prior trace : List Effect)
    (completed : Bool) (hc : ok c = true)
    (h : StopsAtFirstFailure ok planned (prior ++ [c]) trace completed) :
    StopsAtFirstFailure ok (c :: planned) prior trace completed := by
  rcases h with ⟨hall, htrace, hdone⟩ | ⟨b, f, a, hP, hb, hf, htrace, hdone⟩
  · left
    refine ⟨?_, ?_, hdone⟩
    · intro x hx
      rcases List.mem_cons.1 hx with rfl | hx
      · exact hc
      · exact hall x hx
    · rw [htrace]
      simp
  · right
    refine ⟨c :: b, f, a, by rw [hP]; rfl, ?_, hf, ?_, hdone⟩
    · intro x hx
      rcases List.mem_cons.1 hx with rfl | hx
      · exact hc
      · exact hb x hx
    · rw [htrace]
      simp

theorem stops_cons_fail (ok : Effect → Bool) (c : Effect) (planned prior : List Effect)
    (hc : ok c = false) :
    StopsAtFirstFailure ok (c :: planned) prior (prior ++ [c]) false :=
  Or.inr ⟨[], c, planned, rfl, by simp, hc, by simp, rfl⟩

theorem confirmNotify_stops (env : ConfirmEnv) (e : EmergencyRequest Num) (id : String)
    (store : Store Num) (trace : List Effect) :
    StopsAtFirstFailure (effectOk env) (plannedNotify env e id) trace
      (confirmNotify env e id store trace).trace
      (confirmNotify env e id store trace).completed := by
  unfold confirmNotify plannedNotify
  by_cases h : env.hasCallback = true
  · simp only [h, if_true]
    by_cases hk : env.callbackOk = true
    · rw [hk]
      exact stops_cons_ok _ _ _ _ _ _ (by simp [effectOk, hk]) (stops_nil _ _)
    · have hk2 : env.callbackOk = false := by simpa using hk
      rw [hk2]
      exact stops_cons_fail _ _ _ _ (by simp [effectOk, hk2])
  · simp only [h, if_false]
    exact stops_nil _ _

theorem confirmSms_stops (userProfile : Option UserProfile) (env : ConfirmEnv)
    (e : EmergencyRequest Num) (id : String) (store : Store Num) (trace : List Effect) :
    StopsAtFirstFailure (effectOk env) (plannedSms userProfile env e id) trace
      (confirmSms userProfile env e id store trace).trace
      (confirmSms userProfile env e id store trace).completed := by
  unfold confirmSms plannedSms
  rcases userProfile.bind (fun p => p.phoneNumber) with _ | phone
  · simpa using confirmNotify_stops env e id store trace
  · by_cases hp : phone = ""
    · simpa [hp] using confirmNotify_stops env e id store trace
    · simp only [ne_eq, hp, not_false_eq_true, if_true, List.singleton_append]
      by_cases hr : env.smsResult = FetchResult.rejected
      · simp only [hr, if_true]
        exact stops_cons_fail _ _ _ _ (by simp [effectOk, hr])
      · simp only [hr, if_false]
        exact stops_cons_ok _ _ _ _ _ _ (by simp [effectOk, hr])
          (confirmNotify_stops env e id store _)

theorem confirmDelete_stops (userProfile : Option UserProfile) (env : ConfirmEnv)
    (e : EmergencyRequest Num) (id : String) (n : Nat) (store : Store Num)
    (trace : List Effect) :
    StopsAtFirstFailure (effectOk env) (plannedDelete userProfile env e id n) trace
      (confirmDelete userProfile env e id n store trace).trace
      (confirmDelete userProfile env e id n store trace).completed := by
  unfold confirmDelete plannedDelete
  by_cases hful : n ≥ orElse e.units 1
  · simp only [hful, if_true, List.singleton_append]
    by_cases hd : env.deleteDocOk = true
    · simp only [hd, if_true]
      exact stops_cons_ok _ _ _ _ _ _ (by simp [effectOk, hd])
        (confirmSms_stops userProfile env e id _ _)
    · have hd2 : env.deleteDocOk = false := by simpa using hd
      simp only [hd2]
      exact stops_cons_fail _ _ _ _ (by simp [effectOk, hd2])
  · simp only [hful, if_false, List.nil_append]
    exact confirmSms_stops userProfile env e id store trace

theorem confirmWrites_stops (userProfile : Option UserProfile) (env : ConfirmEnv)
    (e : EmergencyRequest Num) (id : String) (store : Store Num) :
    StopsAtFirstFailure (effectOk env) (plannedEffects userProfile env e id) []
      (confirmWrites userProfile env e id store).trace
      (confirmWrites userProfile env e id store).completed := by
  unfold confirmWrites plannedEffects
  by_cases hu : env.updateDocOk = true
  · simp only [hu, if_true]
    exact stops_cons_ok _ _ _ _ _ _ (by simp [effectOk, hu])
      (confirmDelete_stops userProfile env e id _ _ _)
  · have hu2 : env.updateDocOk = false := by simpa using hu
    simp only [hu2]
    exact stops_cons_fail _ _ _ _ (by simp [effectOk, hu2])

/-- The calls made are a prefix of the planned calls. -/
theorem stops_prefix (ok : Effect → Bool) (planned trace : List Effect) (completed : Bool)
    (h : StopsAtFirstFailure ok planned [] trace completed) : trace <+: planned := by
  rcases h with ⟨-, htrace, -⟩ | ⟨b, f, a, hP, -, -, htrace, -⟩
  · rw [htrace]
    exact ⟨[], by simp⟩
  · rw [htrace, hP]
    exact ⟨a, by simp⟩

/-- When every planned call succeeds the calls made are the planned calls. -/
theorem stops_all_ok (ok : Effect → Bool) (planned trace : List Effect) (completed : Bool)
    (h : StopsAtFirstFailure ok planned [] trace completed)
    (hall : ∀ c ∈ planned, ok c = true) : trace = planned ∧ completed = true := by
  rcases h with ⟨-, htrace, hdone⟩ | ⟨b, f, a, hP, -, hf, -, -⟩
  · exact ⟨by simpa using htrace, hdone⟩
  · have hmem : f ∈ planned := by
      rw [hP]
      exact List.mem_append_right _ (List.mem_cons_self _ _)
    rw [hall f hmem] at hf
    cases hf

theorem effectOk_of_all (env : ConfirmEnv) (hupd : env.updateDocOk = true)
    (hdel : env.deleteDocOk = true) (hsms : env.smsResult ≠ FetchResult.rejected)
    (hcb : env.callbackOk = true) (c : Effect) : effectOk env c = true := by
  cases c <;> simp [effectOk, hupd, hdel, hsms, hcb]

end PlannedLemmas

end EmergencySection

namespace EmergencySection

section PlannedClaims

variable {Num : Type}

/-- Two runs over the same planned calls in the same outside world make the
same calls. -/
theorem stops_unique (ok : Effect → Bool) (planned t1 t2 : List Effect) (c1 c2 : Bool)
    (h1 : StopsAtFirstFailure ok planned [] t1 c1)
    (h2 : StopsAtFirstFailure ok planned [] t2 c2) : t1 = t2 ∧ c1 = c2 := by
  rcases h1 with ⟨hall, ht1, hc1⟩ | ⟨b, f, a, hP, hb, hf, ht1, hc1⟩
  · rcases h2 with ⟨-, ht2, hc2⟩ | ⟨b2, f2, a2, hP2, -, hf2, -, -⟩
    · exact ⟨by rw [ht1, ht2], by rw [hc1, hc2]⟩
    · have hmem : f2 ∈ planned := by
        rw [hP2]
        exact List.mem_append_right _ (List.mem_cons_self _ _)
      rw [hall f2 hmem] at hf2
      cases hf2
  · rcases h2 with ⟨hall, -, -⟩ | ⟨b2, f2, a2, hP2, hb2, hf2, ht2, hc2⟩
    · have hmem : f ∈ planned := by
        rw [hP]
        exact List.mem_append_right _ (List.mem_cons_self _ _)
      rw [hall f hmem] at hf
      cases hf
    · obtain ⟨e1, e2⟩ := ProfileSection.first_failure_unique ok b b2 f f2 a a2
        (hP.symm.trans hP2) hb hf hb2 hf2
      exact ⟨by rw [ht1, ht2, e1, e2], by rw [hc1, hc2]⟩

/-- The calls made by a confirmation do not depend on the store. -/
theorem confirmWrites_trace_store (userProfile : Option UserProfile) (env : ConfirmEnv)
    (e : EmergencyRequest Num) (id : String) (store store2 : Store Num) :
    (confirmWrites userProfile env e id store).trace =
      (confirmWrites userProfile env e id store2).trace :=
  (stops_unique (effectOk env) _ _ _ _ _ (confirmWrites_stops userProfile env e id store)
    (confirmWrites_stops userProfile env e id store2)).1

/-- The planned calls, spelled out: the update, the delete when the new count
reaches the units, the SMS when the profile has a phone number, the callback
when the parent passed it. -/
theorem plannedEffects_eq (userProfile : Option UserProfile) (env : ConfirmEnv)
    (e : EmergencyRequest Num) (id : String) :
    ∃ del sms cb, plannedEffects userProfile env e id =
        Effect.updateDoc id (e.donorsResponded.getD 0 + 1) env.responseTime ::
          (del ++ sms ++ cb) ∧
      ((e.units.getD 1 ≤ e.donorsResponded.getD 0 + 1 ∧ del = [Effect.deleteDoc id]) ∨
        (e.donorsResponded.getD 0 + 1 < e.units.getD 1 ∧ del = [])) ∧
      ((∃ p phone, userProfile = some p ∧ p.phoneNumber = some phone ∧ phone ≠ "" ∧
          sms = [Effect.sendSms (some phone) (confirmationMessage e)]) ∨
        ((¬ ∃ p phone, userProfile = some p ∧ p.phoneNumber = some phone ∧ phone ≠ "") ∧
          sms = [])) ∧
      ((env.hasCallback = true ∧ cb = [Effect.donationConfirmed (donationPayload env e id)]) ∨
        (env.hasCallback = false ∧ cb = [])) := by
  refine ⟨if e.donorsResponded.getD 0 + 1 ≥ orElse e.units 1 then [Effect.deleteDoc id] else [],
    (match userProfile.bind (fun p => p.phoneNumber) with
      | some phone =>
        if phone ≠ "" then [Effect.sendSms (some phone) (confirmationMessage e)] else []
      | none => []),
    plannedNotify env e id, ?_, ?_, ?_, ?_⟩
  · simp [plannedEffects, plannedDelete, plannedSms, orElse_zero, List.append_assoc]
  · by_cases hful : e.units.getD 1 ≤ e.donorsResponded.getD 0 + 1
    · left
      have hge : e.donorsResponded.getD 0 + 1 ≥ orElse e.units 1 :=
        (le_orElse_one_iff e.units _).2 hful
      exact ⟨hful, by simp only [hge, if_true]⟩
    · right
      have hge : ¬ e.donorsResponded.getD 0 + 1 ≥ orElse e.units 1 :=
        fun h => hful ((le_orElse_one_iff e.units _).1 h)
      exact ⟨Nat.lt_of_not_le hful, by simp only [hge, if_false]⟩
  · rcases userProfile with _ | p
    · right
      exact ⟨by simp, rfl⟩
    · rcases hph : p.phoneNumber with _ | phone
      · right
        refine ⟨?_, by simp [hph]⟩
        rintro ⟨p2, phone, hp2, hphone, -⟩
        cases hp2
        rw [hph] at hphone
        cases hphone
      · by_cases hne : phone = ""
        · right
          refine ⟨?_, by simp [hph, hne]⟩
          rintro ⟨p2, phone2, hp2, hphone, hne2⟩
          cases hp2
          rw [hph] at hphone
          cases hphone
          exact hne2 hne
        · left
          exact ⟨p, phone, rfl, hph, hne, by simp [hph, hne]⟩
  · unfold plannedNotify
    by_cases h : env.hasCallback = true
    · left
      exact ⟨h, by simp only [h, if_true]⟩
    · right
      have h2 : env.hasCallback = false := by simpa using h
      exact ⟨h2, by simp [h2]⟩

/-- Claim C21. For every selected request with a (truthy) identifier, when the
parent passed the callback and every external call succeeds, `confirmDonation`
issues its calls in exactly this order: store update of the donor count, store
delete (only if the new count reaches the units), SMS POST (only if the user
profile has a phone number), parent callback; and the callback receives exactly
the fields id, type = emergency, hospital, location, bloodType, units (1 when
absent), copied from the selected request, with date and time taken from the
clock at the moment of the call. -/
theorem confirmDonation_effect_order (userProfile : Option UserProfile) (env : ConfirmEnv)
    (s : ViewState Num) (store : Store Num) (e : EmergencyRequest Num) (id : String)
    (hsel : s.selectedEmergency = some e) (hid : e.id = some id) (hne : id ≠ "")
    (hupd : env.updateDocOk = true) (hdel : env.deleteDocOk = true)
    (hsms : env.smsResult ≠ FetchResult.rejected) (hcb : env.hasCallback = true)
    (hcbok : env.callbackOk = true) :
    (∃ del sms, (confirmDonation userProfile env s store).2.trace =
        Effect.updateDoc id (e.donorsResponded.getD 0 + 1) env.responseTime ::
          (del ++ sms ++ [Effect.donationConfirmed (donationPayload env e id)]) ∧
      ((e.units.getD 1 ≤ e.donorsResponded.getD 0 + 1 ∧ del = [Effect.deleteDoc id]) ∨
        (e.donorsResponded.getD 0 + 1 < e.units.getD 1 ∧ del = [])) ∧
      ((∃ p phone, userProfile = some p ∧ p.phoneNumber = some phone ∧ phone ≠ "" ∧
          sms = [Effect.sendSms (some phone) (confirmationMessage e)]) ∨
        ((¬ ∃ p phone, userProfile = some p ∧ p.phoneNumber = some phone ∧ phone ≠ "") ∧
          sms = []))) ∧
    (confirmDonation userProfile env s store).2.completed = true ∧
    donationPayload env e id =
      { id := id, type := "emergency", hospital := e.hospital, location := e.location,
        bloodType := e.bloodType, units := orElse e.units 1,
        date := isoDate env.callbackDate, time := isoTime env.callbackTime } ∧
    (e.units = none → (donationPayload env e id).units = 1) ∧
    (∀ u, e.units = some u → u ≠ 0 → (donationPayload env e id).units = u) := by
  rw [confirmRun_of_selected userProfile env s store e id hsel hid hne]
  obtain ⟨htrace, hdone⟩ := stops_all_ok _ _ _ _ (confirmWrites_stops userProfile env e id store)
    (fun c _ => effectOk_of_all env hupd hdel hsms hcbok c)
  obtain ⟨del, sms, cb, hP, hdelc, hsmsc, hcbc⟩ := plannedEffects_eq userProfile env e id
  have hcb2 : cb = [Effect.donationConfirmed (donationPayload env e id)] := by
    rcases hcbc with ⟨-, h⟩ | ⟨h, -⟩
    · exact h
    · rw [hcb] at h
      cases h
  refine ⟨⟨del, sms, ?_, hdelc, hsmsc⟩, hdone, rfl, ?_, ?_⟩
  · rw [htrace, hP, hcb2]
  · intro hu
    show orElse e.units 1 = 1
    rw [hu]
    rfl
  · intro u hu hu0
    show orElse e.units 1 = u
    rw [hu]
    simp [orElse, hu0]

/-- Claim C22. The donor count written by `confirmDonation` depends only on
the snapshot of the selected request, not on the store: the calls made are the
same for every store. Two confirmations made one after the other from the same
snapshot with count n (both store writes succeeding) both write n + 1, each
takes its delete decision against n + 1, and when n + 1 is below the units the
stored count after both is n + 1, not n + 2. -/
theorem confirmDonation_lost_update (profile1 profile2 : Option UserProfile)
    (env1 env2 : ConfirmEnv) (s1 s2 : ViewState Num) (store : Store Num)
    (e : EmergencyRequest Num) (id : String)
    (hsel1 : s1.selectedEmergency = some e) (hsel2 : s2.selectedEmergency = some e)
    (hid : e.id = some id) (hne : id ≠ "")
    (hupd1 : env1.updateDocOk = true) (hdel1 : env1.deleteDocOk = true)
    (hupd2 : env2.updateDocOk = true) (hdel2 : env2.deleteDocOk = true) :
    (∀ other : Store Num, (confirmDonation profile1 env1 s1 other).2.trace =
      (confirmDonation profile1 env1 s1 store).2.trace) ∧
    (confirmDonation profile1 env1 s1 store).2.trace.head? =
      some (Effect.updateDoc id (e.donorsResponded.getD 0 + 1) env1.responseTime) ∧
    (confirmDonation profile2 env2 s2
        (confirmDonation profile1 env1 s1 store).2.store).2.trace.head? =
      some (Effect.updateDoc id (e.donorsResponded.getD 0 + 1) env2.responseTime) ∧
    (Effect.deleteDoc id ∈ (confirmDonation profile1 env1 s1 store).2.trace ↔
      e.units.getD 1 ≤ e.donorsResponded.getD 0 + 1) ∧
    (Effect.deleteDoc id ∈ (confirmDonation profile2 env2 s2
        (confirmDonation profile1 env1 s1 store).2.store).2.trace ↔
      e.units.getD 1 ≤ e.donorsResponded.getD 0 + 1) ∧
    (e.donorsResponded.getD 0 + 1 < e.units.getD 1 →
      ∀ d, store id = some d →
        (confirmDonation profile2 env2 s2
            (confirmDonation profile1 env1 s1 store).2.store).2.store id =
          some { request := { d.request with
                   donorsResponded := some (e.donorsResponded.getD 0 + 1) },
                 donorResponseTime := some env2.responseTime } ∧
        e.donorsResponded.getD 0 + 1 ≠ e.donorsResponded.getD 0 + 2) := by
  have hdelmem : ∀ (profile : Option UserProfile) (env : ConfirmEnv) (st : Store Num),
      env.updateDocOk = true → env.deleteDocOk = true →
      (confirmWrites profile env e id st).trace.head? =
        some (Effect.updateDoc id (e.donorsResponded.getD 0 + 1) env.responseTime) ∧
      (Effect.deleteDoc id ∈ (confirmWrites profile env e id st).trace ↔
        e.units.getD 1 ≤ e.donorsResponded.getD 0 + 1) := by
    intro profile env st hu hd
    obtain ⟨rest, hrest, h | h⟩ := confirmWrites_of_writes_ok profile env e id st hu hd
    · obtain ⟨hful, htrace, -⟩ := h
      rw [htrace]
      exact ⟨rfl, fun _ => hful, fun _ => by simp⟩
    · obtain ⟨hlt, htrace, -⟩ := h
      rw [htrace]
      refine ⟨rfl, fun hmem => ?_, fun hful => by omega⟩
      simp only [List.cons_append, List.nil_append, List.mem_cons] at hmem
      rcases hmem with hmem | hmem
      · cases hmem
      · have := hrest _ hmem
        simp [Effect.isStoreWrite] at this
  simp only [confirmRun_of_selected _ _ s1 _ e id hsel1 hid hne,
    confirmRun_of_selected _ _ s2 _ e id hsel2 hid hne]
  refine ⟨fun other => confirmWrites_trace_store _ _ _ _ _ _,
    (hdelmem profile1 env1 store hupd1 hdel1).1, (hdelmem profile2 env2 _ hupd2 hdel2).1,
    (hdelmem profile1 env1 store hupd1 hdel1).2, (hdelmem profile2 env2 _ hupd2 hdel2).2, ?_⟩
  intro hlt d hd
  refine ⟨?_, by omega⟩
  obtain ⟨rest1, -, h1 | h1⟩ := confirmWrites_of_writes_ok profile1 env1 e id store hupd1 hdel1
  · omega
  · obtain ⟨-, -, hstore1⟩ := h1
    obtain ⟨rest2, -, h2 | h2⟩ := confirmWrites_of_writes_ok profile2 env2 e id
      (confirmWrites profile1 env1 e id store).store hupd2 hdel2
    · omega
    · obtain ⟨-, -, hstore2⟩ := h2
      rw [hstore2, hstore1]
      rw [store_update_same _ id _ _ _ (store_update_same store id _ _ d hd)]

/-- Claim C23. In `confirmDonation` the calls made are always a prefix of the
sequence update, delete, SMS, parent callback, and they stop at the first
failing call: if the store update fails only the update is issued; if the
delete fails only the update and the delete are issued; if the SMS call is
rejected the calls end with the SMS; in these cases no parent callback is
invoked; and the view still moves to donation-confirmed. -/
theorem confirmDonation_stops_at_first_failure (userProfile : Option UserProfile)
    (env : ConfirmEnv) (s : ViewState Num) (store : Store Num) (e : EmergencyRequest Num)
    (id : String) (hsel : s.selectedEmergency = some e) (hid : e.id = some id)
    (hne : id ≠ "") :
    StopsAtFirstFailure (effectOk env) (plannedEffects userProfile env e id) []
      (confirmDonation userProfile env s store).2.trace
      (confirmDonation userProfile env s store).2.completed ∧
    (confirmDonation userProfile env s store).2.trace <+: plannedEffects userProfile env e id ∧
    (env.updateDocOk = false →
      (confirmDonation userProfile env s store).2.trace =
        [Effect.updateDoc id (e.donorsResponded.getD 0 + 1) env.responseTime]) ∧
    (env.updateDocOk = true → e.units.getD 1 ≤ e.donorsResponded.getD 0 + 1 →
      env.deleteDocOk = false →
      (confirmDonation userProfile env s store).2.trace =
        [Effect.updateDoc id (e.donorsResponded.getD 0 + 1) env.responseTime,
         Effect.deleteDoc id]) ∧
    (env.smsResult = FetchResult.rejected →
      ∀ recipient message,
        Effect.sendSms recipient message ∈ (confirmDonation userProfile env s store).2.trace →
        ∀ payload,
          Effect.donationConfirmed payload ∉ (confirmDonation userProfile env s store).2.trace) ∧
    (confirmDonation userProfile env s store).1.currentView = View.donationConfirmed := by
  have hstate := confirmDonation_state userProfile env s store
  rw [confirmRun_of_selected userProfile env s store e id hsel hid hne]
  have hstops := confirmWrites_stops userProfile env e id store
  refine ⟨hstops, stops_prefix _ _ _ _ hstops, ?_, ?_, ?_, by rw [hstate]⟩
  · intro hu
    simp [confirmWrites, hu, orElse_zero]
  · intro hu hful hd
    have hge : e.donorsResponded.getD 0 + 1 ≥ orElse e.units 1 :=
      (le_orElse_one_iff e.units _).2 hful
    simp [confirmWrites, confirmDelete, hu, hd, orElse_zero, hge]
  · intro hrej recipient message hmem payload hcb
    have hfail : effectOk env (Effect.sendSms recipient message) = false := by
      simp [effectOk, hrej]
    rcases hstops with ⟨hall, htrace, -⟩ | ⟨b, f, a, hP, hb, hf, htrace, -⟩
    · have hin : Effect.sendSms recipient message ∈ plannedEffects userProfile env e id := by
        rw [htrace] at hmem
        simpa using hmem
      rw [hall _ hin] at hfail
      cases hfail
    · rw [htrace] at hmem hcb
      simp only [List.nil_append, List.mem_append, List.mem_singleton] at hmem hcb
      -- the failing call is the SMS: every call before it succeeded
      have hf_sms : f = Effect.sendSms recipient message := by
        rcases hmem with hmem | hmem
        · rw [hb _ hmem] at hfail
          cases hfail
        · exact hmem.symm
      rcases hcb with hcb | hcb
      · -- a callback before the SMS contradicts the order of the planned calls
        obtain ⟨del, sms, cb, hP2, hdelc, hsmsc, hcbc⟩ := plannedEffects_eq userProfile env e id
        rw [hP2, hf_sms] at hP
        have hlast : ∀ x ∈ (Effect.updateDoc id (e.donorsResponded.getD 0 + 1)
            env.responseTime :: (del ++ sms)), ∀ q, x ≠ Effect.donationConfirmed q := by
          intro x hx q hxq
          subst hxq
          simp only [List.mem_cons, List.mem_append] at hx
          rcases hx with hx | hx | hx
          · cases hx
          · rcases hdelc with ⟨-, h⟩ | ⟨-, h⟩ <;> rw [h] at hx <;> simp at hx
          · rcases hsmsc with ⟨_, _, -, -, -, h⟩ | ⟨-, h⟩ <;> rw [h] at hx <;> simp at hx
        have hcbshape : cb = [] ∨ ∃ q, cb = [Effect.donationConfirmed q] := by
          rcases hcbc with ⟨-, h⟩ | ⟨-, h⟩
          · exact Or.inr ⟨_, h⟩
          · exact Or.inl h
        rcases hcbshape with hnil | ⟨q, hq⟩
        · rw [hnil, List.append_nil] at hP
          have : Effect.donationConfirmed payload ∈
              Effect.updateDoc id (e.donorsResponded.getD 0 + 1) env.responseTime ::
                (del ++ sms) := by
            have h2 : Effect.donationConfirmed payload ∈
                b ++ Effect.sendSms recipient message :: a :=
              List.mem_append_left _ hcb
            rw [← hP] at h2
            simpa [List.append_assoc] using h2
          exact hlast _ this payload rfl
        · rw [hq] at hP
          -- planned = prefix ++ [callback]; the SMS sits in the prefix, so `b` does too
          have hcases : a = [] ∨ ∃ a2, a = a2 ++ [Effect.donationConfirmed q] := by
            rcases List.eq_nil_or_concat a with h | ⟨a2, x, h⟩
            · exact Or.inl h
            · right
              refine ⟨a2, ?_⟩
              have h3 : (Effect.updateDoc id (e.donorsResponded.getD 0 + 1) env.responseTime ::
                  (del ++ sms)) ++ [Effect.donationConfirmed q] =
                  (b ++ Effect.sendSms recipient message :: a2) ++ [x] := by
                rw [h] at hP
                simpa [List.append_assoc] using hP
              have h4 := List.append_inj_right' h3 rfl
              rw [h]
              simp only [List.concat_eq_append]
              rw [← List.singleton_inj.1 h4]
          rcases hcases with ha | ⟨a2, ha⟩
          · rw [ha] at hP
            have h3 : (Effect.updateDoc id (e.donorsResponded.getD 0 + 1) env.responseTime ::
                (del ++ sms)) ++ [Effect.donationConfirmed q] =
                b ++ [Effect.sendSms recipient message] := by
              simpa [List.append_assoc] using hP
            have h4 := List.append_inj_right' h3 rfl
            cases List.singleton_inj.1 h4
          · rw [ha] at hP
            have h3 : (Effect.updateDoc id (e.donorsResponded.getD 0 + 1) env.responseTime ::
                (del ++ sms)) ++ [Effect.donationConfirmed q] =
                (b ++ Effect.sendSms recipient message :: a2) ++ [Effect.donationConfirmed q] := by
              simpa [List.append_assoc] using hP
            have h5 := List.append_inj_left' h3 rfl
            have : Effect.donationConfirmed payload ∈
                Effect.updateDoc id (e.donorsResponded.getD 0 + 1) env.responseTime ::
                  (del ++ sms) := by
              rw [h5]
              exact List.mem_append_left _ hcb
            exact hlast _ this payload rfl
      · rw [hf_sms] at hcb
        cases hcb

end PlannedClaims

end EmergencySection

/-! # Safety of the render functions, and further properties of the filter -/

namespace EmergencySection

section InvariantClaims

variable {Num : Type}

/-- An enabled action keeps the invariant `SelectionPresent`. -/
theorem perform_selectionPresent [LinearOrderedField Num] (js : Builtins Num) (a : Action Num)
    (s : ViewState Num) (hinv : SelectionPresent s) (h : enabled a s = true) :
    SelectionPresent (perform js a s) := by
  obtain ⟨hsel, hest⟩ := hinv
  cases a with
  | selectEmergency emergency =>
    exact ⟨fun _ => by simp [perform, handleEmergencySelect],
      fun hv => by simp [perform, handleEmergencySelect] at hv⟩
  | respondToNotification =>
    simp only [enabled, Bool.and_eq_true, decide_eq_true_eq] at h
    obtain ⟨emergency, hn⟩ := Option.isSome_iff_exists.1 h.2
    simp only [perform, hn]
    exact ⟨fun _ => by simp [handleEmergencySelect],
      fun hv => by simp [handleEmergencySelect] at hv⟩
  | backToList =>
    exact ⟨fun hv => absurd rfl hv, fun hv => by simp [perform, backToEmergencies] at hv⟩
  | respond userLocation mx =>
    simp only [enabled, Bool.and_eq_true, decide_eq_true_eq] at h
    simp only [perform, handleEmergencyResponse_eq]
    refine ⟨fun _ => ?_, fun _ => by simp⟩
    have hne : s.currentView ≠ View.emergencyList := by
      rw [h.1.1.1]
      decide
    exact hsel hne
  | respondViaSms result =>
    simp only [enabled, Bool.and_eq_true, decide_eq_true_eq] at h
    obtain ⟨e, he⟩ := Option.isSome_iff_exists.1 h.1.1.2
    by_cases hres : result = FetchResult.response true
    · subst hres
      simp only [perform, handleSMSEmergencyResponse_success s e he]
      exact ⟨fun _ => by simp [he], fun hv => by simp at hv⟩
    · simp only [perform, handleSMSEmergencyResponse_failure result s e he hres]
      exact ⟨fun _ => by simp [he], fun hv => by
        have : s.currentView = View.donorConfirmation := hv
        rw [h.1.1.1] at this
        cases this⟩
  | backToDetail =>
    simp only [enabled, Bool.and_eq_true, decide_eq_true_eq] at h
    obtain ⟨e, he⟩ := Option.isSome_iff_exists.1 h.1.2
    exact ⟨fun _ => by simp [perform, he], fun hv => by simp [perform] at hv⟩
  | confirm userProfile env store =>
    simp only [enabled, Bool.and_eq_true, decide_eq_true_eq] at h
    obtain ⟨e, he⟩ := Option.isSome_iff_exists.1 h.1.1.2
    simp only [perform, confirmDonation_state]
    exact ⟨fun _ => by simp [he], fun hv => by simp at hv⟩
  | connectivity online =>
    exact ⟨hsel, hest⟩

theorem reachable_selectionPresent [LinearOrderedField Num] (js : Builtins Num)
    (s : ViewState Num) (h : Reachable js s) : SelectionPresent s := by
  induction h with
  | initial online =>
    exact ⟨fun hv => absurd rfl hv, fun hv => by cases hv⟩
  | step a _ hen ih => exact perform_selectionPresent js a _ ih hen

/-- When every handler runs to its end before the next event (the step
relation `Reachable`), whenever the view is detail, donor-confirmation or
donation-confirmed the selected request is non-null, and whenever the view is
donor-confirmation the nearby-donor estimate is non-null. -/
theorem reachable_selection_non_null [LinearOrderedField Num] (js : Builtins Num)
    (s : ViewState Num) (h : Reachable js s) :
    ((s.currentView = View.emergencyDetail ∨ s.currentView = View.donorConfirmation ∨
        s.currentView = View.donationConfirmed) → ∃ e, s.selectedEmergency = some e) ∧
    (s.currentView = View.donorConfirmation → ∃ estimate, s.nearbyDonors = some estimate) := by
  obtain ⟨hsel, hest⟩ := reachable_selectionPresent js s h
  refine ⟨fun hv => ?_, fun hv => ?_⟩
  · have hne : s.currentView ≠ View.emergencyList := by
      rcases hv with hv | hv | hv <;> rw [hv] <;> decide
    exact Option.ne_none_iff_exists'.1 (hsel hne)
  · exact Option.ne_none_iff_exists'.1 (hest hv)

end InvariantClaims

end EmergencySection

namespace EmergencySection

section FurtherFilterClaims

variable {Num : Type}

/-- Claim C25. When the first entry of the request list matches the blood type
of the viewer but has no timestamp, the check takes the clock reading of line
74 as its time and raises the notification, whatever the request; likewise a
first entry whose timestamp lies in the future raises it. -/
theorem newEmergencyCheck_untimed_or_future [LinearOrderedField Num] (profile : UserProfile)
    (b : String) (requests : List (EmergencyRequest Num)) (r : EmergencyRequest Num)
    (now later : Num) (hb : profile.bloodType = some b) (hne : b ≠ "")
    (hhead : requests.head? = some r) (hbt : r.bloodType = some b) (hlater : now ≤ later) :
    (r.timestamp = none →
      newEmergencyCheck (some profile) (some requests) now later = some r) ∧
    (∀ seconds, r.timestamp = some seconds → now < seconds * 1000 →
      newEmergencyCheck (some profile) (some requests) now later = some r) := by
  rw [newEmergencyCheck_head profile b requests r now later hb hne hhead, if_pos hbt]
  refine ⟨fun hts => ?_, fun seconds hts hfuture => ?_⟩
  · rw [hts]
    have : (now - later) / 1000 / 60 < 5 := by
      rw [minutes_lt_five_iff]
      linarith
    simp only [this, if_true]
  · rw [hts]
    have : (now - seconds * 1000) / 1000 / 60 < 5 := by
      rw [minutes_lt_five_iff]
      linarith
    simp only [this, if_true]

theorem distancePredicate_mono [LinearOrderedField Num] (js : Builtins Num) (d1 d2 : Num)
    (u : Option (UserLocation Num)) (h1 : 0 < d1) (h12 : d1 ≤ d2) (e : EmergencyRequest Num)
    (h : distancePredicate js (some d1) u e = true) :
    distancePredicate js (some d2) u e = true := by
  rcases u with _ | u
  · rfl
  · have hd1 : d1 ≠ 0 := ne_of_gt h1
    have hd2 : d2 ≠ 0 := ne_of_gt (lt_of_lt_of_le h1 h12)
    have hw : withinDistance js d1 u e = true := by
      simpa [distancePredicate, hd1] using h
    obtain ⟨c, hc, hle⟩ := (withinDistance_iff js d1 u e).1 hw
    have hw2 : withinDistance js d2 u e = true :=
      (withinDistance_iff js d2 u e).2 ⟨c, hc, le_trans hle h12⟩
    simp [distancePredicate, hd2, hw2]

/-- Claim C26. The distance filter is monotone: for every request list, user
location, blood-type filter and query, and for all positive distances
`d1 ≤ d2`, the `applyFilters` result with distance filter `d1` is a sublist of
the result with distance filter `d2`. -/
theorem applyFilters_distance_monotone [LinearOrderedField Num] (js : Builtins Num)
    (emergencyRequests : Option (List (EmergencyRequest Num)))
    (bloodTypeFilter searchQuery : String) (userLocation : Option (UserLocation Num))
    (d1 d2 : Num) (h1 : 0 < d1) (h12 : d1 ≤ d2) :
    (applyFilters js emergencyRequests bloodTypeFilter searchQuery (some d1)
        userLocation).Sublist
      (applyFilters js emergencyRequests bloodTypeFilter searchQuery (some d2)
        userLocation) := by
  rw [applyFilters_eq, applyFilters_eq]
  refine (filter_sublist_filter_of_imp _ _ _ ?_).map tagRequest
  intro e he
  simp only [Bool.and_eq_true] at he ⊢
  exact ⟨he.1, distancePredicate_mono js d1 d2 userLocation h1 h12 e he.2⟩

/-- Claim C27. No blood type of the filter dropdown belongs to the rarity set;
so for every filter value taken from `bloodTypes` other than All, every element
of the `applyFilters` result has that blood type, which is not rare, no element
is tagged rare by the filter, every element takes the branch that defaults
`donorsResponded`, and no request of a rare type is listed. -/
theorem dropdown_types_not_rare [LinearOrderedField Num] (js : Builtins Num)
    (emergencyRequests : Option (List (EmergencyRequest Num)))
    (bloodTypeFilter searchQuery : String) (distanceFilter : Option Num)
    (userLocation : Option (UserLocation Num))
    (hbt : bloodTypeFilter ∈ bloodTypes) (hall : bloodTypeFilter ≠ "All") :
    (∀ b ∈ bloodTypes, b ∉ rareBloodTypes) ∧
    (∀ x ∈ applyFilters js emergencyRequests bloodTypeFilter searchQuery distanceFilter
        userLocation,
      x.bloodType = some bloodTypeFilter ∧ ¬ ∃ b ∈ rareBloodTypes, x.bloodType = some b) ∧
    ∃ kept : List (EmergencyRequest Num), kept.Sublist (emergencyRequests.getD []) ∧
      applyFilters js emergencyRequests bloodTypeFilter searchQuery distanceFilter
          userLocation =
        kept.map (fun e => { e with donorsResponded := some (e.donorsResponded.getD 0) }) := by
  have hdrop : ∀ b ∈ bloodTypes, b ∉ rareBloodTypes := by decide
  have hkeep : ∀ e ∈ (emergencyRequests.getD []).filter (fun e =>
      bloodTypePredicate bloodTypeFilter e && queryPredicate js searchQuery e &&
      distancePredicate js distanceFilter userLocation e),
      e.bloodType = some bloodTypeFilter := by
    intro e he
    have h := (List.mem_filter.1 he).2
    simp only [Bool.and_eq_true] at h
    simpa [bloodTypePredicate, matchesBloodType, hall] using h.1.1
  have hnr : isRareBloodType (some bloodTypeFilter) = false := by
    have := hdrop bloodTypeFilter hbt
    simpa [isRareBloodType] using this
  refine ⟨hdrop, ?_, ?_⟩
  · intro x hx
    rw [applyFilters_eq] at hx
    obtain ⟨e, he, rfl⟩ := List.mem_map.1 hx
    rw [tagRequest_bloodType, hkeep e he]
    refine ⟨rfl, ?_⟩
    rintro ⟨b, hb, hbe⟩
    cases hbe
    exact hdrop _ hbt hb
  · rw [applyFilters_eq]
    refine ⟨(emergencyRequests.getD []).filter (fun e =>
      bloodTypePredicate bloodTypeFilter e && queryPredicate js searchQuery e &&
      distancePredicate js distanceFilter userLocation e), List.filter_sublist _, ?_⟩
    apply List.map_congr_left
    intro e he
    apply tagRequest_of_not_rare
    rw [hkeep e he]
    exact hnr

theorem tagRequest_idem (e : EmergencyRequest Num) : tagRequest (tagRequest e) = tagRequest e := by
  cases h : isRareBloodType e.bloodType with
  | true =>
    rw [tagRequest_of_rare e h]
    exact tagRequest_of_rare _ h
  | false =>
    rw [tagRequest_of_not_rare e h]
    exact tagRequest_of_not_rare _ h

/-- Claim C29. `applyFilters` is idempotent: for every request list and fixed
filter settings, applying the same filters to the list it returned yields that
same list again (same elements, same order, same rare tags and
`donorsResponded` values). -/
theorem applyFilters_idempotent [LinearOrderedField Num] (js : Builtins Num)
    (emergencyRequests : Option (List (EmergencyRequest Num)))
    (bloodTypeFilter searchQuery : String) (distanceFilter : Option Num)
    (userLocation : Option (UserLocation Num)) :
    applyFilters js
        (some (applyFilters js emergencyRequests bloodTypeFilter searchQuery distanceFilter
          userLocation))
        bloodTypeFilter searchQuery distanceFilter userLocation =
      applyFilters js emergencyRequests bloodTypeFilter searchQuery distanceFilter
        userLocation := by
  rw [applyFilters_eq js (some _), applyFilters_eq js emergencyRequests]
  simp only [Option.getD_some]
  rw [List.filter_map, List.map_map, List.filter_filter]
  have hfun : (tagRequest ∘ tagRequest : EmergencyRequest Num → EmergencyRequest Num) =
      tagRequest := funext tagRequest_idem
  rw [hfun]
  congr 1
  apply List.filter_congr
  intro e _
  simp only [Function.comp, bloodTypePredicate_tagRequest, queryPredicate_tagRequest,
    distancePredicate_tagRequest, Bool.and_self]

end FurtherFilterClaims

end EmergencySection

namespace EmergencySection

section DistanceBounds

theorem haversineReference_nonneg (lat1 lon1 lat2 lon2 : ℝ) :
    0 ≤ haversineReference lat1 lon1 lat2 lon2 := by
  unfold haversineReference
  have h : 0 ≤ Real.arcsin (Real.sqrt (haversineTerm lat1 lon1 lat2 lon2)) :=
    Real.arcsin_nonneg.2 (Real.sqrt_nonneg _)
  positivity

theorem haversineReference_le (lat1 lon1 lat2 lon2 : ℝ) :
    haversineReference lat1 lon1 lat2 lon2 ≤ 6371 * Real.pi := by
  unfold haversineReference
  have h := Real.arcsin_le_pi_div_two (Real.sqrt (haversineTerm lat1 lon1 lat2 lon2))
  linarith

theorem roundOneDecimal_nonneg (x : ℝ) (hx : 0 ≤ x) : 0 ≤ roundOneDecimal x := by
  unfold roundOneDecimal
  have h : (0 : ℤ) ≤ round (x * 10) := by
    rw [round_eq, Int.floor_nonneg]
    linarith
  have h2 : (0 : ℝ) ≤ ((round (x * 10) : ℤ) : ℝ) := by exact_mod_cast h
  positivity

theorem roundOneDecimal_le (x : ℝ) (hx : x ≤ 6371 * Real.pi) :
    roundOneDecimal x ≤ 20015.1 := by
  unfold roundOneDecimal
  have hpi := Real.pi_lt_d6
  have h : round (x * 10) ≤ (200151 : ℤ) := by
    rw [round_eq, Int.floor_le_iff]
    push_cast
    nlinarith
  have h2 : ((round (x * 10) : ℤ) : ℝ) ≤ 200151 := by exact_mod_cast h
  rw [div_le_iff₀ (by norm_num)]
  norm_num
  linarith

/-- Claim C28. Over exact real arithmetic, for all latitudes and longitudes
the haversine term `a` computed by `calculateDistance` (line 131) lies between
0 and 1, so the arguments of both square roots are non-negative, and the
returned distance is non-negative and at most 20015.1 km. -/
theorem calculateDistance_bounds (lat1 lon1 lat2 lon2 : ℝ) :
    0 ≤ realBuiltins.sin ((lat2 - lat1) * realBuiltins.PI / 180 / 2) *
          realBuiltins.sin ((lat2 - lat1) * realBuiltins.PI / 180 / 2) +
        realBuiltins.cos (lat1 * realBuiltins.PI / 180) *
          realBuiltins.cos (lat2 * realBuiltins.PI / 180) *
          realBuiltins.sin ((lon2 - lon1) * realBuiltins.PI / 180 / 2) *
          realBuiltins.sin ((lon2 - lon1) * realBuiltins.PI / 180 / 2) ∧
    realBuiltins.sin ((lat2 - lat1) * realBuiltins.PI / 180 / 2) *
          realBuiltins.sin ((lat2 - lat1) * realBuiltins.PI / 180 / 2) +
        realBuiltins.cos (lat1 * realBuiltins.PI / 180) *
          realBuiltins.cos (lat2 * realBuiltins.PI / 180) *
          realBuiltins.sin ((lon2 - lon1) * realBuiltins.PI / 180 / 2) *
          realBuiltins.sin ((lon2 - lon1) * realBuiltins.PI / 180 / 2) ≤ 1 ∧
    calculateDistance realBuiltins lat1 lon1 lat2 lon2 =
      realBuiltins.round (6371 * (2 * realBuiltins.atan2
        (realBuiltins.sqrt
          (realBuiltins.sin ((lat2 - lat1) * realBuiltins.PI / 180 / 2) *
              realBuiltins.sin ((lat2 - lat1) * realBuiltins.PI / 180 / 2) +
            realBuiltins.cos (lat1 * realBuiltins.PI / 180) *
              realBuiltins.cos (lat2 * realBuiltins.PI / 180) *
              realBuiltins.sin ((lon2 - lon1) * realBuiltins.PI / 180 / 2) *
              realBuiltins.sin ((lon2 - lon1) * realBuiltins.PI / 180 / 2)))
        (realBuiltins.sqrt
          (1 - (realBuiltins.sin ((lat2 - lat1) * realBuiltins.PI / 180 / 2) *
              realBuiltins.sin ((lat2 - lat1) * realBuiltins.PI / 180 / 2) +
            realBuiltins.cos (lat1 * realBuiltins.PI / 180) *
              realBuiltins.cos (lat2 * realBuiltins.PI / 180) *
              realBuiltins.sin ((lon2 - lon1) * realBuiltins.PI / 180 / 2) *
              realBuiltins.sin ((lon2 - lon1) * realBuiltins.PI / 180 / 2))))) * 10) / 10 ∧
    0 ≤ calculateDistance realBuiltins lat1 lon1 lat2 lon2 ∧
    calculateDistance realBuiltins lat1 lon1 lat2 lon2 ≤ 20015.1 := by
  have ha : Real.sin ((lat2 - lat1) * Real.pi / 180 / 2) *
        Real.sin ((lat2 - lat1) * Real.pi / 180 / 2) +
      Real.cos (lat1 * Real.pi / 180) * Real.cos (lat2 * Real.pi / 180) *
        Real.sin ((lon2 - lon1) * Real.pi / 180 / 2) *
        Real.sin ((lon2 - lon1) * Real.pi / 180 / 2) =
      haversineTerm lat1 lon1 lat2 lon2 := by
    unfold haversineTerm; ring
  refine ⟨?_, ?_, rfl, ?_, ?_⟩
  · show 0 ≤ Real.sin ((lat2 - lat1) * Real.pi / 180 / 2) *
        Real.sin ((lat2 - lat1) * Real.pi / 180 / 2) +
      Real.cos (lat1 * Real.pi / 180) * Real.cos (lat2 * Real.pi / 180) *
        Real.sin ((lon2 - lon1) * Real.pi / 180 / 2) *
        Real.sin ((lon2 - lon1) * Real.pi / 180 / 2)
    rw [ha]
    exact haversineTerm_nonneg _ _ _ _
  · show Real.sin ((lat2 - lat1) * Real.pi / 180 / 2) *
        Real.sin ((lat2 - lat1) * Real.pi / 180 / 2) +
      Real.cos (lat1 * Real.pi / 180) * Real.cos (lat2 * Real.pi / 180) *
        Real.sin ((lon2 - lon1) * Real.pi / 180 / 2) *
        Real.sin ((lon2 - lon1) * Real.pi / 180 / 2) ≤ 1
    rw [ha]
    exact haversineTerm_le_one _ _ _ _
  · rw [calculateDistance_eq_reference]
    exact roundOneDecimal_nonneg _ (haversineReference_nonneg _ _ _ _)
  · rw [calculateDistance_eq_reference]
    exact roundOneDecimal_le _ (haversineReference_le _ _ _ _)

end DistanceBounds

end EmergencySection

namespace ProfileSection

section CloseClaims

theorem applyChanges_eq (changes : List (Field × String)) :
    ∀ s : ProfileState,
      applyChanges changes s = { s with editData := editedData changes s.editData } := by
  induction changes with
  | nil => intro s; rfl
  | cons c rest ih =>
    intro s
    have h : applyChanges (c :: rest) s = applyChanges rest (handleChange c.1 c.2 s) := rfl
    rw [h, ih]
    rfl

theorem editedData_append (changes : List (Field × String)) (key : Field) (value : String)
    (d : UserData) :
    editedData (changes ++ [(key, value)]) d = setField (editedData changes d) key value := by
  simp [editedData, List.foldl_append]

/-- Claim C30. Form edits touch only the staged form state, and closing the
edit modal does not revert them: for every sequence of `handleChange` calls
followed by `handleClose` with its timer (no save), the displayed profile and
the messages are unchanged, the staged form data is the data as edited (the
last value typed into the name input is still there), not reset to the
displayed profile, also after the modal is opened again; the selected image
file and its preview are cleared and the modal is hidden. -/
theorem handleClose_keeps_edits (changes : List (Field × String)) (s : ProfileState) :
    (handleCloseTimer (handleClose (applyChanges changes s))).user = s.user ∧
    (handleCloseTimer (handleClose (applyChanges changes s))).editData =
      editedData changes s.editData ∧
    (∀ rest value, changes = rest ++ [(Field.name, value)] →
      (handleCloseTimer (handleClose (applyChanges changes s))).editData.name = value) ∧
    (handleEditProfile (handleCloseTimer (handleClose (applyChanges changes s)))).editData =
      editedData changes s.editData ∧
    (handleCloseTimer (handleClose (applyChanges changes s))).imageFile = none ∧
    (handleCloseTimer (handleClose (applyChanges changes s))).imagePreview = none ∧
    (handleCloseTimer (handleClose (applyChanges changes s))).showEditModal = false ∧
    (handleCloseTimer (handleClose (applyChanges changes s))).animateIn = false ∧
    (handleCloseTimer (handleClose (applyChanges changes s))).error = s.error ∧
    (handleCloseTimer (handleClose (applyChanges changes s))).success = s.success ∧
    (handleCloseTimer (handleClose (applyChanges changes s))).loading = s.loading := by
  rw [applyChanges_eq]
  refine ⟨rfl, rfl, ?_, rfl, rfl, rfl, rfl, rfl, rfl, rfl, rfl⟩
  intro rest value hch
  show (editedData changes s.editData).name = value
  rw [hch, editedData_append]
  rfl

end CloseClaims

end ProfileSection

/-! # The claims applied to concrete inputs, concluded -/

namespace EmergencySection

section ConfirmationWitnesses

/-- Claim C21 at `noCoordinatesRequest` (1 unit, no count yet) for a viewer
with a phone number: the four calls are made in the order update, delete, SMS,
callback, and the callback receives 1 unit. -/
theorem confirmDonation_effect_order_witness :
    oneUnitState.selectedEmergency = some noCoordinatesRequest ∧
    noCoordinatesRequest.id = some "r2" ∧
    (confirmDonation (some donorProfile) okEnv oneUnitState oneUnitStore).2.trace =
      [Effect.updateDoc "r2" 1 "2025-03-01T10:15:30.000Z", Effect.deleteDoc "r2",
       Effect.sendSms (some "+911234567890") (confirmationMessage noCoordinatesRequest),
       Effect.donationConfirmed (donationPayload okEnv noCoordinatesRequest "r2")] ∧
    (donationPayload okEnv noCoordinatesRequest "r2").units = 1 := by
  obtain ⟨⟨del, sms, htrace, hdel, hsms⟩, -, -, -, hunits⟩ :=
    confirmDonation_effect_order (some donorProfile) okEnv oneUnitState oneUnitStore
      noCoordinatesRequest "r2" rfl rfl (by decide) rfl rfl (by decide) rfl rfl
  refine ⟨rfl, rfl, ?_, hunits 1 rfl (by decide)⟩
  rw [htrace]
  rcases hdel with ⟨-, rfl⟩ | ⟨hlt, -⟩
  · rcases hsms with ⟨p, phone, hp, hphone, -, rfl⟩ | ⟨hno, -⟩
    · have hp2 : donorProfile = p := Option.some.inj hp
      subst hp2
      have hphone2 : "+911234567890" = phone := Option.some.inj hphone
      subst hphone2
      rfl
    · exact absurd ⟨donorProfile, "+911234567890", rfl, rfl, by decide⟩ hno
  · exact absurd hlt (by decide)

/-- Claim C22 at `rareRequest` (2 units, no count yet): after two confirmations
made from the same snapshot the stored count is 1. -/
theorem confirmDonation_lost_update_witness :
    (detailState true).selectedEmergency = some rareRequest ∧
    (confirmDonation none okEnv (detailState true)
        (confirmDonation (some donorProfile) okEnv (detailState true)
          sampleStore).2.store).2.store "r1" =
      some { request := { rareRequest with donorsResponded := some 1 },
             donorResponseTime := some "2025-03-01T10:15:30.000Z" } :=
  ⟨rfl,
    ((confirmDonation_lost_update (some donorProfile) none okEnv okEnv (detailState true)
      (detailState true) sampleStore rareRequest "r1" rfl rfl rfl (by decide) rfl rfl rfl
      rfl).2.2.2.2.2 (by decide) { request := rareRequest, donorResponseTime := none } rfl).1⟩

/-- Claim C23 at `noCoordinatesRequest` when the store delete fails: the calls
made are the update and the delete only, and the view is donation-confirmed. -/
theorem confirmDonation_stops_at_first_failure_witness :
    oneUnitState.selectedEmergency = some noCoordinatesRequest ∧
    (confirmDonation (some donorProfile) deleteFailEnv oneUnitState oneUnitStore).2.trace =
      [Effect.updateDoc "r2" 1 "2025-03-01T10:15:30.000Z", Effect.deleteDoc "r2"] ∧
    (confirmDonation (some donorProfile) deleteFailEnv oneUnitState oneUnitStore).1.currentView =
      View.donationConfirmed :=
  ⟨rfl,
    (confirmDonation_stops_at_first_failure (some donorProfile) deleteFailEnv oneUnitState
      oneUnitStore noCoordinatesRequest "r2" rfl rfl (by decide)).2.2.2.1 rfl (by decide) rfl,
    (confirmDonation_stops_at_first_failure (some donorProfile) deleteFailEnv oneUnitState
      oneUnitStore noCoordinatesRequest "r2" rfl rfl (by decide)).2.2.2.2.2⟩

/-- Claim C25 at `untimedRequest` (no timestamp) and at `timedRequest` seen 100
seconds before its timestamp: both raise the notification. -/
theorem newEmergencyCheck_untimed_or_future_witness :
    untimedRequest.timestamp = none ∧
    newEmergencyCheck (some donorProfile) (some [untimedRequest]) (1600000 : ℚ) 1600000 =
      some untimedRequest ∧
    timedRequest.timestamp = some 1000 ∧
    newEmergencyCheck (some donorProfile) (some [timedRequest]) (900000 : ℚ) 900000 =
      some timedRequest :=
  ⟨rfl,
    (newEmergencyCheck_untimed_or_future donorProfile "O-" [untimedRequest] untimedRequest
      (1600000 : ℚ) 1600000 rfl (by decide) rfl rfl (le_refl _)).1 rfl,
    rfl,
    (newEmergencyCheck_untimed_or_future donorProfile "O-" [timedRequest] timedRequest
      (900000 : ℚ) 900000 rfl (by decide) rfl rfl (le_refl _)).2 1000 rfl (by norm_num)⟩

/-- Claim C26 at the distances 5 and 10 for a request 2 km away. -/
theorem applyFilters_distance_monotone_witness :
    (0 : ℝ) < 5 ∧ (5 : ℝ) ≤ 10 ∧
    (applyFilters realBuiltins (some [twoKmRequest]) "O-" "APOLLO" (some 5)
        (some originLocation)).Sublist
      (applyFilters realBuiltins (some [twoKmRequest]) "O-" "APOLLO" (some 10)
        (some originLocation)) :=
  ⟨by norm_num, by norm_num,
    applyFilters_distance_monotone realBuiltins (some [twoKmRequest]) "O-" "APOLLO"
      (some originLocation) 5 10 (by norm_num) (by norm_num)⟩

/-- Claim C27 at the dropdown value O-: every listed request has type O-. -/
theorem dropdown_types_not_rare_witness :
    "O-" ∈ bloodTypes ∧ "O-" ∉ rareBloodTypes ∧
    ∀ x ∈ applyFilters realBuiltins (some [twoKmRequest]) "O-" "APOLLO" (some 5)
        (some originLocation),
      x.bloodType = some "O-" :=
  ⟨by decide,
    (dropdown_types_not_rare realBuiltins (some [twoKmRequest]) "O-" "APOLLO" (some 5)
      (some originLocation) (by decide) (by decide)).1 "O-" (by decide),
    fun x hx => ((dropdown_types_not_rare realBuiltins (some [twoKmRequest]) "O-" "APOLLO"
      (some 5) (some originLocation) (by decide) (by decide)).2.1 x hx).1⟩

end ConfirmationWitnesses

end EmergencySection

namespace EmergencySection

section AwaitedCallClaims

variable {Num : Type}

theorem perform_respondViaSms [LinearOrderedField Num] (js : Builtins Num) (result : FetchResult)
    (s : ViewState Num) (h : s.selectedEmergency.isSome = true) :
    perform js (Action.respondViaSms result) s = smsResponseSettled result (beginProcessing s) := by
  obtain ⟨e, he⟩ := Option.isSome_iff_exists.1 h
  show (handleSMSEmergencyResponse result s).1 = _
  unfold handleSMSEmergencyResponse smsResponseSettled beginProcessing
  simp only [he]
  rcases result with _ | ok
  · rfl
  · cases ok <;> rfl

theorem perform_confirm [LinearOrderedField Num] (js : Builtins Num)
    (userProfile : Option UserProfile) (env : ConfirmEnv) (store : Store Num)
    (s : ViewState Num) :
    perform js (Action.confirm userProfile env store) s =
      confirmDonationSettled (beginProcessing s) := by
  show (confirmDonation userProfile env s store).1 = _
  rw [confirmDonation_state]
  rfl

/-- The step relation `Reachable` is the part of `Interleaved` in which no
event falls between the start of a handler and its awaited call. -/
theorem interleaved_of_reachable [LinearOrderedField Num] (js : Builtins Num)
    (s : ViewState Num) (h : Reachable js s) : Interleaved js s none := by
  induction h with
  | initial online => exact Interleaved.initial online
  | @step s0 a _ hen ih =>
    rcases hw : awaits a s0 with _ | call
    · exact Interleaved.event a ih hen hw
    · have hstart := Interleaved.start a call ih hen hw
      cases a with
      | respondViaSms result =>
        have hsel : s0.selectedEmergency.isSome = true := by
          simp only [enabled, Bool.and_eq_true] at hen
          exact hen.1.1.2
        have hc : call = Pending.smsResponse := by
          simp only [awaits, hsel, if_true] at hw
          exact (Option.some.inj hw).symm
        subst hc
        rw [perform_respondViaSms js result s0 hsel]
        exact Interleaved.smsSettled result hstart
      | confirm userProfile env store =>
        have hc : call = Pending.confirmation := by
          simp only [awaits] at hw
          split at hw
          · split at hw
            · exact (Option.some.inj hw).symm
            · cases hw
          · cases hw
        subst hc
        rw [perform_confirm]
        exact Interleaved.confirmationSettled hstart
      | selectEmergency _ => cases hw
      | respondToNotification => cases hw
      | backToList => cases hw
      | respond _ _ => cases hw
      | backToDetail => cases hw
      | connectivity _ => cases hw

/-- What remains true when events fall into an awaited call: in the detail and
donor-confirmation views, whose render functions are guarded, a request is
selected, and in the donor-confirmation view the estimate is present. -/
theorem interleaved_guarded_views [LinearOrderedField Num] (js : Builtins Num)
    (s : ViewState Num) (p : Option Pending) (h : Interleaved js s p) :
    (s.currentView = View.emergencyDetail ∨ s.currentView = View.donorConfirmation →
      s.selectedEmergency ≠ none) ∧
    (s.currentView = View.donorConfirmation → s.nearbyDonors ≠ none) := by
  induction h with
  | initial online =>
    refine ⟨fun hv => ?_, fun hv => by cases hv⟩
    rcases hv with hv | hv <;> cases hv
  | @event s0 p0 a _ hen _ ih =>
    obtain ⟨hsel, hest⟩ := ih
    cases a with
    | selectEmergency emergency =>
      exact ⟨fun _ => by simp [perform, handleEmergencySelect],
        fun hv => by simp [perform, handleEmergencySelect] at hv⟩
    | respondToNotification =>
      simp only [enabled, Bool.and_eq_true, decide_eq_true_eq] at hen
      obtain ⟨emergency, hn⟩ := Option.isSome_iff_exists.1 hen.2
      simp only [perform, hn]
      exact ⟨fun _ => by simp [handleEmergencySelect],
        fun hv => by simp [handleEmergencySelect] at hv⟩
    | backToList =>
      exact ⟨fun hv => by simp [perform, backToEmergencies] at hv,
        fun hv => by simp [perform, backToEmergencies] at hv⟩
    | respond userLocation mx =>
      simp only [enabled, Bool.and_eq_true, decide_eq_true_eq] at hen
      simp only [perform, handleEmergencyResponse_eq]
      exact ⟨fun _ => hsel (Or.inl hen.1.1.1), fun _ => by simp⟩
    | respondViaSms result =>
      simp only [enabled, Bool.and_eq_true, decide_eq_true_eq] at hen
      obtain ⟨e, he⟩ := Option.isSome_iff_exists.1 hen.1.1.2
      by_cases hres : result = FetchResult.response true
      · subst hres
        simp only [perform, handleSMSEmergencyResponse_success s0 e he]
        exact ⟨fun _ => by simp [he], fun hv => by simp at hv⟩
      · simp only [perform, handleSMSEmergencyResponse_failure result s0 e he hres]
        exact ⟨fun _ => by simp [he], fun hv => by
          have : s0.currentView = View.donorConfirmation := hv
          rw [hen.1.1.1] at this
          cases this⟩
    | backToDetail =>
      simp only [enabled, Bool.and_eq_true, decide_eq_true_eq] at hen
      obtain ⟨e, he⟩ := Option.isSome_iff_exists.1 hen.1.2
      exact ⟨fun _ => by simp [perform, he], fun hv => by simp [perform] at hv⟩
    | confirm userProfile env store =>
      simp only [perform, confirmDonation_state]
      exact ⟨fun hv => by simp at hv, fun hv => by simp at hv⟩
    | connectivity online =>
      exact ⟨hsel, hest⟩
  | @start s0 a call _ _ _ ih => exact ih
  | @smsSettled s0 result _ ih =>
    obtain ⟨hsel, hest⟩ := ih
    unfold smsResponseSettled
    split
    · exact ⟨fun hv => by simp at hv, fun hv => by simp at hv⟩
    · exact ⟨hsel, hest⟩
  | @confirmationSettled s0 _ ih =>
    exact ⟨fun hv => by simp [confirmDonationSettled] at hv,
      fun hv => by simp [confirmDonationSettled] at hv⟩

/-- Claim C24 at a failing run. Online, the user selects `rareRequest`, responds
and confirms; while the store update of `confirmDonation` is awaited the user
goes back to the detail view and on to the list, which clears the selection;
the handler then sets the view to donation-confirmed. The state reached shows
the confirmed view with a null selection, and `renderDonationConfirmed` reads
the selection. -/
theorem confirmed_view_without_selection :
    Interleaved realBuiltins strandedState none ∧
    strandedState.currentView = View.donationConfirmed ∧
    strandedState.selectedEmergency = none ∧
    renderCurrentViewReturns strandedState = false := by
  have r1 : Interleaved realBuiltins (detailState true) none :=
    Interleaved.event (Action.selectEmergency rareRequest) (Interleaved.initial true) rfl rfl
  have r2 : Interleaved realBuiltins confirmationState none :=
    Interleaved.event (Action.respond none (zeroEstimate ℝ)) r1 rfl rfl
  have r3 : Interleaved realBuiltins (beginProcessing confirmationState)
      (some Pending.confirmation) :=
    Interleaved.start (Action.confirm none okEnv sampleStore) Pending.confirmation r2 rfl rfl
  have r4 := Interleaved.event Action.backToDetail r3 rfl rfl
  have r5 := Interleaved.event Action.backToList r4 rfl rfl
  exact ⟨Interleaved.confirmationSettled r5, rfl, rfl, rfl⟩

end AwaitedCallClaims

end EmergencySection
